import Mathlib

/-!
LTree: scoring, outcome projection, life expectancy, countdown, store fallback and CSV.

A shallow embedding of the core of `script.js` (class `LifePredictionApp`).

Modelling conventions
* JavaScript numbers are modelled as exact rationals (`ℚ`); the decimal constants
  `0.1`, `0.2`, `0.3`, `0.4`, `0.7` are the rationals `1/10`, `1/5`, `3/10`, `2/5`, `7/10`.
  Binary floating-point rounding, `NaN` and the infinities are outside the model,
  except for `calculateConcreteOutcomes`, whose rounded values depend on the rounding
  of the doubles: it is given in exact arithmetic and in double precision.
* An instant is a number of milliseconds since the epoch (`Int`), the value of
  `Date.prototype.getTime`.  `new Date(s)` for a string that is not a date has no
  time value; a stored timestamp is therefore an `Option Int`, and every comparison
  with a missing time value is false, as a comparison with `NaN` is.
* `Date.prototype.setDate(getDate() - days)` moves the wall clock back by whole
  calendar days; the model takes a zone without clock changes, where this is
  `days * 86400000` milliseconds.
* A plain JavaScript object used as a map is an association list in insertion order.
* A `Date` whose calendar fields are read is held by those fields, and its time value
  is computed by the ECMAScript `MakeDay` / `MakeDate`; the local zone has no offset,
  so a date string `YYYY-MM-DD` is midnight of that day.
* One run of a handler reads the clock once: every `new Date()` and `Date.now()` in it
  is the same instant.
* The IndexedDB store is a record of its contents; how a request ends (success, request
  error, exception) is an argument of the operation that issues it.
* Text is a list of characters where the code walks it character by character.
* Opening the store is followed on the schema alone: the version, the object stores
  and their index names.
-/

namespace LTree

/-! ## Data model -/

/-- One entry of `choiceHistory`: the record built in `makeChoice` plus the `id`
added by `saveChoice`.  `timestamp` is the time value of `new Date(choice.timestamp)`. -/
structure ChoiceRecord where
  id : Option Int
  timestamp : Option Int
  question : String
  choice : String
  category : String
  value : String
  weight : ℚ
  deriving DecidableEq

/-- The `{optimistic, realistic, pessimistic}` object of one outcome domain, with the
domain's fixed caveat string (`blackSwanRisk`, `volatilityWarning`,
`disappointmentNote`, `blockageNote` in the source). -/
structure OutcomeRange where
  optimistic : Int
  realistic : Int
  pessimistic : Int
  note : String
  deriving DecidableEq

/-- The object returned by `calculateConcreteOutcomes`. -/
structure ConcreteOutcomes where
  financial : OutcomeRange
  respect : OutcomeRange
  relationships : OutcomeRange
  opportunities : OutcomeRange
  deriving DecidableEq

/-- The object returned by `calculateScores`. -/
structure Scores where
  abstract : List (String × ℚ)
  concrete : ConcreteOutcomes
  deriving DecidableEq

/-- The object returned by `calculateLifeExpectancy`. -/
structure LifeExpectancies where
  optimistic : ℚ
  realistic : ℚ
  pessimistic : ℚ
  deriving DecidableEq

/-! ## JavaScript primitives -/

/-- `Array.prototype.slice(start)`: a negative `start` counts from the end. -/
def sliceFrom {α : Type} (xs : List α) (start : Int) : List α :=
  let len : Int := xs.length
  let k : Int := if start < 0 then max (len + start) 0 else min start len
  xs.drop k.toNat

/-- `Array.prototype.slice(0, stop)`: a negative `stop` counts from the end. -/
def sliceTo {α : Type} (xs : List α) (stop : Int) : List α :=
  let len : Int := xs.length
  let k : Int := if stop < 0 then max (len + stop) 0 else min stop len
  xs.take k.toNat

/-- `Math.round`: the nearest integer, a tie going up. -/
def jsRound (x : ℚ) : Int := Int.floor (x + 1 / 2)

/-- `obj[key] = value` on a plain object: overwrite in place or append. -/
def objSet (obj : List (String × ℚ)) (key : String) (value : ℚ) : List (String × ℚ) :=
  if obj.any (fun p => p.1 == key) then
    obj.map (fun p => if p.1 == key then (key, value) else p)
  else obj ++ [(key, value)]

/-- `Object.values(obj)`. -/
def objectValues (obj : List (String × ℚ)) : List ℚ := obj.map Prod.snd

/-- `choices.reduce((sum, choice) => sum + choice.weight, 0)`. -/
def sumWeights (choices : List ChoiceRecord) : ℚ :=
  choices.foldl (fun sum choice => sum + choice.weight) 0

/-- `values.reduce((sum, score) => sum + score, 0)`. -/
def sumScores (values : List ℚ) : ℚ :=
  values.foldl (fun sum score => sum + score) 0

/-! ## Scoring engine -/

def msPerDay : Int := 24 * 60 * 60 * 1000

/-- The `cutoffDate` of `getRecentChoices`. -/
def cutoffDate (now : Int) (days : Int) : Int := now - days * msPerDay

/-- `new Date(choice.timestamp) > cutoffDate`. -/
def isAfter (timestamp : Option Int) (cutoff : Int) : Bool :=
  match timestamp with
  | some t => decide (t > cutoff)
  | none => false

def getRecentChoices (choiceHistory : List ChoiceRecord) (now : Int) (days : Int) :
    List ChoiceRecord :=
  choiceHistory.filter (fun choice => isAfter choice.timestamp (cutoffDate now days))

def calculateTrend (choices : List ChoiceRecord) : ℚ :=
  if choices.length < 2 then 0
  else
    let recent := sliceFrom choices (-3)
    let older := sliceTo choices (-3)
    let recentAvg := sumWeights recent / recent.length
    let olderAvg := if older.length > 0 then sumWeights older / older.length else recentAvg
    (recentAvg - olderAvg) * (1 / 5)

/-- A division by an array length that reports the empty array: `none` when the
length is `0`. -/
def divLength (sum : ℚ) (length : Nat) : Option ℚ :=
  if length = 0 then none else some (sum / length)

/-- The body of `calculateTrend` with every division by a slice length checked:
the result is `none` as soon as one evaluated division has an empty slice as divisor. -/
def calculateTrendChecked (choices : List ChoiceRecord) : Option ℚ :=
  if choices.length < 2 then some 0
  else
    let recent := sliceFrom choices (-3)
    let older := sliceTo choices (-3)
    (divLength (sumWeights recent) recent.length).bind fun recentAvg =>
      (if older.length > 0 then divLength (sumWeights older) older.length
        else some recentAvg).bind fun olderAvg =>
        some ((recentAvg - olderAvg) * (1 / 5))

def categories : List String :=
  ["mindfulness", "intention", "action", "appreciation", "presence", "selfBelief",
    "agency", "validation"]

/-- The value `calculateScores` stores in `abstract[category]`, given the
`categoryChoices` of that category. -/
def categoryScore (categoryChoices : List ChoiceRecord) : ℚ :=
  if categoryChoices.length > 0 then
    let avgWeight := sumWeights categoryChoices / categoryChoices.length
    let trend := calculateTrend categoryChoices
    min 100 (max 0 (avgWeight + trend))
  else 50

/-- The `abstract` object after the `categories.forEach` loop of `calculateScores`. -/
def abstractScores (recentChoices : List ChoiceRecord) : List (String × ℚ) :=
  categories.foldl
    (fun abstract category =>
      objSet abstract category
        (categoryScore (recentChoices.filter (fun choice => choice.category == category))))
    []

/-- The local `avgAbstract` of `calculateScores`. -/
def avgAbstract (abstract : List (String × ℚ)) : ℚ :=
  sumScores (objectValues abstract) / (objectValues abstract).length

def calculateConcreteOutcomes (abstractScore : ℚ) : ConcreteOutcomes :=
  let murphyMultiplier : ℚ := 7 / 10
  let unpredictabilityFactor : ℚ := 2 / 5
  let baseInfluence : ℚ := abstractScore * (3 / 10)
  { financial :=
      { optimistic := jsRound (min 80 (baseInfluence + 40))
        realistic := jsRound (min 60 ((baseInfluence + 20) * murphyMultiplier))
        pessimistic := jsRound (min 40 (baseInfluence * murphyMultiplier))
        note := "Economic collapse, automation displacement, or systemic failure could override all personal efforts" }
    respect :=
      { optimistic := jsRound (min 70 (baseInfluence + 30))
        realistic := jsRound (min 50 ((baseInfluence + 15) * murphyMultiplier))
        pessimistic := jsRound (min 30 (baseInfluence * murphyMultiplier * unpredictabilityFactor))
        note := "Social respect is highly volatile and often depends on factors beyond personal character" }
    relationships :=
      { optimistic := jsRound (min 75 (baseInfluence + 35))
        realistic := jsRound (min 55 ((baseInfluence + 20) * murphyMultiplier))
        pessimistic := jsRound (min 35 (baseInfluence * murphyMultiplier * unpredictabilityFactor))
        note := "Even strong personal development cannot guarantee relationship outcomes due to others' unpredictable choices" }
    opportunities :=
      { optimistic := jsRound (min 65 (baseInfluence + 25))
        realistic := jsRound (min 45 ((baseInfluence + 10) * murphyMultiplier))
        pessimistic := jsRound (min 25 (baseInfluence * murphyMultiplier * unpredictabilityFactor))
        note := "External forces, timing, and systemic barriers often block opportunities regardless of preparation" } }

/-- `calculateScores`, reading the clock once at `now`. -/
def calculateScores (choiceHistory : List ChoiceRecord) (now : Int) : Scores :=
  let recentChoices := getRecentChoices choiceHistory now 30
  let abstract := abstractScores recentChoices
  { abstract := abstract
    concrete := calculateConcreteOutcomes (avgAbstract abstract) }

/-- The `avgAbstract` recomputed by `updateCountdownDisplay` from
`currentScores.abstract`. -/
def countdownAvgAbstract (abstract : List (String × ℚ)) : ℚ :=
  if (objectValues abstract).length > 0 then
    sumScores (objectValues abstract) / (objectValues abstract).length
  else 50

/-! ## Life expectancy -/

/-- The `diseaseImpact` table. -/
def diseaseImpact : List (String × ℚ) :=
  [("none", 0), ("diabetes", -6), ("heart_disease", -8), ("cancer", -10),
    ("hypertension", -4), ("obesity", -5), ("smoking", -10), ("mental_health", -7),
    ("other", -5)]

/-- `diseaseImpact[disease] || 0`, for a token that is an own key of the table or
no property of it at all. -/
def impactOf (disease : String) : ℚ :=
  match diseaseImpact.lookup disease with
  | some impact => impact
  | none => 0

/-- The local `totalImpact` of `calculateLifeExpectancy` when the estimate is taken. -/
def totalImpact (diseases : List String) : ℚ :=
  if diseases.contains "none" then 0
  else
    let summed := diseases.foldl (fun total disease => total + impactOf disease) 0
    if diseases.length > 1 then summed * (1 - ((diseases.length : ℚ) - 1) * (1 / 10))
    else summed

def calculateLifeExpectancy (age : ℚ) (diseases : List String) : LifeExpectancies :=
  let baseExpectancy : ℚ := 73
  let realisticAge := max (age + 1) (baseExpectancy + totalImpact diseases)
  let optimisticAge := realisticAge + (if diseases.contains "none" then 10 else 7)
  let pessimisticAge :=
    max (age + 1) (realisticAge - (if diseases.contains "none" then 3 else 6))
  { optimistic := optimisticAge
    realistic := realisticAge
    pessimistic := pessimisticAge }


/-! ## Specification-side notions and worked inputs -/

/-- The mean weight of a list of choices as the specification speaks of it: a list
with no choice has no mean. -/
def meanWeight? (choices : List ChoiceRecord) : Option ℚ :=
  if choices = [] then none
  else some ((choices.map (fun x => x.weight)).sum / choices.length)

/-- A choice of category `action` stamped at instant `0`. -/
def actionChoice (weight : ℚ) : ChoiceRecord :=
  { id := none, timestamp := some 0, question := "q", choice := "c",
    category := "action", value := "v", weight := weight }

/-- Four `action` choices with weights 0, 100, 100, 100. -/
def fourActionChoices : List ChoiceRecord :=
  [actionChoice 0, actionChoice 100, actionChoice 100, actionChoice 100]

/-- The choice log with every choice whose timestamp is at or before
`now - 30 days` (2592000000 ms) removed, in the specification's words. -/
def dropStale (choiceHistory : List ChoiceRecord) (now : Int) : List ChoiceRecord :=
  choiceHistory.filter (fun choice =>
    match choice.timestamp with
    | some t => !decide (t ≤ now - 2592000000)
    | none => true)

/-- The integer `n` is `x` rounded to the nearest integer, a tie going up:
`x - 1/2 < n ≤ x + 1/2`. -/
def IsRounded (x : ℚ) (n : Int) : Prop :=
  (n : ℚ) ≤ x + 1 / 2 ∧ x + 1 / 2 < (n : ℚ) + 1

/-! ## Dates and the countdown -/

/-- A `Date` object, held by the calendar fields its getters return (`getFullYear`,
`getMonth`, 0-based, `getDate`) and the milliseconds elapsed within the day.  The
local zone is taken to have no offset, so these are also the UTC fields. -/
structure JsDate where
  fullYear : Int
  month : Int
  date : Int
  timeInDay : Int
  deriving DecidableEq

/-- ECMAScript `DayFromYear`: the day number of 1 January of year `y`. -/
def dayFromYear (y : Int) : Int :=
  365 * (y - 1970) + (y - 1969) / 4 - (y - 1901) / 100 + (y - 1601) / 400

/-- Whether ECMAScript `DaysInYear(y)` is 366. -/
def inLeapYear (y : Int) : Bool :=
  (y % 4 == 0 && y % 100 != 0) || y % 400 == 0

/-- The number of days of the year before the first day of month `m` (0-based). -/
def daysBeforeMonth (leap : Bool) (m : Int) : Int :=
  let l : Int := if leap then 1 else 0
  if m = 0 then 0
  else if m = 1 then 31
  else if m = 2 then 59 + l
  else if m = 3 then 90 + l
  else if m = 4 then 120 + l
  else if m = 5 then 151 + l
  else if m = 6 then 181 + l
  else if m = 7 then 212 + l
  else if m = 8 then 243 + l
  else if m = 9 then 273 + l
  else if m = 10 then 304 + l
  else 334 + l

/-- ECMAScript `MakeDay(year, month, date)` on integers: the day number of the first
of the month, plus `date - 1`; a `date` past the end of the month runs over into the
next one. -/
def makeDay (year month date : Int) : Int :=
  let ym := year + month / 12
  let mn := month % 12
  dayFromYear ym + daysBeforeMonth (inLeapYear ym) mn + date - 1

/-- ECMAScript `MakeDate(day, time)`. -/
def makeDate (day time : Int) : Int := day * msPerDay + time

/-- `Date.prototype.getTime`. -/
def JsDate.getTime (d : JsDate) : Int :=
  makeDate (makeDay d.fullYear d.month d.date) d.timeInDay

/-- ECMAScript `ToIntegerOrInfinity` on a finite number: truncation towards zero. -/
def jsTruncate (x : ℚ) : Int := if 0 ≤ x then Int.floor x else Int.ceil x

/-- The time value of a date after `setFullYear(year)`: `MakeDay` truncates the year
to an integer and keeps the month, the day of the month and the time within the day. -/
def setFullYear (d : JsDate) (year : ℚ) : Int :=
  makeDate (makeDay (jsTruncate year) d.month d.date) d.timeInDay

/-- The time value of `new Date(value)`: `TimeClip` truncates to whole milliseconds
(the range limit of ±8.64e15 ms is not modelled). -/
def timeClip (value : ℚ) : Int := jsTruncate value

/-- `Math.floor(a / b)` for integers `a`, `b`. -/
def floorDiv (a b : Int) : Int := Int.floor ((a : ℚ) / (b : ℚ))

/-- The JavaScript remainder `a % b` on integers: the sign follows the dividend. -/
def jsRem (a b : Int) : Int := Int.tmod a b

/-- The four numbers handed to one of the display functions. -/
structure CountdownUnits where
  days : Int
  hours : Int
  minutes : Int
  seconds : Int
  deriving DecidableEq

/-- What one run of `updateCountdownDisplay` hands to `displayTotalCountdown`,
`updateGlobalClock` and, per scenario, `displayCountdownForScenario`. -/
structure CountdownDisplay where
  total : CountdownUnits
  globalClock : CountdownUnits
  optimistic : CountdownUnits
  realistic : CountdownUnits
  pessimistic : CountdownUnits
  deriving DecidableEq

/-- The keys of `lifeExpectancies` the countdown iterates over. -/
inductive Scenario where
  | optimistic
  | realistic
  | pessimistic
  deriving DecidableEq

/-- `this.lifeExpectancies[scenario]`. -/
def LifeExpectancies.get (e : LifeExpectancies) : Scenario → ℚ
  | .optimistic => e.optimistic
  | .realistic => e.realistic
  | .pessimistic => e.pessimistic

/-- The local `choiceImpactDays` of `updateCountdownDisplay`. -/
def choiceImpactDays (avgAbstract : ℚ) : ℚ := ((avgAbstract - 50) / 50) * 1095

/-- The local `adjustedChoiceImpact` of the scenario loop. -/
def adjustedChoiceImpact (choiceImpactDays : ℚ) : Scenario → ℚ
  | .pessimistic => choiceImpactDays * (1 / 2)
  | .optimistic => choiceImpactDays * (3 / 2)
  | .realistic => choiceImpactDays

/-- The time value of `adjustedDeathDate`: the birth date copied, `setFullYear` at
birth year plus life expectancy, then `new Date(getTime() + impact * 24*60*60*1000)`. -/
def adjustedDeathTime (birthDate : JsDate) (lifeExpectancy : ℚ) (impactDays : ℚ) : Int :=
  timeClip ((setFullYear birthDate ((birthDate.fullYear : ℚ) + lifeExpectancy) : ℚ) +
    impactDays * 24 * 60 * 60 * 1000)

/-- The `days, hours, minutes, seconds` breakdown of a time difference. -/
def breakdownUnits (timeDiff : Int) : CountdownUnits :=
  { days := floorDiv timeDiff (1000 * 60 * 60 * 24)
    hours := floorDiv (jsRem timeDiff (1000 * 60 * 60 * 24)) (1000 * 60 * 60)
    minutes := floorDiv (jsRem timeDiff (1000 * 60 * 60)) (1000 * 60)
    seconds := floorDiv (jsRem timeDiff (1000 * 60)) 1000 }

/-- The `absoluteDays, absoluteHours, absoluteMinutes, absoluteSeconds` totals. -/
def absoluteUnits (timeDiff : Int) : CountdownUnits :=
  { days := floorDiv timeDiff (1000 * 60 * 60 * 24)
    hours := floorDiv timeDiff (1000 * 60 * 60)
    minutes := floorDiv timeDiff (1000 * 60)
    seconds := floorDiv timeDiff 1000 }

def zeroUnits : CountdownUnits := { days := 0, hours := 0, minutes := 0, seconds := 0 }

/-- The body of the scenario loop: what `displayCountdownForScenario` receives. -/
def scenarioUnits (birthDate : JsDate) (lifeExpectancies : LifeExpectancies)
    (choiceImpactDays : ℚ) (now : Int) (scenario : Scenario) : CountdownUnits :=
  let timeDiff :=
    adjustedDeathTime birthDate (lifeExpectancies.get scenario)
      (adjustedChoiceImpact choiceImpactDays scenario) - now
  if timeDiff ≤ 0 then zeroUnits else breakdownUnits timeDiff

/-- One tick of `updateCountdownDisplay` at clock reading `now`; `none` is the early
return taken when the date of birth or the life expectancies are not set. -/
def updateCountdownDisplay (userDOB : Option JsDate)
    (lifeExpectancies : Option LifeExpectancies) (choiceHistory : List ChoiceRecord)
    (now : Int) : Option CountdownDisplay :=
  match userDOB, lifeExpectancies with
  | some birthDate, some expectancies =>
    let currentScores := calculateScores choiceHistory now
    let impact := choiceImpactDays (countdownAvgAbstract currentScores.abstract)
    let realisticTimeDiff := adjustedDeathTime birthDate expectancies.realistic impact - now
    some
      { total := if realisticTimeDiff ≤ 0 then zeroUnits else absoluteUnits realisticTimeDiff
        globalClock :=
          if realisticTimeDiff ≤ 0 then zeroUnits else breakdownUnits realisticTimeDiff
        optimistic := scenarioUnits birthDate expectancies impact now .optimistic
        realistic := scenarioUnits birthDate expectancies impact now .realistic
        pessimistic := scenarioUnits birthDate expectancies impact now .pessimistic }
  | _, _ => none

/-- The seconds a `days, hours, minutes, seconds` breakdown stands for. -/
def unitsSeconds (u : CountdownUnits) : Int :=
  u.days * 86400 + u.hours * 3600 + u.minutes * 60 + u.seconds

/-- A date of birth of 15 June 1985, midnight. -/
def bornJune1985 : JsDate := { fullYear := 1985, month := 5, date := 15, timeInDay := 0 }

/-- A date of birth of 1 January 1970, midnight (time value 0). -/
def bornEpoch : JsDate := { fullYear := 1970, month := 0, date := 1, timeInDay := 0 }

/-! ## Application state and the store -/

/-- The record kept under the key `user` in the `lifeParameters` object store.
`dob` is `none` for a stored `null`; `lifeExpectancy` is the scalar of the legacy
format. -/
structure StoredLifeParameters where
  dob : Option JsDate
  diseases : Option (List String)
  lifeExpectancies : Option LifeExpectancies
  lifeExpectancy : Option ℚ
  deriving DecidableEq

/-- The opened IndexedDB database: the contents of the `choices` object store, its
auto-increment key generator, and the `lifeParameters` slot. -/
structure Database where
  choices : List ChoiceRecord
  keyGenerator : Int
  lifeParameters : Option StoredLifeParameters
  deriving DecidableEq

/-- The fields of the application object the store operations read and write. -/
structure AppState where
  db : Option Database
  choiceHistory : List ChoiceRecord
  userDOB : Option JsDate
  userDiseases : List String
  lifeExpectancies : Option LifeExpectancies
  deriving DecidableEq

/-- How a store request ends: `request.onsuccess` fires; or the request fails, so
`request.onerror` fires and the error event bubbles to `transaction.onerror`; or
opening the transaction or issuing the request throws and the `catch` block runs. -/
inductive StoreOutcome where
  | success
  | requestError
  | thrown
  deriving DecidableEq

/-- What a handler does besides updating the application fields. -/
inductive Effect where
  | alert (message : String)
  | saveLifeParameters
  | showScreen (screenName : String)
  | startCountdown
  deriving DecidableEq

/-- `new Date(this.userDOB)`: `new Date(null)` is the epoch. -/
def dateOfDOB (userDOB : Option JsDate) : JsDate :=
  match userDOB with
  | some d => d
  | none => { fullYear := 1970, month := 0, date := 1, timeInDay := 0 }

/-- `calculateAge(birthDate)`, with `today` the value of `new Date()`. -/
def calculateAge (today birthDate : JsDate) : Int :=
  let age := today.fullYear - birthDate.fullYear
  let monthDiff := today.month - birthDate.month
  if monthDiff < 0 ∨ (monthDiff = 0 ∧ today.date < birthDate.date) then age - 1 else age

def loadChoiceHistory (s : AppState) (outcome : StoreOutcome) : AppState :=
  match s.db with
  | none => { s with choiceHistory := [] }
  | some db =>
    match outcome with
    | .success => { s with choiceHistory := db.choices }
    | .requestError => { s with choiceHistory := [] }
    | .thrown => { s with choiceHistory := [] }

/-- `this.choiceHistory.push({...choiceRecord, id: id})`. -/
def pushChoice (s : AppState) (choiceRecord : ChoiceRecord) (id : Int) : AppState :=
  { s with choiceHistory := s.choiceHistory ++ [{ choiceRecord with id := some id }] }

/-- The key `store.add` gives a record: its own `id` if it has one, else the next value
of the key generator. -/
def addKey (db : Database) (choiceRecord : ChoiceRecord) : Int :=
  match choiceRecord.id with
  | some id => id
  | none => db.keyGenerator

/-- The `choices` store after a successful `store.add(choiceRecord)`. -/
def addChoice (db : Database) (choiceRecord : ChoiceRecord) : Database :=
  { db with
    choices := db.choices ++ [{ choiceRecord with id := some (addKey db choiceRecord) }]
    keyGenerator := max db.keyGenerator (addKey db choiceRecord + 1) }

/-- `saveChoice(choiceRecord)`; `now` is the value of `Date.now()`. -/
def saveChoice (s : AppState) (choiceRecord : ChoiceRecord) (now : Int)
    (outcome : StoreOutcome) : AppState :=
  match s.db with
  | none => pushChoice s choiceRecord now
  | some db =>
    match outcome with
    | .success =>
      pushChoice { s with db := some (addChoice db choiceRecord) } choiceRecord
        (addKey db choiceRecord)
    | .requestError => pushChoice (pushChoice s choiceRecord now) choiceRecord now
    | .thrown => pushChoice s choiceRecord now

def saveLifeParameters (s : AppState) (outcome : StoreOutcome) : AppState :=
  match s.db with
  | none => s
  | some db =>
    match outcome with
    | .success =>
      { s with
        db := some
          { db with
            lifeParameters := some
              { dob := s.userDOB
                diseases := some s.userDiseases
                lifeExpectancies := s.lifeExpectancies
                lifeExpectancy := none } } }
    | .requestError => s
    | .thrown => s

/-- `loadLifeParameters()`, with `today` the value of `new Date()` in `calculateAge`. -/
def loadLifeParameters (s : AppState) (today : JsDate) (outcome : StoreOutcome) : AppState :=
  match s.db with
  | none => s
  | some db =>
    match outcome with
    | .success =>
      match db.lifeParameters with
      | none => s
      | some result =>
        let s1 := { s with userDOB := result.dob, userDiseases := result.diseases.getD [] }
        match result.lifeExpectancies with
        | some expectancies => { s1 with lifeExpectancies := some expectancies }
        | none =>
          match result.lifeExpectancy with
          | some oldExpectancy =>
            if oldExpectancy ≠ 0 then
              { s1 with
                lifeExpectancies := some
                  { optimistic := oldExpectancy + 7
                    realistic := oldExpectancy
                    pessimistic :=
                      max ((calculateAge today (dateOfDOB s1.userDOB) : ℚ) + 1)
                        (oldExpectancy - 5) } }
            else s1
          | none => s1
    | .requestError => s
    | .thrown => s

/-- `setLifeParameters()`: `dobValue` is `none` for an empty input field,
`selectedDiseases` the values of the checked boxes, `today` the value of `new Date()`.
The result is the new state and what the handler did besides. -/
def setLifeParameters (s : AppState) (dobValue : Option JsDate)
    (selectedDiseases : List String) (today : JsDate) (saveOutcome : StoreOutcome) :
    AppState × List Effect :=
  match dobValue with
  | none => (s, [.alert "Please select your date of birth"])
  | some dob =>
    if selectedDiseases.length = 0 then
      (s, [.alert "Please select at least one health condition (including \"None/Healthy\" if applicable)"])
    else if dob.getTime > today.getTime then
      (s, [.alert "Date of birth cannot be in the future"])
    else
      let age := calculateAge today dob
      if age < 1 ∨ age > 120 then (s, [.alert "Age must be between 1 and 120 years"])
      else
        (saveLifeParameters
          { s with
            userDOB := some dob
            userDiseases := selectedDiseases
            lifeExpectancies := some (calculateLifeExpectancy (age : ℚ) selectedDiseases) }
          saveOutcome,
          [.saveLifeParameters, .showScreen "intro", .startCountdown])

/-- `updateConfigurationParameters()`, with the same reading of its inputs. -/
def updateConfigurationParameters (s : AppState) (dobValue : Option JsDate)
    (selectedDiseases : List String) (today : JsDate) (saveOutcome : StoreOutcome) :
    AppState × List Effect :=
  match dobValue with
  | none => (s, [.alert "Please select your date of birth"])
  | some dob =>
    if selectedDiseases.length = 0 then
      (s, [.alert "Please select at least one health condition (including \"None/Healthy\" if applicable)"])
    else if dob.getTime > today.getTime then
      (s, [.alert "Date of birth cannot be in the future"])
    else
      let age := calculateAge today dob
      if age < 1 ∨ age > 120 then (s, [.alert "Age must be between 1 and 120 years"])
      else
        (saveLifeParameters
          { s with
            userDOB := some dob
            userDiseases := selectedDiseases
            lifeExpectancies := some (calculateLifeExpectancy (age : ℚ) selectedDiseases) }
          saveOutcome,
          [.saveLifeParameters, .startCountdown,
            .alert "Life parameters updated successfully!"])

/-- The specification's validation failure: the date of birth is missing, the condition
list is empty, the date of birth is later than today, or the age is below 1 or above
120. -/
def ValidationFails (dobValue : Option JsDate) (selectedDiseases : List String)
    (today : JsDate) : Prop :=
  match dobValue with
  | none => True
  | some dob =>
    selectedDiseases = [] ∨ today.getTime < dob.getTime ∨ calculateAge today dob < 1 ∨
      120 < calculateAge today dob

/-- The fourth of November 2025, midnight. -/
def november2025 : JsDate := { fullYear := 2025, month := 10, date := 4, timeInDay := 0 }

/-- A session whose store is unavailable, holding one choice made earlier. -/
def unavailableSession : AppState :=
  { db := none, choiceHistory := [{ actionChoice 100 with id := some 1762214000000 }],
    userDOB := none, userDiseases := [], lifeExpectancies := none }

/-- A session whose store holds a legacy parameter record: born 15 June 1985,
scalar life expectancy 73. -/
def legacySession : AppState :=
  { db := some
      { choices := [], keyGenerator := 1
        lifeParameters := some
          { dob := some bornJune1985, diseases := some ["none"], lifeExpectancies := none,
            lifeExpectancy := some 73 } }
    choiceHistory := [], userDOB := none, userDiseases := [], lifeExpectancies := none }

/-! ## CSV export and import

Strings are lists of characters.  The runtime conversions the code calls
(`toDateString`, `toTimeString().split(' ')[0]`, number to string, `new Date(text)`,
`parseInt`) are parameters. -/

/-- `text.replace(/"/g, '""')`. -/
def doubleQuotes : List Char → List Char
  | [] => []
  | c :: rest => if c = '"' then '"' :: '"' :: doubleQuotes rest else c :: doubleQuotes rest

/-- The template literal that wraps a text in double quotes after doubling the
double quotes inside it. -/
def quoteField (text : List Char) : List Char := '"' :: doubleQuotes text ++ ['"']

/-- `row.join(separator)`. -/
def joinWith (separator : Char) : List (List Char) → List Char
  | [] => []
  | [field] => field
  | field :: rest => field ++ separator :: joinWith separator rest

/-- The array `convertToCSV` builds for one choice. -/
def csvRow (toDateString toTimeString : Option Int → List Char)
    (numberToString : ℚ → List Char) (choice : ChoiceRecord) : List (List Char) :=
  [toDateString choice.timestamp, toTimeString choice.timestamp, choice.category.toList,
    quoteField choice.question.toList, quoteField choice.choice.toList,
    choice.value.toList, numberToString choice.weight]

def csvHeaders : List (List Char) :=
  ["Date".toList, "Time".toList, "Category".toList, "Question".toList, "Choice".toList,
    "Value".toList, "Weight".toList]

def convertToCSV (toDateString toTimeString : Option Int → List Char)
    (numberToString : ℚ → List Char) (choiceHistory : List ChoiceRecord) : List Char :=
  joinWith '\n'
    ((csvHeaders :: choiceHistory.map (csvRow toDateString toTimeString numberToString)).map
      (joinWith ','))

/-- The loop variables of `parseCSVLine`. -/
structure ParseState where
  result : List (List Char)
  current : List Char
  inQuotes : Bool
  deriving DecidableEq

/-- One iteration of the loop of `parseCSVLine`. -/
def parseStep (state : ParseState) (char : Char) : ParseState :=
  if char = '"' then { state with inQuotes := !state.inQuotes }
  else if char = ',' ∧ state.inQuotes = false then
    { state with result := state.result ++ [state.current], current := [] }
  else { state with current := state.current ++ [char] }

def parseCSVLine (line : List Char) : List (List Char) :=
  let final := line.foldl parseStep { result := [], current := [], inQuotes := false }
  final.result ++ [final.current]

/-- `text.replace(/^"|"$/g, '')`: a double quote at the start and one at the end of
what follows are removed. -/
def stripOuterQuotes (text : List Char) : List Char :=
  let rest := match text with
    | c :: tail => if c = '"' then tail else text
    | [] => []
  if rest.getLast? = some '"' then rest.dropLast else rest

/-- `text.replace(/""/g, '"')`. -/
def undoubleQuotes : List Char → List Char
  | [] => []
  | [c] => [c]
  | c :: d :: rest =>
    if c = '"' ∧ d = '"' then '"' :: undoubleQuotes rest else c :: undoubleQuotes (d :: rest)

/-- The unescaping `importFromCSV` applies to the question and choice columns. -/
def unquoteField (text : List Char) : List Char := undoubleQuotes (stripOuterQuotes text)

/-- `csvText.split('\n')`. -/
def splitLines (text : List Char) : List (List Char) :=
  (text.foldr
    (fun c acc =>
      if c = '\n' then [] :: acc
      else match acc with
        | line :: rest => (c :: line) :: rest
        | [] => [[c]])
    [[]])

/-- The `choice` object `importFromCSV` builds from one line, or `none` when building
it throws: a missing question or choice column, or a date text that is not a date.
A missing column reads as `undefined` where the code turns it into text.  The weight
is a rational: a weight text `parseInt` finds no number in (`NaN`) is outside the
model. -/
def importLine (parseDate : List Char → Option Int) (parseInt : List Char → ℚ)
    (line : List Char) : Option ChoiceRecord :=
  let values := parseCSVLine line
  match parseDate (values.getD 0 "undefined".toList ++ ' ' :: values.getD 1 "undefined".toList),
    values.get? 3, values.get? 4 with
  | some timestamp, some question, some choice =>
    some
      { id := none
        timestamp := some timestamp
        category := String.mk (values.getD 2 [])
        question := String.mk (unquoteField question)
        choice := String.mk (unquoteField choice)
        value := String.mk (values.getD 5 [])
        weight := parseInt (values.getD 6 "undefined".toList) }
  | _, _, _ => none

/-- The characters `String.prototype.trim` removes: the ECMAScript `WhiteSpace` code
points (tab, vertical tab, form feed, space, no-break space, the byte order mark and
the space separators U+1680, U+2000 to U+200A, U+202F, U+205F, U+3000) and the
`LineTerminator` ones (line feed, carriage return, U+2028, U+2029). -/
def isTrimmedChar (c : Char) : Bool :=
  [0x0009, 0x000A, 0x000B, 0x000C, 0x000D, 0x0020, 0x00A0, 0x1680, 0x2028, 0x2029,
    0x202F, 0x205F, 0x3000, 0xFEFF].contains c.toNat ||
    (0x2000 ≤ c.toNat && c.toNat ≤ 0x200A)

/-- The loop of `importFromCSV` over the lines after the header: the choice objects
built, in order, up to the first line whose object cannot be built; a line is skipped
when `trim()` leaves nothing of it, that is when every character of it is one `trim`
removes. -/
def importLines (parseDate : List Char → Option Int) (parseInt : List Char → ℚ) :
    List (List Char) → List ChoiceRecord
  | [] => []
  | line :: rest =>
    if line.all isTrimmedChar then importLines parseDate parseInt rest
    else match importLine parseDate parseInt line with
      | some choice => choice :: importLines parseDate parseInt rest
      | none => []

/-- The choice objects `importFromCSV` hands to `store.add`. -/
def importFromCSV (parseDate : List Char → Option Int) (parseInt : List Char → ℚ)
    (csvText : List Char) : List ChoiceRecord :=
  importLines parseDate parseInt (splitLines csvText).tail

/-- A choice whose question text contains one double quote: `a"b`. -/
def quotedChoice : ChoiceRecord :=
  { id := some 1, timestamp := some 0, question := "a\"b", choice := "c",
    category := "action", value := "v", weight := 100 }

/-- Runtime conversions for an export on 1 January 1970 of a weight of 100. -/
def epochDateString (_ : Option Int) : List Char := "Thu Jan 01 1970".toList

def epochTimeString (_ : Option Int) : List Char := "00:00:00".toList

def hundredString (_ : ℚ) : List Char := "100".toList

def parseEpoch (_ : List Char) : Option Int := some 0

def parseHundred (_ : List Char) : ℚ := 100

/-! ## Further specification-side notions and worked inputs -/

/-- One choice of weight 0 in each of the 8 categories, all stamped at instant 0. -/
def allWorstChoices : List ChoiceRecord :=
  categories.map fun category =>
    { id := none, timestamp := some 0, question := "q", choice := "c",
      category := category, value := "v", weight := 0 }

/-- The ceiling of a projected value is not active: the capped expression is the
expression itself and lies strictly below the ceiling, and the value is the rounded
expression, again strictly below the ceiling. -/
def CeilingInactive (ceiling expr : ℚ) (value : Int) : Prop :=
  min ceiling expr = expr ∧ expr < ceiling ∧ value = jsRound expr ∧ (value : ℚ) < ceiling

/-- Calendar order of two dates by year, month and day of the month: the first is on
or before the second. -/
def onOrBefore (a b : JsDate) : Prop :=
  a.fullYear < b.fullYear ∨
    (a.fullYear = b.fullYear ∧ (a.month < b.month ∨ (a.month = b.month ∧ a.date ≤ b.date)))

/-- The `n`-th anniversary of a date: same month and day, `n` years later. -/
def anniversary (birthDate : JsDate) (n : Int) : JsDate :=
  { birthDate with fullYear := birthDate.fullYear + n }

/-- A choice of category `agency` stamped at instant `0`. -/
def agencyChoice (weight : ℚ) : ChoiceRecord :=
  { id := none, timestamp := some 0, question := "q", choice := "c",
    category := "agency", value := "v", weight := weight }

/-- `const { id, ...choiceData } = choice`: the record without its `id`. -/
def stripId (choice : ChoiceRecord) : ChoiceRecord := { choice with id := none }

/-- `importChoices(choices)`: one `store.add(choiceData)` per element inside a single
transaction.  No handler is attached, so a failing request aborts the transaction and
nothing is written; `db.transaction` throwing leaves the store as it is too. -/
def importChoices (s : AppState) (choices : List ChoiceRecord) (outcome : StoreOutcome) :
    AppState :=
  match s.db with
  | none => s
  | some db =>
    match outcome with
    | .success =>
      { s with
        db := some (choices.foldl (fun store choice => addChoice store (stripId choice)) db) }
    | .requestError => s
    | .thrown => s

/-- The records with ids `start`, `start + 1`, … given in order, every other field
unchanged. -/
def assignFreshIds (start : Int) : List ChoiceRecord → List ChoiceRecord
  | [] => []
  | choice :: rest => { choice with id := some start } :: assignFreshIds (start + 1) rest

/-- A session with an open, empty store whose key generator stands at 1, holding
nothing in memory. -/
def storeSession : AppState :=
  { db := some { choices := [], keyGenerator := 1, lifeParameters := none }
    choiceHistory := [], userDOB := none, userDiseases := [], lifeExpectancies := none }

/-! ## Opening the store -/

/-- An object store of the database as its schema describes it. -/
structure ObjectStoreSchema where
  name : String
  keyPath : String
  autoIncrement : Bool
  indexNames : List String
  deriving DecidableEq

/-- The database `LifePredictionDB` as `indexedDB.open` finds it: its version (0 when
it does not exist yet) and its object stores. -/
structure DatabaseSchema where
  version : Nat
  objectStores : List ObjectStoreSchema
  deriving DecidableEq

/-- `db.objectStoreNames.contains(name)`. -/
def containsStore (db : DatabaseSchema) (name : String) : Bool :=
  db.objectStores.any (fun store => store.name == name)

/-- How `indexedDB.open` ends: `request.onsuccess`, `request.onerror`, or the call
throws and the outer `catch` runs. -/
inductive OpenOutcome where
  | success
  | error
  | thrown
  deriving DecidableEq

/-- The first `if` of the `try` block of `request.onupgradeneeded`: when there is no
`choices` store, `createObjectStore('choices')` (schema call 0), then
`createIndex('timestamp')` (call 1) and `createIndex('category')` (call 2).
`throwsAt` names the schema call that throws; `.error` carries the schema reached when
the exception leaves the block. -/
def createChoicesStore (db : DatabaseSchema) (throwsAt : Option Nat) :
    Except DatabaseSchema DatabaseSchema :=
  if containsStore db "choices" then .ok db
  else if throwsAt = some 0 then .error db
  else if throwsAt = some 1 then
    .error { db with
      objectStores := db.objectStores ++
        [{ name := "choices", keyPath := "id", autoIncrement := true, indexNames := [] }] }
  else if throwsAt = some 2 then
    .error { db with
      objectStores := db.objectStores ++
        [{ name := "choices", keyPath := "id", autoIncrement := true,
           indexNames := ["timestamp"] }] }
  else
    .ok { db with
      objectStores := db.objectStores ++
        [{ name := "choices", keyPath := "id", autoIncrement := true,
           indexNames := ["timestamp", "category"] }] }

/-- The second `if` of the `try` block: when there is no `lifeParameters` store,
`createObjectStore('lifeParameters')` (schema call 3). -/
def createParameterStore (db : DatabaseSchema) (throwsAt : Option Nat) :
    Except DatabaseSchema DatabaseSchema :=
  if containsStore db "lifeParameters" then .ok db
  else if throwsAt = some 3 then .error db
  else
    .ok { db with
      objectStores := db.objectStores ++
        [{ name := "lifeParameters", keyPath := "id", autoIncrement := false,
           indexNames := [] }] }

/-- The schema after `request.onupgradeneeded`.  Its `catch` block only logs and sets
`this.db = null`, a value `request.onsuccess` overwrites. -/
def onUpgradeNeeded (db : DatabaseSchema) (throwsAt : Option Nat) : DatabaseSchema :=
  match createChoicesStore db throwsAt with
  | .error reached => reached
  | .ok db1 =>
    match createParameterStore db1 throwsAt with
    | .error reached => reached
    | .ok db2 => db2

/-- The database handed to `request.onsuccess` by `indexedDB.open('LifePredictionDB', 2)`:
a stored version below 2 is upgraded first, a stored version 2 is opened as it is. -/
def openedDatabase (stored : DatabaseSchema) (throwsAt : Option Nat) : DatabaseSchema :=
  if stored.version < 2 then { onUpgradeNeeded stored throwsAt with version := 2 } else stored

/-- The value `request.onsuccess` leaves in `this.db` for the opened database. -/
def onOpenSuccess (opened : DatabaseSchema) : Option DatabaseSchema :=
  if !containsStore opened "choices" || !containsStore opened "lifeParameters" then none
  else some opened

/-- `initDatabase()`: the value of `this.db` when the promise resolves, and the schema
the database has afterwards.  A stored version above 2 makes the open request fail. -/
def initDatabase (stored : DatabaseSchema) (outcome : OpenOutcome) (throwsAt : Option Nat) :
    Option DatabaseSchema × DatabaseSchema :=
  match outcome with
  | .thrown => (none, stored)
  | .error => (none, stored)
  | .success =>
    if stored.version > 2 then (none, stored)
    else (onOpenSuccess (openedDatabase stored throwsAt), openedDatabase stored throwsAt)

/-- The schema the code creates: `choices` with both indexes, and `lifeParameters`. -/
def currentSchema : DatabaseSchema :=
  { version := 2
    objectStores :=
      [{ name := "choices", keyPath := "id", autoIncrement := true,
         indexNames := ["timestamp", "category"] },
       { name := "lifeParameters", keyPath := "id", autoIncrement := false,
         indexNames := [] }] }

/-- A half-created schema at version 2: `choices` without its two indexes, and
`lifeParameters`. -/
def schemaWithoutIndexes : DatabaseSchema :=
  { version := 2
    objectStores :=
      [{ name := "choices", keyPath := "id", autoIncrement := true, indexNames := [] },
       { name := "lifeParameters", keyPath := "id", autoIncrement := false,
         indexNames := [] }] }

/-- A half-created schema at version 2 that has only the `choices` store. -/
def schemaWithoutParameters : DatabaseSchema :=
  { version := 2
    objectStores :=
      [{ name := "choices", keyPath := "id", autoIncrement := true,
         indexNames := ["timestamp", "category"] }] }

/-! ## The quick countdown and inputs for the scenario order -/

/-- What one run of `updateQuickCountdownDisplay` hands to `displayQuickTotalCountdown`
and, per scenario, to `displayQuickCountdownForScenario`. -/
structure QuickCountdownDisplay where
  total : CountdownUnits
  optimistic : CountdownUnits
  realistic : CountdownUnits
  pessimistic : CountdownUnits
  deriving DecidableEq

/-- One run of `updateQuickCountdownDisplay` at clock reading `now`. -/
def updateQuickCountdownDisplay (userDOB : Option JsDate)
    (lifeExpectancies : Option LifeExpectancies) (choiceHistory : List ChoiceRecord)
    (now : Int) : Option QuickCountdownDisplay :=
  match userDOB, lifeExpectancies with
  | some birthDate, some expectancies =>
    let currentScores := calculateScores choiceHistory now
    let impact := choiceImpactDays (countdownAvgAbstract currentScores.abstract)
    let realisticTimeDiff := adjustedDeathTime birthDate expectancies.realistic impact - now
    some
      { total := if realisticTimeDiff ≤ 0 then zeroUnits else absoluteUnits realisticTimeDiff
        optimistic := scenarioUnits birthDate expectancies impact now .optimistic
        realistic := scenarioUnits birthDate expectancies impact now .realistic
        pessimistic := scenarioUnits birthDate expectancies impact now .pessimistic }
  | _, _ => none

/-- A date of birth of 15 June 1945, midnight. -/
def bornJune1945 : JsDate := { fullYear := 1945, month := 5, date := 15, timeInDay := 0 }

/-- An `action` choice of weight 0 made on 3 November 2025, one day before
`1762214400000`. -/
def recentWorstChoice : ChoiceRecord :=
  { id := some 1, timestamp := some 1762128000000, question := "q", choice := "c",
    category := "action", value := "avoiding", weight := 0 }

/-! ## The 30-day window in the specification's words -/

/-- The choices of the log that lie in the 30-day window, in order: those with a
timestamp strictly later than `now - 30 days`, that is `now - 2592000000` ms. -/
def windowChoices (choiceHistory : List ChoiceRecord) (now : Int) : List ChoiceRecord :=
  choiceHistory.filter (fun choice =>
    match choice.timestamp with
    | some t => decide (now - 2592000000 < t)
    | none => false)

/-- Four `action` choices followed by one `agency` choice, as held in memory. -/
def orderedLog : List ChoiceRecord := fourActionChoices ++ [agencyChoice 60]

/-- The records of `orderedLog` with the `agency` choice moved to the front and every
id replaced by another one. -/
def reorderedLog : List ChoiceRecord :=
  { agencyChoice 60 with id := some 11 } ::
    fourActionChoices.map (fun choice => { choice with id := some 12 })

/-! ## Double precision

`calculateConcreteOutcomes` multiplies by the literals `0.3`, `0.7` and `0.4`, none of
which is a Number, and rounds the result with `Math.round`; which way a value at or next
to a half goes is decided by the rounding of the doubles.  The function is therefore also
given with every literal, product and sum rounded to the nearest Number (IEEE 754
binary64, round to nearest, ties to even).  The Numbers are held as the rationals they
are; the values of this function stay far below the overflow threshold, so the
infinities do not arise. -/

/-- Rounding to the nearest integer, a tie going to the even one: the rounding of
every arithmetic operation on a Number. -/
def roundHalfEven (x : ℚ) : Int :=
  if x - Int.floor x < 1 / 2 then Int.floor x
  else if 1 / 2 < x - Int.floor x then Int.floor x + 1
  else if Int.floor x % 2 = 0 then Int.floor x
  else Int.floor x + 1

/-- The exponent of the unit in the last place of the doubles around `x`: 52 below the
binary exponent of `x`, and `-1074` in the subnormal range. -/
def ulpExponent (x : ℚ) : Int := max (Int.log 2 |x| - 52) (-1074)

/-- The Number nearest to the real `x`. -/
def toDouble (x : ℚ) : ℚ :=
  roundHalfEven (x / 2 ^ ulpExponent x) * 2 ^ ulpExponent x

/-- `calculateConcreteOutcomes` in double precision: the three decimal literals are the
Numbers nearest to them and every product and sum is rounded to the nearest Number, in
the order the source evaluates them.  `Math.min` and `Math.round` are exact. -/
def calculateConcreteOutcomesDouble (abstractScore : ℚ) : ConcreteOutcomes :=
  let murphyMultiplier : ℚ := toDouble (7 / 10)
  let unpredictabilityFactor : ℚ := toDouble (2 / 5)
  let baseInfluence : ℚ := toDouble (abstractScore * toDouble (3 / 10))
  { financial :=
      { optimistic := jsRound (min 80 (toDouble (baseInfluence + 40)))
        realistic := jsRound (min 60 (toDouble (toDouble (baseInfluence + 20) * murphyMultiplier)))
        pessimistic := jsRound (min 40 (toDouble (baseInfluence * murphyMultiplier)))
        note := "Economic collapse, automation displacement, or systemic failure could override all personal efforts" }
    respect :=
      { optimistic := jsRound (min 70 (toDouble (baseInfluence + 30)))
        realistic := jsRound (min 50 (toDouble (toDouble (baseInfluence + 15) * murphyMultiplier)))
        pessimistic := jsRound (min 30
          (toDouble (toDouble (baseInfluence * murphyMultiplier) * unpredictabilityFactor)))
        note := "Social respect is highly volatile and often depends on factors beyond personal character" }
    relationships :=
      { optimistic := jsRound (min 75 (toDouble (baseInfluence + 35)))
        realistic := jsRound (min 55 (toDouble (toDouble (baseInfluence + 20) * murphyMultiplier)))
        pessimistic := jsRound (min 35
          (toDouble (toDouble (baseInfluence * murphyMultiplier) * unpredictabilityFactor)))
        note := "Even strong personal development cannot guarantee relationship outcomes due to others' unpredictable choices" }
    opportunities :=
      { optimistic := jsRound (min 65 (toDouble (baseInfluence + 25)))
        realistic := jsRound (min 45 (toDouble (toDouble (baseInfluence + 10) * murphyMultiplier)))
        pessimistic := jsRound (min 25
          (toDouble (toDouble (baseInfluence * murphyMultiplier) * unpredictabilityFactor)))
        note := "External forces, timing, and systemic barriers often block opportunities regardless of preparation" } }

/-- The Number `9.523809523809524`, the double nearest to `200/21`. -/
def nearTwoHundredOverTwentyOne : ℚ := 5361428127822019 / 2 ^ 49

/-- The integer `n` lies within `1/2 + 2⁻³⁹` of `x`: it is `x` rounded to the nearest
integer unless `x` is within `2⁻³⁹` of a half. -/
def NearRounded (x : ℚ) (n : Int) : Prop :=
  |(n : ℚ) - x| ≤ 1 / 2 + 1 / 2 ^ 39

/-- One choice of weight 100 in each of the 8 categories, all stamped at instant 0. -/
def allBestChoices : List ChoiceRecord :=
  categories.map fun category =>
    { id := none, timestamp := some 0, question := "q", choice := "c",
      category := category, value := "v", weight := 100 }

/-! ## Auxiliary lemmas -/

theorem abstractScores_eq (recentChoices : List ChoiceRecord) :
    abstractScores recentChoices =
      categories.map (fun category =>
        (category,
          categoryScore (recentChoices.filter (fun choice => choice.category == category)))) := by
  simp [abstractScores, categories, objSet]

theorem abstractScores_keys (recentChoices : List ChoiceRecord) :
    (abstractScores recentChoices).map Prod.fst = categories := by
  rw [abstractScores_eq]
  simp [categories]

theorem abstractScores_lookup (recentChoices : List ChoiceRecord) (category : String)
    (h : category ∈ categories) :
    (abstractScores recentChoices).lookup category =
      some (categoryScore (recentChoices.filter (fun choice => choice.category == category))) := by
  rw [abstractScores_eq]
  simp only [categories, List.mem_cons, List.mem_singleton, List.not_mem_nil, or_false] at h
  rcases h with rfl | rfl | rfl | rfl | rfl | rfl | rfl | rfl <;>
    simp [categories, List.lookup]

theorem calculateScores_abstract (choiceHistory : List ChoiceRecord) (now : Int) :
    (calculateScores choiceHistory now).abstract =
      abstractScores (getRecentChoices choiceHistory now 30) := rfl

theorem calculateScores_concrete (choiceHistory : List ChoiceRecord) (now : Int) :
    (calculateScores choiceHistory now).concrete =
      calculateConcreteOutcomes
        (avgAbstract (abstractScores (getRecentChoices choiceHistory now 30))) := rfl

theorem sumWeights_eq_sum (cs : List ChoiceRecord) :
    sumWeights cs = (cs.map (fun c => c.weight)).sum := by
  unfold sumWeights
  suffices h : ∀ (acc : ℚ), cs.foldl (fun sum choice => sum + choice.weight) acc
      = acc + (cs.map (fun c => c.weight)).sum by simpa using h 0
  induction cs with
  | nil => intro acc; simp
  | cons c cs ih => intro acc; simp [ih, add_assoc]

theorem sumScores_eq_sum (vs : List ℚ) : sumScores vs = vs.sum := by
  unfold sumScores
  suffices h : ∀ (acc : ℚ), vs.foldl (fun sum score => sum + score) acc = acc + vs.sum by
    simpa using h 0
  induction vs with
  | nil => intro acc; simp
  | cons v vs ih => intro acc; simp [ih, add_assoc]

theorem categoryScore_range (cs : List ChoiceRecord) :
    0 ≤ categoryScore cs ∧ categoryScore cs ≤ 100 := by
  unfold categoryScore
  split
  · exact ⟨le_min (by norm_num) (le_max_left _ _), min_le_left _ _⟩
  · norm_num

theorem mem_getRecentChoices (choiceHistory : List ChoiceRecord) (now days : Int)
    (c : ChoiceRecord) :
    c ∈ getRecentChoices choiceHistory now days ↔
      c ∈ choiceHistory ∧ ∃ t, c.timestamp = some t ∧ now - days * 86400000 < t := by
  unfold getRecentChoices
  rw [List.mem_filter]
  constructor
  · rintro ⟨hc, ht⟩
    refine ⟨hc, ?_⟩
    cases hts : c.timestamp with
    | none => simp [isAfter, hts] at ht
    | some t =>
      refine ⟨t, rfl, ?_⟩
      simpa [isAfter, hts, cutoffDate, msPerDay] using ht
  · rintro ⟨hc, t, hts, ht⟩
    refine ⟨hc, ?_⟩
    simpa [isAfter, hts, cutoffDate, msPerDay] using ht

theorem sliceFrom_append_three {α : Type} (older : List α) (a b c : α) :
    sliceFrom (older ++ [a, b, c]) (-3) = [a, b, c] := by
  have h : ((max (((older ++ [a, b, c]).length : Int) + (-3)) 0).toNat) = older.length := by
    simp
  simp only [sliceFrom, show ((-3 : Int) < 0) from by decide, if_true, h]
  simp

theorem sliceTo_append_three {α : Type} (older : List α) (a b c : α) :
    sliceTo (older ++ [a, b, c]) (-3) = older := by
  have h : ((max (((older ++ [a, b, c]).length : Int) + (-3)) 0).toNat) = older.length := by
    simp
  simp only [sliceTo, show ((-3 : Int) < 0) from by decide, if_true, h]
  simp

theorem exists_append_three {α : Type} (xs : List α) (h : 3 ≤ xs.length) :
    ∃ older a b c, xs = older ++ [a, b, c] := by
  have h1 : (xs.drop (xs.length - 3)).length = 3 := by simp; omega
  match hd : xs.drop (xs.length - 3), h1 with
  | [a, b, c], _ => exact ⟨xs.take (xs.length - 3), a, b, c, by rw [← hd, List.take_append_drop]⟩


theorem length_sliceFrom_neg_three {α : Type} (xs : List α) :
    (sliceFrom xs (-3)).length = min xs.length 3 := by
  simp only [sliceFrom, show ((-3 : Int) < 0) from by decide, if_true, List.length_drop]
  omega

theorem length_sliceTo_neg_three {α : Type} (xs : List α) :
    (sliceTo xs (-3)).length = xs.length - 3 := by
  simp only [sliceTo, show ((-3 : Int) < 0) from by decide, if_true, List.length_take]
  omega

theorem calculateTrendChecked_eq (choices : List ChoiceRecord) :
    calculateTrendChecked choices = some (calculateTrend choices) := by
  unfold calculateTrendChecked calculateTrend
  by_cases h : choices.length < 2
  · simp [h]
  · have hrec : (sliceFrom choices (-3)).length ≠ 0 := by
      rw [length_sliceFrom_neg_three]; omega
    simp only [h, if_false, divLength, hrec, Option.some_bind]
    by_cases ho : (sliceTo choices (-3)).length > 0
    · have ho2 : (sliceTo choices (-3)).length ≠ 0 := by omega
      simp only [ho, if_true, ho2, if_false, Option.some_bind]
    · simp only [ho, if_false, Option.some_bind]

theorem calculateTrend_short (choices : List ChoiceRecord) (h : choices.length ≤ 3) :
    calculateTrend choices = 0 := by
  unfold calculateTrend
  split
  · rfl
  · have ho : ¬ (sliceTo choices (-3)).length > 0 := by
      rw [length_sliceTo_neg_three]; omega
    simp only [ho, if_false, sub_self, zero_mul]

theorem getRecentChoices_dropStale (choiceHistory : List ChoiceRecord) (now : Int) :
    getRecentChoices (dropStale choiceHistory now) now 30 =
      getRecentChoices choiceHistory now 30 := by
  unfold getRecentChoices dropStale
  rw [List.filter_filter]
  apply List.filter_congr
  intro c _
  cases hts : c.timestamp with
  | none => simp [isAfter]
  | some t =>
    simp only [isAfter, cutoffDate, msPerDay, hts]
    by_cases h : t > now - 30 * (24 * 60 * 60 * 1000)
    · have h2 : ¬ t ≤ now - 2592000000 := by omega
      simp [h, h2]
    · simp [h]

theorem objectValues_abstractScores (recentChoices : List ChoiceRecord) :
    objectValues (abstractScores recentChoices) =
      categories.map (fun category =>
        categoryScore (recentChoices.filter (fun choice => choice.category == category))) := by
  rw [abstractScores_eq]
  simp [objectValues, categories]

theorem jsRound_isRounded (x : ℚ) : IsRounded x (jsRound x) :=
  ⟨Int.floor_le _, Int.lt_floor_add_one _⟩

theorem isRounded_unique (x : ℚ) (m n : Int) (hm : IsRounded x m) (hn : IsRounded x n) :
    m = n := by
  obtain ⟨hm1, hm2⟩ := hm
  obtain ⟨hn1, hn2⟩ := hn
  have h1 : (m : ℚ) < n + 1 := lt_of_le_of_lt hm1 hn2
  have h2 : (n : ℚ) < m + 1 := lt_of_le_of_lt hn1 hm2
  have h3 : m < n + 1 := by exact_mod_cast h1
  have h4 : n < m + 1 := by exact_mod_cast h2
  omega

theorem jsRound_range (x : ℚ) (h0 : 0 ≤ x) (h100 : x ≤ 100) :
    0 ≤ jsRound x ∧ jsRound x ≤ 100 := by
  unfold jsRound
  constructor
  · apply Int.floor_nonneg.mpr
    linarith
  · have h : Int.floor (x + 1 / 2) < 101 := by
      rw [Int.floor_lt]
      push_cast
      linarith
    omega

theorem jsRound_min_range (ceiling x : ℚ) (hc0 : 0 ≤ ceiling) (hc : ceiling ≤ 100)
    (hx : 0 ≤ x) : 0 ≤ jsRound (min ceiling x) ∧ jsRound (min ceiling x) ≤ 100 :=
  jsRound_range _ (le_min hc0 hx) (le_trans (min_le_left _ _) hc)

theorem sum_impacts_foldl (diseases : List String) :
    diseases.foldl (fun total disease => total + impactOf disease) 0 =
      (diseases.map impactOf).sum := by
  suffices h : ∀ (acc : ℚ), diseases.foldl (fun total disease => total + impactOf disease) acc
      = acc + (diseases.map impactOf).sum by simpa using h 0
  induction diseases with
  | nil => intro acc; simp
  | cons d ds ih => intro acc; simp [ih, add_assoc]

theorem countdownAvgAbstract_eq_avgAbstract (recentChoices : List ChoiceRecord) :
    countdownAvgAbstract (abstractScores recentChoices) =
      avgAbstract (abstractScores recentChoices) := by
  unfold countdownAvgAbstract avgAbstract
  rw [objectValues_abstractScores]
  simp [categories]

theorem avgAbstract_range (recentChoices : List ChoiceRecord) :
    0 ≤ avgAbstract (abstractScores recentChoices) ∧
      avgAbstract (abstractScores recentChoices) ≤ 100 := by
  unfold avgAbstract
  rw [objectValues_abstractScores, sumScores_eq_sum]
  simp only [categories, List.map_cons, List.map_nil, List.sum_cons, List.sum_nil,
    List.length_cons, List.length_nil]
  have h (c : String) := categoryScore_range
    (recentChoices.filter (fun choice => choice.category == c))
  have h1 := h "mindfulness"
  have h2 := h "intention"
  have h3 := h "action"
  have h4 := h "appreciation"
  have h5 := h "presence"
  have h6 := h "selfBelief"
  have h7 := h "agency"
  have h8 := h "validation"
  constructor
  · apply div_nonneg
    · linarith
    · norm_num
  · rw [div_le_iff₀ (by norm_num)]
    norm_num
    linarith

theorem jsTruncate_intCast (n : Int) : jsTruncate (n : ℚ) = n := by
  unfold jsTruncate
  split <;> simp

theorem jsTruncate_mono {x y : ℚ} (h : x ≤ y) : jsTruncate x ≤ jsTruncate y := by
  unfold jsTruncate
  by_cases hx : 0 ≤ x
  · have hy : 0 ≤ y := le_trans hx h
    simp only [hx, hy, if_true]
    exact Int.floor_mono h
  · simp only [hx, if_false]
    by_cases hy : 0 ≤ y
    · simp only [hy, if_true]
      have h1 : Int.ceil x ≤ 0 := by
        rw [Int.ceil_le]
        push_cast
        linarith
      have h2 : 0 ≤ Int.floor y := Int.floor_nonneg.mpr hy
      omega
    · simp only [hy, if_false]
      exact Int.ceil_mono h

theorem jsTruncate_int_add_nonneg (n : Int) (x : ℚ) (hn : 0 ≤ n) (hx : 0 ≤ x) :
    jsTruncate ((n : ℚ) + x) = n + jsTruncate x := by
  have hn' : (0 : ℚ) ≤ (n : ℚ) := by exact_mod_cast hn
  have hsum : (0 : ℚ) ≤ (n : ℚ) + x := add_nonneg hn' hx
  simp only [jsTruncate, hsum, hx, if_true]
  exact Int.floor_int_add n x

theorem adjustedDeathTime_truncate (birthDate : JsDate) (lifeExpectancy impactDays : ℚ)
    (hyear : 0 ≤ birthDate.fullYear) (hlife : 0 ≤ lifeExpectancy) :
    adjustedDeathTime birthDate lifeExpectancy impactDays =
      adjustedDeathTime birthDate (jsTruncate lifeExpectancy) impactDays := by
  have hfloor : (0 : ℚ) ≤ ((jsTruncate lifeExpectancy : Int) : ℚ) := by
    have h0 : jsTruncate (0 : ℚ) ≤ jsTruncate lifeExpectancy := jsTruncate_mono hlife
    have h1 : jsTruncate (0 : ℚ) = 0 := by simpa using jsTruncate_intCast 0
    rw [h1] at h0
    exact_mod_cast h0
  simp only [adjustedDeathTime, setFullYear]
  rw [jsTruncate_int_add_nonneg _ _ hyear hlife, jsTruncate_int_add_nonneg _ _ hyear hfloor,
    jsTruncate_intCast]

theorem floorDiv_eq (a b : Int) (hb : 0 < b) : floorDiv a b = a / b := by
  unfold floorDiv
  obtain ⟨n, rfl⟩ := Int.eq_ofNat_of_zero_le hb.le
  exact Rat.floor_intCast_div_natCast a n

theorem jsRem_eq (a b : Int) (ha : 0 ≤ a) (hb : 0 ≤ b) : jsRem a b = a % b :=
  Int.tmod_eq_emod ha hb

theorem breakdownUnits_eq (timeDiff : Int) (h : 0 ≤ timeDiff) :
    breakdownUnits timeDiff =
      { days := timeDiff / 86400000
        hours := timeDiff % 86400000 / 3600000
        minutes := timeDiff % 3600000 / 60000
        seconds := timeDiff % 60000 / 1000 } := by
  simp only [breakdownUnits]
  norm_num
  rw [jsRem_eq _ _ h (by norm_num), jsRem_eq _ _ h (by norm_num), jsRem_eq _ _ h (by norm_num)]
  rw [floorDiv_eq _ _ (by norm_num), floorDiv_eq _ _ (by norm_num),
    floorDiv_eq _ _ (by norm_num), floorDiv_eq _ _ (by norm_num)]
  exact ⟨rfl, rfl, rfl, rfl⟩

theorem absoluteUnits_eq (timeDiff : Int) :
    absoluteUnits timeDiff =
      { days := timeDiff / 86400000
        hours := timeDiff / 3600000
        minutes := timeDiff / 60000
        seconds := timeDiff / 1000 } := by
  simp only [absoluteUnits]
  norm_num
  rw [floorDiv_eq _ _ (by norm_num), floorDiv_eq _ _ (by norm_num),
    floorDiv_eq _ _ (by norm_num), floorDiv_eq _ _ (by norm_num)]
  exact ⟨rfl, rfl, rfl, rfl⟩

theorem scenarioUnits_nonneg (birthDate : JsDate) (lifeExpectancies : LifeExpectancies)
    (impact : ℚ) (now : Int) (scenario : Scenario) :
    0 ≤ (scenarioUnits birthDate lifeExpectancies impact now scenario).days ∧
      0 ≤ (scenarioUnits birthDate lifeExpectancies impact now scenario).hours ∧
      0 ≤ (scenarioUnits birthDate lifeExpectancies impact now scenario).minutes ∧
      0 ≤ (scenarioUnits birthDate lifeExpectancies impact now scenario).seconds := by
  simp only [scenarioUnits]
  split
  · simp [zeroUnits]
  · rename_i h
    rw [breakdownUnits_eq _ (by omega)]
    refine ⟨?_, ?_, ?_, ?_⟩ <;> simp only <;> omega

theorem absoluteUnits_nonneg (timeDiff : Int) (h : 0 ≤ timeDiff) :
    0 ≤ (absoluteUnits timeDiff).days ∧ 0 ≤ (absoluteUnits timeDiff).hours ∧
      0 ≤ (absoluteUnits timeDiff).minutes ∧ 0 ≤ (absoluteUnits timeDiff).seconds := by
  rw [absoluteUnits_eq]
  refine ⟨?_, ?_, ?_, ?_⟩ <;> simp only <;> omega

theorem adjustedDeathTime_of_int (birthDate : JsDate) (years impactMs : Int) (impactDays : ℚ)
    (h : impactDays * 24 * 60 * 60 * 1000 = (impactMs : ℚ)) :
    adjustedDeathTime birthDate (years : ℚ) impactDays =
      JsDate.getTime { birthDate with fullYear := birthDate.fullYear + years } + impactMs := by
  simp only [adjustedDeathTime, setFullYear, timeClip, JsDate.getTime]
  have hy : ((birthDate.fullYear : Int) : ℚ) + (years : ℚ) =
      ((birthDate.fullYear + years : Int) : ℚ) := by push_cast; ring
  rw [hy, jsTruncate_intCast, h, ← Int.cast_add, jsTruncate_intCast]

theorem adjustedDeathTime_mono (birthDate : JsDate) (lifeExpectancy : ℚ) {i j : ℚ}
    (h : i ≤ j) :
    adjustedDeathTime birthDate lifeExpectancy i ≤
      adjustedDeathTime birthDate lifeExpectancy j := by
  simp only [adjustedDeathTime, timeClip]
  apply jsTruncate_mono
  linarith

theorem choiceImpactDays_mono {a b : ℚ} (h : a ≤ b) :
    choiceImpactDays a ≤ choiceImpactDays b := by
  unfold choiceImpactDays
  linarith

theorem adjustedChoiceImpact_mono {i j : ℚ} (h : i ≤ j) (scenario : Scenario) :
    adjustedChoiceImpact i scenario ≤ adjustedChoiceImpact j scenario := by
  cases scenario <;> simp only [adjustedChoiceImpact] <;> linarith

theorem unitsSeconds_scenario_le {t1 t2 : Int} (h : t2 ≤ t1) :
    unitsSeconds (if t2 ≤ 0 then zeroUnits else breakdownUnits t2) ≤
      unitsSeconds (if t1 ≤ 0 then zeroUnits else breakdownUnits t1) := by
  by_cases h2 : t2 ≤ 0
  · by_cases h1 : t1 ≤ 0
    · simp [h1, h2]
    · simp only [h1, h2, if_true, if_false]
      rw [breakdownUnits_eq _ (by omega)]
      simp only [unitsSeconds, zeroUnits]
      omega
  · have h1 : ¬ t1 ≤ 0 := by omega
    simp only [h1, h2, if_false]
    rw [breakdownUnits_eq _ (by omega), breakdownUnits_eq _ (by omega)]
    simp only [unitsSeconds]
    omega

theorem absoluteUnits_le {t1 t2 : Int} (h : t2 ≤ t1) :
    (if t2 ≤ 0 then zeroUnits else absoluteUnits t2).days ≤
        (if t1 ≤ 0 then zeroUnits else absoluteUnits t1).days ∧
      (if t2 ≤ 0 then zeroUnits else absoluteUnits t2).hours ≤
        (if t1 ≤ 0 then zeroUnits else absoluteUnits t1).hours ∧
      (if t2 ≤ 0 then zeroUnits else absoluteUnits t2).minutes ≤
        (if t1 ≤ 0 then zeroUnits else absoluteUnits t1).minutes ∧
      (if t2 ≤ 0 then zeroUnits else absoluteUnits t2).seconds ≤
        (if t1 ≤ 0 then zeroUnits else absoluteUnits t1).seconds := by
  by_cases h2 : t2 ≤ 0
  · by_cases h1 : t1 ≤ 0
    · simp [h1, h2]
    · simp only [h1, h2, if_true, if_false]
      rw [absoluteUnits_eq]
      simp only [zeroUnits]
      refine ⟨?_, ?_, ?_, ?_⟩ <;> omega
  · have h1 : ¬ t1 ≤ 0 := by omega
    simp only [h1, h2, if_false]
    rw [absoluteUnits_eq, absoluteUnits_eq]
    refine ⟨?_, ?_, ?_, ?_⟩ <;> simp only <;> omega

theorem scenarioUnits_seconds_le (birthDate : JsDate) (expectancies : LifeExpectancies)
    {i j : ℚ} (hij : i ≤ j) {t1 t2 : Int} (ht : t1 ≤ t2) (scenario : Scenario) :
    unitsSeconds (scenarioUnits birthDate expectancies i t2 scenario) ≤
      unitsSeconds (scenarioUnits birthDate expectancies j t1 scenario) := by
  simp only [scenarioUnits]
  apply unitsSeconds_scenario_le
  have := adjustedDeathTime_mono birthDate (expectancies.get scenario)
    (adjustedChoiceImpact_mono hij scenario)
  omega

theorem saveLifeParameters_fields (s : AppState) (outcome : StoreOutcome) :
    (saveLifeParameters s outcome).userDOB = s.userDOB ∧
      (saveLifeParameters s outcome).userDiseases = s.userDiseases ∧
      (saveLifeParameters s outcome).lifeExpectancies = s.lifeExpectancies ∧
      (saveLifeParameters s outcome).choiceHistory = s.choiceHistory := by
  unfold saveLifeParameters
  cases s.db <;> cases outcome <;> simp

theorem parseStep_no_quote (state : ParseState) (char : Char)
    (hresult : ∀ field ∈ state.result, '"' ∉ field) (hcurrent : '"' ∉ state.current) :
    (∀ field ∈ (parseStep state char).result, '"' ∉ field) ∧
      '"' ∉ (parseStep state char).current := by
  unfold parseStep
  by_cases hq : char = '"'
  · simp only [hq, if_true]
    exact ⟨hresult, hcurrent⟩
  · simp only [hq, if_false]
    split
    · refine ⟨?_, by simp⟩
      intro field hfield
      rcases List.mem_append.mp hfield with h | h
      · exact hresult field h
      · rw [List.mem_singleton.mp h]
        exact hcurrent
    · refine ⟨hresult, ?_⟩
      intro hmem
      rcases List.mem_append.mp hmem with h | h
      · exact hcurrent h
      · exact hq (List.mem_singleton.mp h).symm

theorem foldl_parseStep_no_quote (line : List Char) (state : ParseState)
    (hresult : ∀ field ∈ state.result, '"' ∉ field) (hcurrent : '"' ∉ state.current) :
    (∀ field ∈ (line.foldl parseStep state).result, '"' ∉ field) ∧
      '"' ∉ (line.foldl parseStep state).current := by
  induction line generalizing state with
  | nil => exact ⟨hresult, hcurrent⟩
  | cons c rest ih =>
    obtain ⟨h1, h2⟩ := parseStep_no_quote state c hresult hcurrent
    exact ih (parseStep state c) h1 h2

theorem parseCSVLine_no_quote (line : List Char) :
    ∀ field ∈ parseCSVLine line, '"' ∉ field := by
  intro field hfield
  obtain ⟨h1, h2⟩ := foldl_parseStep_no_quote line
    { result := [], current := [], inQuotes := false } (by simp) (by simp)
  unfold parseCSVLine at hfield
  rcases List.mem_append.mp hfield with h | h
  · exact h1 field h
  · rw [List.mem_singleton.mp h]
    exact h2

theorem undoubleQuotes_no_quote (text : List Char) (h : '"' ∉ text) :
    undoubleQuotes text = text := by
  induction text using undoubleQuotes.induct with
  | case1 => rfl
  | case2 c => rfl
  | case3 c d rest hcd ih =>
    exact absurd (hcd.1 ▸ List.mem_cons_self c (d :: rest)) h
  | case4 c d rest hcd ih =>
    have hrest : '"' ∉ d :: rest := fun hm => h (List.mem_cons_of_mem c hm)
    simp only [undoubleQuotes, hcd, if_false, ih hrest]

theorem stripOuterQuotes_no_quote (text : List Char) (h : '"' ∉ text) :
    stripOuterQuotes text = text := by
  unfold stripOuterQuotes
  cases text with
  | nil => simp
  | cons c tail =>
    have hc : c ≠ '"' := fun hc => h (hc ▸ List.mem_cons_self c tail)
    simp only [hc, if_false]
    have hlast : (c :: tail).getLast? ≠ some '"' := by
      intro hl
      exact h (List.mem_of_getLast?_eq_some hl)
    simp only [hlast, if_false]

theorem totalImpact_diabetes_heart : totalImpact ["diabetes", "heart_disease"] = -63 / 5 := by
  simp [totalImpact, impactOf, diseaseImpact, List.lookup]
  norm_num

theorem lifeExpectancy_diabetes_heart_values :
    (calculateLifeExpectancy 40 ["diabetes", "heart_disease"]).realistic = 302 / 5 ∧
      (calculateLifeExpectancy 40 ["diabetes", "heart_disease"]).optimistic = 337 / 5 ∧
      (calculateLifeExpectancy 40 ["diabetes", "heart_disease"]).pessimistic = 272 / 5 := by
  have hcontains : ["diabetes", "heart_disease"].contains "none" = false := by simp
  refine ⟨?_, ?_, ?_⟩ <;>
    simp only [calculateLifeExpectancy, totalImpact_diabetes_heart, hcontains,
      Bool.false_eq_true, if_false] <;>
    norm_num

theorem ceilingInactive_of_margin (ceiling expr : ℚ) (h : expr + 1 / 2 < ceiling) :
    CeilingInactive ceiling expr (jsRound (min ceiling expr)) := by
  have hlt : expr < ceiling := by linarith
  have hmin : min ceiling expr = expr := min_eq_right hlt.le
  refine ⟨hmin, hlt, by rw [hmin], ?_⟩
  rw [hmin]
  have hfloor : ((jsRound expr : Int) : ℚ) ≤ expr + 1 / 2 := Int.floor_le _
  linarith

theorem categoryScore_perm_short (l l' : List ChoiceRecord) (hperm : l'.Perm l)
    (hlen : l.length ≤ 3) : categoryScore l' = categoryScore l := by
  have hlen' : l'.length = l.length := hperm.length_eq
  have hsum : sumWeights l' = sumWeights l := by
    rw [sumWeights_eq_sum, sumWeights_eq_sum]
    exact (hperm.map _).sum_eq
  have ht : calculateTrend l = 0 := calculateTrend_short l hlen
  have ht' : calculateTrend l' = 0 := calculateTrend_short l' (by omega)
  simp only [categoryScore, hlen', hsum, ht, ht']

theorem calculateScores_congr (h h' : List ChoiceRecord) (now : Int)
    (hscore : ∀ category ∈ categories,
      categoryScore ((getRecentChoices h' now 30).filter
          (fun choice => choice.category == category)) =
        categoryScore ((getRecentChoices h now 30).filter
          (fun choice => choice.category == category))) :
    calculateScores h' now = calculateScores h now := by
  have habs : abstractScores (getRecentChoices h' now 30) =
      abstractScores (getRecentChoices h now 30) := by
    rw [abstractScores_eq, abstractScores_eq]
    apply List.map_congr_left
    intro category hcat
    rw [hscore category hcat]
  simp only [calculateScores, habs]

theorem foldl_addChoice_stripId (choices : List ChoiceRecord) (db : Database) :
    choices.foldl (fun store choice => addChoice store (stripId choice)) db =
      { db with
        choices := db.choices ++ assignFreshIds db.keyGenerator choices
        keyGenerator := db.keyGenerator + choices.length } := by
  induction choices generalizing db with
  | nil => simp [assignFreshIds]
  | cons c rest ih =>
    rw [List.foldl_cons, ih]
    have hmax : max db.keyGenerator (db.keyGenerator + 1) = db.keyGenerator + 1 := by omega
    simp only [addChoice, addKey, stripId, assignFreshIds, hmax, List.append_assoc,
      List.singleton_append, List.length_cons]
    congr 1
    push_cast
    ring

theorem assignFreshIds_stripId (start : Int) (choices : List ChoiceRecord) :
    (assignFreshIds start choices).map stripId = choices.map stripId := by
  induction choices generalizing start with
  | nil => rfl
  | cons c rest ih => simp [assignFreshIds, stripId, ih]

theorem assignFreshIds_ids (start : Int) (choices : List ChoiceRecord) :
    (assignFreshIds start choices).map (fun choice => choice.id) =
      (List.range choices.length).map (fun (i : Nat) => some (start + (i : Int))) := by
  induction choices generalizing start with
  | nil => rfl
  | cons c rest ih =>
    rw [List.length_cons, List.range_succ_eq_map]
    simp only [assignFreshIds, List.map_cons, List.map_map, ih, Nat.cast_zero, add_zero,
      List.cons.injEq, true_and]
    apply List.map_congr_left
    intro i _
    simp only [Function.comp_apply, Nat.cast_succ]
    congr 1
    ring

theorem assignFreshIds_id_ge (start : Int) (choices : List ChoiceRecord) :
    ∀ added ∈ assignFreshIds start choices, ∃ key, added.id = some key ∧ start ≤ key := by
  induction choices generalizing start with
  | nil => simp [assignFreshIds]
  | cons c rest ih =>
    intro added hadded
    simp only [assignFreshIds, List.mem_cons] at hadded
    rcases hadded with rfl | hrest
    · exact ⟨start, rfl, le_refl _⟩
    · obtain ⟨key, hkey, hle⟩ := ih (start + 1) added hrest
      exact ⟨key, hkey, by omega⟩

theorem adjustedDeathTime_eval (birthDate : JsDate) (years impactMs : Int) (impactDays : ℚ)
    (value : Int) (h : impactDays * 24 * 60 * 60 * 1000 = (impactMs : ℚ))
    (hv : JsDate.getTime { birthDate with fullYear := birthDate.fullYear + years } +
      impactMs = value) :
    adjustedDeathTime birthDate (years : ℚ) impactDays = value := by
  rw [adjustedDeathTime_of_int birthDate years impactMs impactDays h, hv]

theorem lifeExpectancy_eighty_none :
    calculateLifeExpectancy 80 ["none"] =
      { optimistic := 91, realistic := 81, pessimistic := 81 } := by
  have hcontains : ["none"].contains "none" = true := by simp
  have htotal : totalImpact ["none"] = 0 := by simp [totalImpact]
  simp only [calculateLifeExpectancy, hcontains, if_true, htotal, add_zero]
  norm_num

theorem aggregate_recentWorstChoice :
    countdownAvgAbstract (calculateScores [recentWorstChoice] 1762214400000).abstract =
      175 / 4 := by
  rw [calculateScores_abstract, countdownAvgAbstract_eq_avgAbstract]
  unfold avgAbstract
  rw [objectValues_abstractScores, sumScores_eq_sum]
  simp [getRecentChoices, isAfter, cutoffDate, msPerDay, recentWorstChoice, categories,
    categoryScore, sumWeights, calculateTrend]
  norm_num

theorem getRecentChoices_eq_windowChoices (choiceHistory : List ChoiceRecord) (now : Int) :
    getRecentChoices choiceHistory now 30 = windowChoices choiceHistory now := by
  unfold getRecentChoices windowChoices
  apply List.filter_congr
  intro c _
  cases hts : c.timestamp with
  | none => simp [isAfter]
  | some t => simp [isAfter, cutoffDate, msPerDay]

theorem categoryScore_singleton (c : ChoiceRecord) :
    categoryScore [c] = min 100 (max 0 c.weight) := by
  simp [categoryScore, sumWeights, calculateTrend]

theorem sumWeights_map_stripId (l : List ChoiceRecord) :
    sumWeights (l.map stripId) = sumWeights l := by
  rw [sumWeights_eq_sum, sumWeights_eq_sum, List.map_map]
  rfl

theorem sliceFrom_map {α β : Type} (f : α → β) (l : List α) (k : Int) :
    sliceFrom (l.map f) k = (sliceFrom l k).map f := by
  simp only [sliceFrom, List.length_map, List.map_drop]

theorem sliceTo_map {α β : Type} (f : α → β) (l : List α) (k : Int) :
    sliceTo (l.map f) k = (sliceTo l k).map f := by
  simp only [sliceTo, List.length_map, List.map_take]

theorem calculateTrend_map_stripId (l : List ChoiceRecord) :
    calculateTrend (l.map stripId) = calculateTrend l := by
  simp only [calculateTrend, sliceFrom_map, sliceTo_map, sumWeights_map_stripId,
    List.length_map]

theorem categoryScore_map_stripId (l : List ChoiceRecord) :
    categoryScore (l.map stripId) = categoryScore l := by
  simp only [categoryScore, calculateTrend_map_stripId, sumWeights_map_stripId,
    List.length_map]

theorem categoryScore_congr_stripId (l l' : List ChoiceRecord)
    (h : l'.map stripId = l.map stripId) : categoryScore l' = categoryScore l := by
  rw [← categoryScore_map_stripId l', h, categoryScore_map_stripId]

theorem recent_category_map_stripId (h : List ChoiceRecord) (now : Int) (category : String) :
    (getRecentChoices (h.map stripId) now 30).filter
        (fun choice => choice.category == category) =
      ((getRecentChoices h now 30).filter
        (fun choice => choice.category == category)).map stripId := by
  unfold getRecentChoices
  rw [List.filter_map, List.filter_map]
  rfl

theorem calculateScores_map_stripId (h : List ChoiceRecord) (now : Int) :
    calculateScores (h.map stripId) now = calculateScores h now := by
  apply calculateScores_congr
  intro category _
  rw [recent_category_map_stripId, categoryScore_map_stripId]

theorem calculateScores_perm_same_ids (choiceHistory permuted : List ChoiceRecord) (now : Int)
    (hperm : permuted.Perm choiceHistory)
    (horder : ∀ category ∈ categories,
      (getRecentChoices permuted now 30).filter
          (fun choice => choice.category == category) =
        (getRecentChoices choiceHistory now 30).filter
          (fun choice => choice.category == category) ∨
      ((getRecentChoices choiceHistory now 30).filter
        (fun choice => choice.category == category)).length ≤ 3) :
    calculateScores permuted now = calculateScores choiceHistory now := by
  apply calculateScores_congr
  intro category hcat
  rcases horder category hcat with hsame | hshort
  · rw [hsame]
  · apply categoryScore_perm_short _ _ _ hshort
    unfold getRecentChoices
    exact (hperm.filter _).filter _

theorem loadChoiceHistory_importChoices (s : AppState) (db : Database)
    (choices : List ChoiceRecord) (hdb : s.db = some db) :
    (loadChoiceHistory (importChoices s choices .success) .success).choiceHistory =
      db.choices ++ assignFreshIds db.keyGenerator choices := by
  simp only [importChoices, hdb, loadChoiceHistory, foldl_addChoice_stripId]

theorem roundHalfEven_of_near (x : ℚ) (n : Int) (h : |x - n| < 1 / 2) :
    roundHalfEven x = n := by
  rw [abs_lt] at h
  obtain ⟨h1, h2⟩ := h
  unfold roundHalfEven
  rcases le_or_lt (n : ℚ) x with hle | hlt
  · have hfl : Int.floor x = n := by
      rw [Int.floor_eq_iff]
      constructor <;> linarith
    rw [hfl, if_pos h2]
  · have hfl : Int.floor x = n - 1 := by
      rw [Int.floor_eq_iff]
      push_cast
      constructor <;> linarith
    rw [hfl]
    push_cast
    rw [if_neg (by linarith), if_pos (by linarith)]
    ring

theorem roundHalfEven_err (x : ℚ) : |(roundHalfEven x : ℚ) - x| ≤ 1 / 2 := by
  have h1 := Int.floor_le x
  have h2 := Int.lt_floor_add_one x
  unfold roundHalfEven
  rw [abs_le]
  split_ifs with ha hb hc
  · constructor <;> linarith
  · push_cast
    constructor <;> linarith
  · constructor <;> linarith
  · push_cast
    constructor <;> linarith

theorem ulpExponent_of_binade (x : ℚ) (e : Int) (hlo : (2 : ℚ) ^ e ≤ |x|)
    (hhi : |x| < (2 : ℚ) ^ (e + 1)) (he : -1074 ≤ e - 52) : ulpExponent x = e - 52 := by
  have hpos : 0 < |x| := lt_of_lt_of_le (by positivity) hlo
  have h1 : e ≤ Int.log 2 |x| := (Int.zpow_le_iff_le_log (by norm_num) hpos).mp (by exact_mod_cast hlo)
  have h2 : Int.log 2 |x| < e + 1 := (Int.lt_zpow_iff_log_lt (by norm_num) hpos).mp (by exact_mod_cast hhi)
  unfold ulpExponent
  have : Int.log 2 |x| = e := by omega
  rw [this]
  exact max_eq_left he

theorem toDouble_of_binade (x : ℚ) (e n : Int) (hlo : (2 : ℚ) ^ e ≤ |x|)
    (hhi : |x| < (2 : ℚ) ^ (e + 1)) (he : -1074 ≤ e - 52)
    (hn : |x / 2 ^ (e - 52) - n| < 1 / 2) : toDouble x = n * 2 ^ (e - 52) := by
  unfold toDouble
  rw [ulpExponent_of_binade x e hlo hhi he, roundHalfEven_of_near _ n hn]

theorem ulpExponent_le (x : ℚ) (h : |x| < 128) : ulpExponent x ≤ -46 := by
  unfold ulpExponent
  have hlog : Int.log 2 |x| < 7 := by
    rcases eq_or_lt_of_le (abs_nonneg x) with h0 | hpos
    · rw [← h0, Int.log_of_right_le_zero 2 (le_refl (0 : ℚ))]
      norm_num
    · apply (Int.lt_zpow_iff_log_lt (by norm_num) hpos).mp
      norm_num
      exact h
  omega

theorem toDouble_err (x : ℚ) (h : |x| < 128) : |toDouble x - x| ≤ 1 / 2 ^ 47 := by
  have hu := ulpExponent_le x h
  have hpos : (0 : ℚ) < 2 ^ ulpExponent x := by positivity
  have hle : (2 : ℚ) ^ ulpExponent x ≤ 2 ^ (-46 : Int) := zpow_le_zpow_right₀ (by norm_num) hu
  have herr := roundHalfEven_err (x / 2 ^ ulpExponent x)
  have heq : toDouble x - x =
      ((roundHalfEven (x / 2 ^ ulpExponent x) : ℚ) - x / 2 ^ ulpExponent x) *
        2 ^ ulpExponent x := by
    unfold toDouble
    field_simp
  rw [heq, abs_mul, abs_of_pos hpos]
  calc |(roundHalfEven (x / 2 ^ ulpExponent x) : ℚ) - x / 2 ^ ulpExponent x| *
        2 ^ ulpExponent x ≤ 1 / 2 * 2 ^ (-46 : Int) :=
        mul_le_mul herr hle (le_of_lt hpos) (by norm_num)
    _ = 1 / 2 ^ 47 := by norm_num

theorem toDouble_three_tenths : toDouble (3 / 10) = 5404319552844595 / 2 ^ 54 := by
  rw [toDouble_of_binade (3 / 10) (-2) 5404319552844595 (by norm_num [abs_of_pos])
    (by norm_num [abs_of_pos]) (by norm_num) (by norm_num [abs_lt])]
  norm_num

theorem toDouble_seven_tenths : toDouble (7 / 10) = 3152519739159347 / 2 ^ 52 := by
  rw [toDouble_of_binade (7 / 10) (-1) 6305039478318694 (by norm_num [abs_of_pos])
    (by norm_num [abs_of_pos]) (by norm_num) (by norm_num [abs_lt])]
  norm_num

theorem toDouble_two_fifths : toDouble (2 / 5) = 3602879701896397 / 2 ^ 53 := by
  rw [toDouble_of_binade (2 / 5) (-2) 7205759403792794 (by norm_num [abs_of_pos])
    (by norm_num [abs_of_pos]) (by norm_num) (by norm_num [abs_lt])]
  norm_num

theorem toDouble_hundred : toDouble 100 = 100 := by
  rw [toDouble_of_binade 100 6 7036874417766400 (by norm_num [abs_of_pos])
    (by norm_num [abs_of_pos]) (by norm_num) (by norm_num [abs_lt])]
  norm_num

theorem respect_realistic_double_at_100 :
    (calculateConcreteOutcomesDouble 100).respect.realistic = 31 := by
  have h1 : toDouble (100 * (5404319552844595 / 2 ^ 54)) = 30 := by
    rw [toDouble_of_binade _ 4 8444249301319680 (by norm_num [abs_of_pos])
      (by norm_num [abs_of_pos]) (by norm_num) (by norm_num [abs_lt])]
    norm_num
  have h2 : toDouble (30 + 15) = 45 := by
    rw [toDouble_of_binade _ 5 6333186975989760 (by norm_num [abs_of_pos])
      (by norm_num [abs_of_pos]) (by norm_num) (by norm_num [abs_lt])]
    norm_num
  have h3 : toDouble (45 * (3152519739159347 / 2 ^ 52)) = 8866461766385663 / 2 ^ 48 := by
    rw [toDouble_of_binade _ 4 8866461766385663 (by norm_num [abs_of_pos])
      (by norm_num [abs_of_pos]) (by norm_num) (by norm_num [abs_lt])]
    norm_num
  simp only [calculateConcreteOutcomesDouble]
  rw [toDouble_three_tenths, h1, h2, toDouble_seven_tenths, h3]
  unfold jsRound
  rw [Int.floor_eq_iff]
  norm_num

theorem respect_realistic_double_near_200_21 :
    (calculateConcreteOutcomesDouble nearTwoHundredOverTwentyOne).respect.realistic = 13 := by
  have h1 : toDouble (5361428127822019 / 2 ^ 49 * (5404319552844595 / 2 ^ 54)) =
      6433713753386423 / 2 ^ 51 := by
    rw [toDouble_of_binade _ 1 6433713753386423 (by norm_num [abs_of_pos])
      (by norm_num [abs_of_pos]) (by norm_num) (by norm_num [abs_lt])]
    norm_num
  have h2 : toDouble (6433713753386423 / 2 ^ 51 + 15) = 5026338869833143 / 2 ^ 48 := by
    rw [toDouble_of_binade _ 4 5026338869833143 (by norm_num [abs_of_pos])
      (by norm_num [abs_of_pos]) (by norm_num) (by norm_num [abs_lt])]
    norm_num
  have h3 : toDouble (5026338869833143 / 2 ^ 48 * (3152519739159347 / 2 ^ 52)) = 25 / 2 := by
    rw [toDouble_of_binade _ 3 7036874417766400 (by norm_num [abs_of_pos])
      (by norm_num [abs_of_pos]) (by norm_num) (by norm_num [abs_lt])]
    norm_num
  simp only [calculateConcreteOutcomesDouble, nearTwoHundredOverTwentyOne]
  rw [toDouble_three_tenths, h1, h2, toDouble_seven_tenths, h3]
  unfold jsRound
  rw [Int.floor_eq_iff]
  norm_num

theorem toDouble_nearTwoHundredOverTwentyOne :
    toDouble nearTwoHundredOverTwentyOne = nearTwoHundredOverTwentyOne := by
  unfold nearTwoHundredOverTwentyOne
  rw [toDouble_of_binade _ 3 5361428127822019 (by norm_num [abs_of_pos])
    (by norm_num [abs_of_pos]) (by norm_num) (by norm_num [abs_lt])]
  norm_num

theorem toDouble_near (x' x e : ℚ) (hx : |x'| < 128) (h : |x' - x| ≤ e) :
    |toDouble x' - x| ≤ e + 1 / 2 ^ 47 := by
  have herr := toDouble_err x' hx
  have heq : toDouble x' - x = (x' - x) + (toDouble x' - x') := by ring
  rw [heq]
  exact le_trans (abs_add _ _) (add_le_add h herr)

theorem abs_le_of_near (x' x e X : ℚ) (h : |x' - x| ≤ e) (hX : |x| ≤ X) : |x'| ≤ X + e := by
  have heq : x' = x + (x' - x) := by ring
  rw [heq]
  exact le_trans (abs_add _ _) (add_le_add hX h)

theorem mul_near (x' x y' y ex ey X Y : ℚ) (hx : |x' - x| ≤ ex) (hy : |y' - y| ≤ ey)
    (hX : |x| ≤ X) (hY : |y'| ≤ Y) : |x' * y' - x * y| ≤ ex * Y + X * ey := by
  have heq : x' * y' - x * y = (x' - x) * y' + x * (y' - y) := by ring
  rw [heq]
  refine le_trans (abs_add _ _) (add_le_add ?_ ?_)
  · rw [abs_mul]
    exact mul_le_mul hx hY (abs_nonneg _) (le_trans (abs_nonneg _) hx)
  · rw [abs_mul]
    exact mul_le_mul hX hy (abs_nonneg _) (le_trans (abs_nonneg _) hX)

theorem jsRound_min_near (cap x' x e : ℚ) (h : |x' - x| ≤ e) :
    |(jsRound (min cap x') : ℚ) - min cap x| ≤ 1 / 2 + e := by
  have hmin : |min cap x' - min cap x| ≤ e := by
    refine le_trans (abs_min_sub_min_le_max _ _ _ _) ?_
    rw [sub_self, abs_zero]
    exact max_le (le_trans (abs_nonneg _) h) h
  have h1 : ((jsRound (min cap x') : Int) : ℚ) ≤ min cap x' + 1 / 2 := Int.floor_le _
  have h2 : min cap x' + 1 / 2 < ((jsRound (min cap x') : Int) : ℚ) + 1 :=
    Int.lt_floor_add_one _
  rw [abs_le] at hmin ⊢
  obtain ⟨h3, h4⟩ := hmin
  constructor <;> linarith

theorem murphyMultiplier_near : |toDouble (7 / 10) - 7 / 10| ≤ 1 / 2 ^ 47 :=
  toDouble_err _ (by norm_num [abs_lt])

theorem unpredictabilityFactor_near : |toDouble (2 / 5) - 2 / 5| ≤ 1 / 2 ^ 47 :=
  toDouble_err _ (by norm_num [abs_lt])

theorem baseInfluence_near (a : ℚ) (h0 : 0 ≤ a) (h100 : a ≤ 100) :
    |toDouble (a * toDouble (3 / 10)) - a * (3 / 10)| ≤ 101 / 2 ^ 47 := by
  have hc : |toDouble (3 / 10) - 3 / 10| ≤ 1 / 2 ^ 47 := toDouble_err _ (by norm_num [abs_lt])
  have hprod : |a * toDouble (3 / 10) - a * (3 / 10)| ≤ 100 / 2 ^ 47 := by
    rw [← mul_sub, abs_mul, abs_of_nonneg h0]
    calc a * |toDouble (3 / 10) - 3 / 10| ≤ 100 * (1 / 2 ^ 47) :=
          mul_le_mul h100 hc (abs_nonneg _) (by norm_num)
      _ = 100 / 2 ^ 47 := by norm_num
  have hB : |a * (3 / 10)| ≤ 30 := by
    rw [abs_le]
    constructor <;> linarith
  have hmag : |a * toDouble (3 / 10)| < 128 :=
    lt_of_le_of_lt (abs_le_of_near _ _ _ _ hprod hB) (by norm_num)
  refine le_trans (toDouble_near _ _ _ hmag hprod) ?_
  norm_num

theorem optimistic_near (a c : ℚ) (h0 : 0 ≤ a) (h100 : a ≤ 100) (hc0 : 0 ≤ c) (hc : c ≤ 40) :
    |toDouble (toDouble (a * toDouble (3 / 10)) + c) - (a * (3 / 10) + c)| ≤ 102 / 2 ^ 47 := by
  have hb := baseInfluence_near a h0 h100
  have hsum : |toDouble (a * toDouble (3 / 10)) + c - (a * (3 / 10) + c)| ≤ 101 / 2 ^ 47 := by
    rw [add_sub_add_right_eq_sub]
    exact hb
  have hB : |a * (3 / 10) + c| ≤ 70 := by
    rw [abs_le]
    constructor <;> linarith
  have hmag : |toDouble (a * toDouble (3 / 10)) + c| < 128 :=
    lt_of_le_of_lt (abs_le_of_near _ _ _ _ hsum hB) (by norm_num)
  refine le_trans (toDouble_near _ _ _ hmag hsum) ?_
  norm_num

theorem realistic_near (a c : ℚ) (h0 : 0 ≤ a) (h100 : a ≤ 100) (hc0 : 0 ≤ c) (hc : c ≤ 40) :
    |toDouble (toDouble (toDouble (a * toDouble (3 / 10)) + c) * toDouble (7 / 10)) -
        (a * (3 / 10) + c) * (7 / 10)| ≤ 174 / 2 ^ 47 := by
  have ht := optimistic_near a c h0 h100 hc0 hc
  have hm := murphyMultiplier_near
  have hB : |a * (3 / 10) + c| ≤ 70 := by
    rw [abs_le]
    constructor <;> linarith
  have hM : |toDouble (7 / 10)| ≤ 1 :=
    le_trans (abs_le_of_near _ _ _ (7 / 10) hm (by norm_num [abs_le])) (by norm_num)
  have hprod := mul_near _ _ _ _ _ _ 70 1 ht hm hB hM
  have hT : |toDouble (toDouble (a * toDouble (3 / 10)) + c)| ≤ 71 :=
    le_trans (abs_le_of_near _ _ _ _ ht hB) (by norm_num)
  have hmag : |toDouble (toDouble (a * toDouble (3 / 10)) + c) * toDouble (7 / 10)| < 128 := by
    rw [abs_mul]
    calc |toDouble (toDouble (a * toDouble (3 / 10)) + c)| * |toDouble (7 / 10)|
        ≤ 71 * 1 := mul_le_mul hT hM (abs_nonneg _) (by norm_num)
      _ < 128 := by norm_num
  refine le_trans (toDouble_near _ _ _ hmag hprod) ?_
  norm_num

theorem pessimistic_near (a : ℚ) (h0 : 0 ≤ a) (h100 : a ≤ 100) :
    |toDouble (toDouble (a * toDouble (3 / 10)) * toDouble (7 / 10)) -
        a * (3 / 10) * (7 / 10)| ≤ 133 / 2 ^ 47 := by
  have hb := baseInfluence_near a h0 h100
  have hm := murphyMultiplier_near
  have hB : |a * (3 / 10)| ≤ 30 := by
    rw [abs_le]
    constructor <;> linarith
  have hM : |toDouble (7 / 10)| ≤ 1 :=
    le_trans (abs_le_of_near _ _ _ (7 / 10) hm (by norm_num [abs_le])) (by norm_num)
  have hprod := mul_near _ _ _ _ _ _ 30 1 hb hm hB hM
  have hT : |toDouble (a * toDouble (3 / 10))| ≤ 31 :=
    le_trans (abs_le_of_near _ _ _ _ hb hB) (by norm_num)
  have hmag : |toDouble (a * toDouble (3 / 10)) * toDouble (7 / 10)| < 128 := by
    rw [abs_mul]
    calc |toDouble (a * toDouble (3 / 10))| * |toDouble (7 / 10)|
        ≤ 31 * 1 := mul_le_mul hT hM (abs_nonneg _) (by norm_num)
      _ < 128 := by norm_num
  refine le_trans (toDouble_near _ _ _ hmag hprod) ?_
  norm_num

theorem pessimistic_unpredictable_near (a : ℚ) (h0 : 0 ≤ a) (h100 : a ≤ 100) :
    |toDouble (toDouble (toDouble (a * toDouble (3 / 10)) * toDouble (7 / 10)) *
          toDouble (2 / 5)) - a * (3 / 10) * (7 / 10) * (2 / 5)| ≤ 156 / 2 ^ 47 := by
  have hp := pessimistic_near a h0 h100
  have hu := unpredictabilityFactor_near
  have hB : |a * (3 / 10) * (7 / 10)| ≤ 21 := by
    rw [abs_le]
    constructor <;> linarith
  have hU : |toDouble (2 / 5)| ≤ 1 :=
    le_trans (abs_le_of_near _ _ _ (2 / 5) hu (by norm_num [abs_le])) (by norm_num)
  have hprod := mul_near _ _ _ _ _ _ 21 1 hp hu hB hU
  have hT : |toDouble (toDouble (a * toDouble (3 / 10)) * toDouble (7 / 10))| ≤ 22 :=
    le_trans (abs_le_of_near _ _ _ _ hp hB) (by norm_num)
  have hmag : |toDouble (toDouble (a * toDouble (3 / 10)) * toDouble (7 / 10)) *
      toDouble (2 / 5)| < 128 := by
    rw [abs_mul]
    calc |toDouble (toDouble (a * toDouble (3 / 10)) * toDouble (7 / 10))| * |toDouble (2 / 5)|
        ≤ 22 * 1 := mul_le_mul hT hU (abs_nonneg _) (by norm_num)
      _ < 128 := by norm_num
  refine le_trans (toDouble_near _ _ _ hmag hprod) ?_
  norm_num

theorem nearRounded_of_near (cap x' x e : ℚ) (h : |x' - x| ≤ e) (he : e ≤ 1 / 2 ^ 39) :
    NearRounded (min cap x) (jsRound (min cap x')) := by
  unfold NearRounded
  have := jsRound_min_near cap x' x e h
  linarith

theorem avgAbstract_allBestChoices :
    avgAbstract (calculateScores allBestChoices 0).abstract = 100 := by
  rw [calculateScores_abstract]
  unfold avgAbstract
  rw [objectValues_abstractScores, sumScores_eq_sum]
  simp [allBestChoices, getRecentChoices, isAfter, cutoffDate, msPerDay, categories,
    categoryScore, sumWeights, calculateTrend]
  norm_num

/-! ## Claims -/

/-- C1: for every choice log and every current instant, `calculateScores` returns
exactly the 8 fixed categories as keys, the score of each category lies in `[0,100]`,
and a category none of whose choices has a timestamp later than `now - 30 days`
gets exactly `50`. -/
theorem calculateScores_score_range (choiceHistory : List ChoiceRecord) (now : Int) :
    (calculateScores choiceHistory now).abstract.map Prod.fst = categories ∧
    categories.length = 8 ∧
    ∀ category ∈ categories, ∃ score : ℚ,
      (calculateScores choiceHistory now).abstract.lookup category = some score ∧
      0 ≤ score ∧ score ≤ 100 ∧
      ((∀ choice ∈ choiceHistory, choice.category = category →
          ∀ t, choice.timestamp = some t → t ≤ now - 2592000000) → score = 50) := by
  rw [calculateScores_abstract]
  refine ⟨abstractScores_keys _, by simp [categories], ?_⟩
  intro category hcat
  rw [abstractScores_lookup _ category hcat]
  refine ⟨_, rfl, (categoryScore_range _).1, (categoryScore_range _).2, ?_⟩
  intro hout
  have hnil : (getRecentChoices choiceHistory now 30).filter
      (fun choice => choice.category == category) = [] := by
    rw [List.filter_eq_nil_iff]
    intro c hc hcc
    rw [mem_getRecentChoices] at hc
    obtain ⟨hmem, t, hts, hlt⟩ := hc
    have hle := hout c hmem (by simpa using hcc) t hts
    omega
  rw [hnil]
  simp [categoryScore]


/-- C2: for every age and every condition list, the triple returned by
`calculateLifeExpectancy` satisfies pessimistic ≤ realistic ≤ optimistic and
realistic ≥ age + 1. -/
theorem calculateLifeExpectancy_ordered (age : ℚ) (diseases : List String) :
    (calculateLifeExpectancy age diseases).pessimistic ≤
        (calculateLifeExpectancy age diseases).realistic ∧
      (calculateLifeExpectancy age diseases).realistic ≤
        (calculateLifeExpectancy age diseases).optimistic ∧
      age + 1 ≤ (calculateLifeExpectancy age diseases).realistic := by
  simp only [calculateLifeExpectancy]
  have hreal : age + 1 ≤ max (age + 1) (73 + totalImpact diseases) := le_max_left _ _
  refine ⟨?_, ?_, hreal⟩
  · apply max_le hreal
    split <;> linarith
  · split <;> linarith

/-- C3: when the in-window choices of a category number at least 4, they split into
a non-empty older part and the last three choices; `calculateTrend` returns
(mean weight of the last 3 − mean weight of the older part) × 0.2, and the category
score is clamp(mean weight of all the category's choices + that trend, 0, 100). -/
theorem calculateTrend_four_or_more (choiceHistory : List ChoiceRecord) (now : Int)
    (category : String) (cs : List ChoiceRecord)
    (hcat : category ∈ categories)
    (hcs : cs = (getRecentChoices choiceHistory now 30).filter
      (fun choice => choice.category == category))
    (hlen : 4 ≤ cs.length) :
    ∃ older a b c, cs = older ++ [a, b, c] ∧ older ≠ [] ∧
      calculateTrend cs =
        ((a.weight + b.weight + c.weight) / 3 -
          (older.map (fun x => x.weight)).sum / older.length) * (1 / 5) ∧
      (calculateScores choiceHistory now).abstract.lookup category =
        some (min 100 (max 0
          ((cs.map (fun x => x.weight)).sum / cs.length + calculateTrend cs))) := by
  obtain ⟨older, a, b, c, hsplit⟩ := exists_append_three cs (by omega)
  have holder : older ≠ [] := by
    rintro rfl
    rw [hsplit] at hlen
    simp at hlen
  have holderlen : 0 < older.length := List.length_pos.mpr holder
  refine ⟨older, a, b, c, hsplit, holder, ?_, ?_⟩
  · rw [hsplit]
    have hlen2 : ¬ (older ++ [a, b, c]).length < 2 := by simp
    simp only [calculateTrend, hlen2, if_false, sliceFrom_append_three,
      sliceTo_append_three, holderlen, gt_iff_lt, if_true, sumWeights_eq_sum]
    norm_num
    ring
  · rw [calculateScores_abstract, abstractScores_lookup _ category hcat, ← hcs]
    have hpos : cs.length > 0 := by omega
    simp only [categoryScore, hpos, if_true, sumWeights_eq_sum]

/-- The claim C3 at four `action` choices with weights 0, 100, 100, 100, all stamped
at the current instant. -/
theorem calculateTrend_four_or_more_witness :
    ∃ older a b c, fourActionChoices = older ++ [a, b, c] ∧ older ≠ [] ∧
      calculateTrend fourActionChoices =
        ((a.weight + b.weight + c.weight) / 3 -
          (older.map (fun x => x.weight)).sum / older.length) * (1 / 5) ∧
      (calculateScores fourActionChoices 0).abstract.lookup "action" =
        some (min 100 (max 0
          ((fourActionChoices.map (fun x => x.weight)).sum / fourActionChoices.length +
            calculateTrend fourActionChoices))) :=
  calculateTrend_four_or_more fourActionChoices 0 "action" fourActionChoices
    (by simp [categories])
    (by simp [fourActionChoices, actionChoice, getRecentChoices, isAfter, cutoffDate,
      msPerDay])
    (by simp [fourActionChoices])

/-- C4 (amended): when the in-window choices of a category number at most 3,
`calculateTrend` returns exactly 0 and no evaluated division has an empty slice as
divisor; with 1, 2 or 3 choices the category score is the clamped mean weight, and
with no choice it is exactly 50. -/
theorem calculateTrend_at_most_three (choiceHistory : List ChoiceRecord) (now : Int)
    (category : String) (cs : List ChoiceRecord)
    (hcat : category ∈ categories)
    (hcs : cs = (getRecentChoices choiceHistory now 30).filter
      (fun choice => choice.category == category))
    (hlen : cs.length ≤ 3) :
    calculateTrend cs = 0 ∧ calculateTrendChecked cs = some 0 ∧
      (calculateScores choiceHistory now).abstract.lookup category =
        some (match meanWeight? cs with
          | some mean => min 100 (max 0 mean)
          | none => 50) := by
  have ht := calculateTrend_short cs hlen
  refine ⟨ht, by rw [calculateTrendChecked_eq, ht], ?_⟩
  rw [calculateScores_abstract, abstractScores_lookup _ category hcat, ← hcs]
  by_cases hnil : cs = []
  · subst hnil
    simp [categoryScore, meanWeight?]
  · have hpos : cs.length > 0 := List.length_pos.mpr hnil
    simp only [categoryScore, hpos, if_true, ht, add_zero, meanWeight?, hnil, if_false,
      sumWeights_eq_sum]

/-- The claim C4 at a single `action` choice of weight 40. -/
theorem calculateTrend_at_most_three_witness :
    calculateTrend [actionChoice 40] = 0 ∧ calculateTrendChecked [actionChoice 40] = some 0 ∧
      (calculateScores [actionChoice 40] 0).abstract.lookup "action" =
        some (match meanWeight? [actionChoice 40] with
          | some mean => min 100 (max 0 mean)
          | none => 50) :=
  calculateTrend_at_most_three [actionChoice 40] 0 "action" [actionChoice 40]
    (by simp [categories])
    (by simp [actionChoice, getRecentChoices, isAfter, cutoffDate, msPerDay])
    (by simp)

/-- C4 as stated fails on the empty category list (0 choices): the score is 50, while
the empty list has no mean weight, and the clamp of the source expression
`sum / length + trend` evaluated there is not 50 either. -/
theorem categoryScore_empty_not_clamped_mean :
    ([] : List ChoiceRecord).length ≤ 3 ∧
      (calculateScores [] 0).abstract.lookup "action" = some 50 ∧
      categoryScore [] = 50 ∧
      meanWeight? [] = none ∧
      (¬ ∃ mean, meanWeight? [] = some mean ∧ categoryScore [] = min 100 (max 0 mean)) ∧
      categoryScore [] ≠
        min 100 (max 0 (sumWeights [] / (([] : List ChoiceRecord).length : ℚ) +
          calculateTrend [])) := by
  refine ⟨by simp, ?_, ?_, ?_, ?_, ?_⟩
  · rw [calculateScores_abstract, abstractScores_lookup _ _ (by simp [categories])]
    simp [getRecentChoices, categoryScore]
  · simp [categoryScore]
  · simp [meanWeight?]
  · simp [meanWeight?]
  · simp [categoryScore, sumWeights, calculateTrend]


/-- C5: windowing is a strict cut at `now - 30 days`.  The score `calculateScores`
gives a category is the score of exactly those of its choices that are stamped strictly
later than `now - 30 days`, and the projection is computed from the mean of these
scores; so the result is the same on the log with every choice stamped at or before
the cutoff removed.  A choice stamped exactly at the cutoff is excluded (alone in the
log it leaves the score at 50) and one stamped any later is kept (alone in the log it
sets the score to its clamped weight). -/
theorem calculateScores_window (choiceHistory : List ChoiceRecord) (now : Int) :
    calculateScores choiceHistory now = calculateScores (dropStale choiceHistory now) now ∧
      (∀ c, c ∈ getRecentChoices choiceHistory now 30 ↔
        c ∈ choiceHistory ∧ ∃ t, c.timestamp = some t ∧ now - 2592000000 < t) ∧
      (∀ c, c.timestamp = some (now - 2592000000) →
        c ∉ getRecentChoices choiceHistory now 30) ∧
      (∀ c ∈ choiceHistory, ∀ t, c.timestamp = some t → now - 2592000000 < t →
        c ∈ getRecentChoices choiceHistory now 30) ∧
      (∀ category ∈ categories,
        (calculateScores choiceHistory now).abstract.lookup category =
          some (categoryScore ((windowChoices choiceHistory now).filter
            (fun choice => choice.category == category)))) ∧
      (calculateScores choiceHistory now).abstract =
        categories.map (fun category =>
          (category, categoryScore ((windowChoices choiceHistory now).filter
            (fun choice => choice.category == category)))) ∧
      (calculateScores choiceHistory now).concrete =
        calculateConcreteOutcomes
          ((categories.map (fun category =>
            categoryScore ((windowChoices choiceHistory now).filter
              (fun choice => choice.category == category)))).sum / 8) ∧
      (∀ c, c ∈ windowChoices choiceHistory now ↔
        c ∈ choiceHistory ∧ ∃ t, c.timestamp = some t ∧ now - 2592000000 < t) ∧
      (∀ c : ChoiceRecord, c.category ∈ categories →
        c.timestamp = some (now - 2592000000) →
        (calculateScores [c] now).abstract.lookup c.category = some 50) ∧
      (∀ (c : ChoiceRecord) (t : Int), c.category ∈ categories → c.timestamp = some t →
        now - 2592000000 < t →
        (calculateScores [c] now).abstract.lookup c.category =
          some (min 100 (max 0 c.weight))) := by
  have hmem : ∀ c, c ∈ getRecentChoices choiceHistory now 30 ↔
      c ∈ choiceHistory ∧ ∃ t, c.timestamp = some t ∧ now - 2592000000 < t := by
    intro c
    rw [mem_getRecentChoices]
    norm_num
  refine ⟨?_, hmem, ?_, ?_, ?_, ?_, ?_, ?_, ?_, ?_⟩
  · simp only [calculateScores, getRecentChoices_dropStale]
  · intro c hts hin
    obtain ⟨_, t, ht, hlt⟩ := (hmem c).mp hin
    rw [hts] at ht
    cases ht
    omega
  · intro c hc t hts hlt
    exact (hmem c).mpr ⟨hc, t, hts, hlt⟩
  · intro category hcat
    rw [calculateScores_abstract, abstractScores_lookup _ category hcat,
      getRecentChoices_eq_windowChoices]
  · rw [calculateScores_abstract, abstractScores_eq, getRecentChoices_eq_windowChoices]
  · rw [calculateScores_concrete, getRecentChoices_eq_windowChoices]
    congr 1
    unfold avgAbstract
    rw [objectValues_abstractScores, sumScores_eq_sum]
    simp [categories]
  · intro c
    rw [← getRecentChoices_eq_windowChoices]
    exact hmem c
  · intro c hcat hts
    rw [calculateScores_abstract, abstractScores_lookup _ _ hcat,
      getRecentChoices_eq_windowChoices]
    simp [windowChoices, hts, categoryScore]
  · intro c t hcat hts hlt
    rw [calculateScores_abstract, abstractScores_lookup _ _ hcat,
      getRecentChoices_eq_windowChoices]
    have hw : windowChoices [c] now = [c] := by
      simp [windowChoices, hts, hlt]
    rw [hw]
    simp [categoryScore_singleton]

/-- C6: the values of the `abstract` object are exactly the 8 category scores, the
aggregate `avgAbstract` is their sum divided by 8, it is what `calculateScores` passes
to `calculateConcreteOutcomes`, the aggregate recomputed in `updateCountdownDisplay`
equals it, and it is exactly 50 when no choice is in the 30-day window. -/
theorem avgAbstract_mean_of_eight (choiceHistory : List ChoiceRecord) (now : Int) :
    objectValues (calculateScores choiceHistory now).abstract =
        categories.map (fun category =>
          categoryScore ((getRecentChoices choiceHistory now 30).filter
            (fun choice => choice.category == category))) ∧
      (objectValues (calculateScores choiceHistory now).abstract).length = 8 ∧
      avgAbstract (calculateScores choiceHistory now).abstract =
        (objectValues (calculateScores choiceHistory now).abstract).sum / 8 ∧
      (calculateScores choiceHistory now).concrete =
        calculateConcreteOutcomes (avgAbstract (calculateScores choiceHistory now).abstract) ∧
      countdownAvgAbstract (calculateScores choiceHistory now).abstract =
        avgAbstract (calculateScores choiceHistory now).abstract ∧
      ((∀ c ∈ choiceHistory, ∀ t, c.timestamp = some t → t ≤ now - 2592000000) →
        avgAbstract (calculateScores choiceHistory now).abstract = 50) := by
  have hlen : (objectValues (calculateScores choiceHistory now).abstract).length = 8 := by
    rw [calculateScores_abstract, objectValues_abstractScores]
    simp [categories]
  refine ⟨?_, hlen, ?_, ?_, ?_, ?_⟩
  · rw [calculateScores_abstract, objectValues_abstractScores]
  · unfold avgAbstract
    rw [hlen, sumScores_eq_sum]
    norm_num
  · rw [calculateScores_concrete, calculateScores_abstract]
  · unfold countdownAvgAbstract avgAbstract
    rw [hlen]
    simp
  · intro hout
    have hnil : getRecentChoices choiceHistory now 30 = [] := by
      rw [List.eq_nil_iff_forall_not_mem]
      intro c hc
      rw [mem_getRecentChoices] at hc
      obtain ⟨hmem, t, hts, hlt⟩ := hc
      have := hout c hmem t hts
      omega
    unfold avgAbstract
    rw [calculateScores_abstract, objectValues_abstractScores, hnil, sumScores_eq_sum]
    simp [categories, categoryScore]
    norm_num


/-- C7 (amended): for every aggregate score `a`, each of the twelve values returned by
`calculateConcreteOutcomes` is `Math.round` of the stated capped expression evaluated in
double precision, that is with `0.3`, `0.7`, `0.4` the Numbers nearest to them and every
product and sum rounded to the nearest Number; and for `a` in `[0,100]` each value lies
within `1/2 + 2⁻³⁹` of the stated capped expression evaluated exactly, so that it is
the exact expression rounded to the nearest integer unless that expression is within
`2⁻³⁹` of a half. -/
theorem calculateConcreteOutcomesDouble_formulas (a : ℚ) :
    ((IsRounded
        (min 80 (toDouble (toDouble (a * toDouble (3 / 10)) + 40)))
        (calculateConcreteOutcomesDouble a).financial.optimistic ∧
      IsRounded
        (min 60 (toDouble (toDouble (toDouble (a * toDouble (3 / 10)) + 20) * toDouble (7 / 10))))
        (calculateConcreteOutcomesDouble a).financial.realistic ∧
      IsRounded
        (min 40 (toDouble (toDouble (a * toDouble (3 / 10)) * toDouble (7 / 10))))
        (calculateConcreteOutcomesDouble a).financial.pessimistic) ∧
    (IsRounded
        (min 70 (toDouble (toDouble (a * toDouble (3 / 10)) + 30)))
        (calculateConcreteOutcomesDouble a).respect.optimistic ∧
      IsRounded
        (min 50 (toDouble (toDouble (toDouble (a * toDouble (3 / 10)) + 15) * toDouble (7 / 10))))
        (calculateConcreteOutcomesDouble a).respect.realistic ∧
      IsRounded
        (min 30
          (toDouble (toDouble (toDouble (a * toDouble (3 / 10)) * toDouble (7 / 10)) *
            toDouble (2 / 5))))
        (calculateConcreteOutcomesDouble a).respect.pessimistic) ∧
    (IsRounded
        (min 75 (toDouble (toDouble (a * toDouble (3 / 10)) + 35)))
        (calculateConcreteOutcomesDouble a).relationships.optimistic ∧
      IsRounded
        (min 55 (toDouble (toDouble (toDouble (a * toDouble (3 / 10)) + 20) * toDouble (7 / 10))))
        (calculateConcreteOutcomesDouble a).relationships.realistic ∧
      IsRounded
        (min 35
          (toDouble (toDouble (toDouble (a * toDouble (3 / 10)) * toDouble (7 / 10)) *
            toDouble (2 / 5))))
        (calculateConcreteOutcomesDouble a).relationships.pessimistic) ∧
    (IsRounded
        (min 65 (toDouble (toDouble (a * toDouble (3 / 10)) + 25)))
        (calculateConcreteOutcomesDouble a).opportunities.optimistic ∧
      IsRounded
        (min 45 (toDouble (toDouble (toDouble (a * toDouble (3 / 10)) + 10) * toDouble (7 / 10))))
        (calculateConcreteOutcomesDouble a).opportunities.realistic ∧
      IsRounded
        (min 25
          (toDouble (toDouble (toDouble (a * toDouble (3 / 10)) * toDouble (7 / 10)) *
            toDouble (2 / 5))))
        (calculateConcreteOutcomesDouble a).opportunities.pessimistic)) ∧
    (0 ≤ a → a ≤ 100 →
    ((NearRounded (min 80 (a * (3 / 10) + 40))
        (calculateConcreteOutcomesDouble a).financial.optimistic ∧
      NearRounded (min 60 ((a * (3 / 10) + 20) * (7 / 10)))
        (calculateConcreteOutcomesDouble a).financial.realistic ∧
      NearRounded (min 40 (a * (3 / 10) * (7 / 10)))
        (calculateConcreteOutcomesDouble a).financial.pessimistic) ∧
    (NearRounded (min 70 (a * (3 / 10) + 30))
        (calculateConcreteOutcomesDouble a).respect.optimistic ∧
      NearRounded (min 50 ((a * (3 / 10) + 15) * (7 / 10)))
        (calculateConcreteOutcomesDouble a).respect.realistic ∧
      NearRounded (min 30 (a * (3 / 10) * (7 / 10) * (2 / 5)))
        (calculateConcreteOutcomesDouble a).respect.pessimistic) ∧
    (NearRounded (min 75 (a * (3 / 10) + 35))
        (calculateConcreteOutcomesDouble a).relationships.optimistic ∧
      NearRounded (min 55 ((a * (3 / 10) + 20) * (7 / 10)))
        (calculateConcreteOutcomesDouble a).relationships.realistic ∧
      NearRounded (min 35 (a * (3 / 10) * (7 / 10) * (2 / 5)))
        (calculateConcreteOutcomesDouble a).relationships.pessimistic) ∧
    (NearRounded (min 65 (a * (3 / 10) + 25))
        (calculateConcreteOutcomesDouble a).opportunities.optimistic ∧
      NearRounded (min 45 ((a * (3 / 10) + 10) * (7 / 10)))
        (calculateConcreteOutcomesDouble a).opportunities.realistic ∧
      NearRounded (min 25 (a * (3 / 10) * (7 / 10) * (2 / 5)))
        (calculateConcreteOutcomesDouble a).opportunities.pessimistic))) := by
  refine ⟨?_, ?_⟩
  · simp only [calculateConcreteOutcomesDouble]
    exact ⟨⟨jsRound_isRounded _, jsRound_isRounded _, jsRound_isRounded _⟩,
      ⟨jsRound_isRounded _, jsRound_isRounded _, jsRound_isRounded _⟩,
      ⟨jsRound_isRounded _, jsRound_isRounded _, jsRound_isRounded _⟩,
      ⟨jsRound_isRounded _, jsRound_isRounded _, jsRound_isRounded _⟩⟩
  · intro h0 h100
    simp only [calculateConcreteOutcomesDouble]
    exact ⟨⟨nearRounded_of_near _ _ _ _ (optimistic_near a 40 h0 h100 (by norm_num) (by norm_num))
        (by norm_num),
      nearRounded_of_near _ _ _ _ (realistic_near a 20 h0 h100 (by norm_num) (by norm_num))
        (by norm_num),
      nearRounded_of_near _ _ _ _ (pessimistic_near a h0 h100) (by norm_num)⟩,
      ⟨nearRounded_of_near _ _ _ _ (optimistic_near a 30 h0 h100 (by norm_num) (by norm_num))
        (by norm_num),
      nearRounded_of_near _ _ _ _ (realistic_near a 15 h0 h100 (by norm_num) (by norm_num))
        (by norm_num),
      nearRounded_of_near _ _ _ _ (pessimistic_unpredictable_near a h0 h100) (by norm_num)⟩,
      ⟨nearRounded_of_near _ _ _ _ (optimistic_near a 35 h0 h100 (by norm_num) (by norm_num))
        (by norm_num),
      nearRounded_of_near _ _ _ _ (realistic_near a 20 h0 h100 (by norm_num) (by norm_num))
        (by norm_num),
      nearRounded_of_near _ _ _ _ (pessimistic_unpredictable_near a h0 h100) (by norm_num)⟩,
      ⟨nearRounded_of_near _ _ _ _ (optimistic_near a 25 h0 h100 (by norm_num) (by norm_num))
        (by norm_num),
      nearRounded_of_near _ _ _ _ (realistic_near a 10 h0 h100 (by norm_num) (by norm_num))
        (by norm_num),
      nearRounded_of_near _ _ _ _ (pessimistic_unpredictable_near a h0 h100) (by norm_num)⟩⟩

/-- The claim C7 as amended at the aggregate score 50: the bounds of the twelve values
against the exact expressions. -/
theorem calculateConcreteOutcomesDouble_formulas_witness :
    (0 : ℚ) ≤ 50 ∧ (50 : ℚ) ≤ 100 ∧
    ((NearRounded (min 80 (50 * (3 / 10) + 40))
        (calculateConcreteOutcomesDouble 50).financial.optimistic ∧
      NearRounded (min 60 ((50 * (3 / 10) + 20) * (7 / 10)))
        (calculateConcreteOutcomesDouble 50).financial.realistic ∧
      NearRounded (min 40 (50 * (3 / 10) * (7 / 10)))
        (calculateConcreteOutcomesDouble 50).financial.pessimistic) ∧
    (NearRounded (min 70 (50 * (3 / 10) + 30))
        (calculateConcreteOutcomesDouble 50).respect.optimistic ∧
      NearRounded (min 50 ((50 * (3 / 10) + 15) * (7 / 10)))
        (calculateConcreteOutcomesDouble 50).respect.realistic ∧
      NearRounded (min 30 (50 * (3 / 10) * (7 / 10) * (2 / 5)))
        (calculateConcreteOutcomesDouble 50).respect.pessimistic) ∧
    (NearRounded (min 75 (50 * (3 / 10) + 35))
        (calculateConcreteOutcomesDouble 50).relationships.optimistic ∧
      NearRounded (min 55 ((50 * (3 / 10) + 20) * (7 / 10)))
        (calculateConcreteOutcomesDouble 50).relationships.realistic ∧
      NearRounded (min 35 (50 * (3 / 10) * (7 / 10) * (2 / 5)))
        (calculateConcreteOutcomesDouble 50).relationships.pessimistic) ∧
    (NearRounded (min 65 (50 * (3 / 10) + 25))
        (calculateConcreteOutcomesDouble 50).opportunities.optimistic ∧
      NearRounded (min 45 ((50 * (3 / 10) + 10) * (7 / 10)))
        (calculateConcreteOutcomesDouble 50).opportunities.realistic ∧
      NearRounded (min 25 (50 * (3 / 10) * (7 / 10) * (2 / 5)))
        (calculateConcreteOutcomesDouble 50).opportunities.pessimistic)) :=
  ⟨by norm_num, by norm_num,
    (calculateConcreteOutcomesDouble_formulas 50).2 (by norm_num) (by norm_num)⟩

/-- C7 as stated fails of the Numbers the code computes with.  At the aggregate score
100, reached with one choice of weight 100 in each category, the exact
`(100 × 0.3 + 15) × 0.7` is 31.5 and rounds to 32, which is what the exact-arithmetic
`calculateConcreteOutcomes` gives; in doubles `100 × 0.3` is 30, `30 + 15` is 45 and
`45 × 0.7` is `31.5 − 2⁻⁴⁸`, so `respect.realistic` is 31.  At the Number
`9.523809523809524` the exact expression is below 12.5, with 12 its one nearest
integer, while in doubles it is 12.5 and `respect.realistic` is 13. -/
theorem calculateConcreteOutcomes_formulas_fail_in_double :
    avgAbstract (calculateScores allBestChoices 0).abstract = 100 ∧
      toDouble 100 = 100 ∧
      (calculateConcreteOutcomesDouble 100).respect.realistic = 31 ∧
      (calculateConcreteOutcomes 100).respect.realistic = 32 ∧
      IsRounded (min 50 ((100 * (3 / 10) + 15) * (7 / 10))) 32 ∧
      ¬ IsRounded (min 50 ((100 * (3 / 10) + 15) * (7 / 10)))
        (calculateConcreteOutcomesDouble 100).respect.realistic ∧
      toDouble nearTwoHundredOverTwentyOne = nearTwoHundredOverTwentyOne ∧
      (calculateConcreteOutcomesDouble nearTwoHundredOverTwentyOne).respect.realistic = 13 ∧
      min 50 ((nearTwoHundredOverTwentyOne * (3 / 10) + 15) * (7 / 10)) < 25 / 2 ∧
      (1 : ℚ) / 2 < |((calculateConcreteOutcomesDouble
          nearTwoHundredOverTwentyOne).respect.realistic : ℚ) -
        min 50 ((nearTwoHundredOverTwentyOne * (3 / 10) + 15) * (7 / 10))| ∧
      ¬ IsRounded (min 50 ((nearTwoHundredOverTwentyOne * (3 / 10) + 15) * (7 / 10)))
        (calculateConcreteOutcomesDouble nearTwoHundredOverTwentyOne).respect.realistic := by
  have hexact : (calculateConcreteOutcomes 100).respect.realistic = 32 := by
    simp only [calculateConcreteOutcomes]
    unfold jsRound
    rw [Int.floor_eq_iff]
    norm_num
  refine ⟨avgAbstract_allBestChoices, toDouble_hundred, respect_realistic_double_at_100,
    hexact, ?_, ?_, toDouble_nearTwoHundredOverTwentyOne,
    respect_realistic_double_near_200_21, ?_, ?_, ?_⟩
  · unfold IsRounded
    norm_num
  · rw [respect_realistic_double_at_100]
    unfold IsRounded
    norm_num
  · unfold nearTwoHundredOverTwentyOne
    norm_num
  · rw [respect_realistic_double_near_200_21]
    unfold nearTwoHundredOverTwentyOne
    norm_num [abs_of_pos]
  · rw [respect_realistic_double_near_200_21]
    unfold IsRounded nearTwoHundredOverTwentyOne
    norm_num

/-- C8: for every aggregate score in `[0,100]`, each of the 12 values returned by
`calculateConcreteOutcomes` is an integer in `[0,100]`. -/
theorem calculateConcreteOutcomes_range (a : ℚ) (h0 : 0 ≤ a) (_h100 : a ≤ 100) :
    ((0 ≤ (calculateConcreteOutcomes a).financial.optimistic ∧
        (calculateConcreteOutcomes a).financial.optimistic ≤ 100) ∧
      (0 ≤ (calculateConcreteOutcomes a).financial.realistic ∧
        (calculateConcreteOutcomes a).financial.realistic ≤ 100) ∧
      (0 ≤ (calculateConcreteOutcomes a).financial.pessimistic ∧
        (calculateConcreteOutcomes a).financial.pessimistic ≤ 100)) ∧
    ((0 ≤ (calculateConcreteOutcomes a).respect.optimistic ∧
        (calculateConcreteOutcomes a).respect.optimistic ≤ 100) ∧
      (0 ≤ (calculateConcreteOutcomes a).respect.realistic ∧
        (calculateConcreteOutcomes a).respect.realistic ≤ 100) ∧
      (0 ≤ (calculateConcreteOutcomes a).respect.pessimistic ∧
        (calculateConcreteOutcomes a).respect.pessimistic ≤ 100)) ∧
    ((0 ≤ (calculateConcreteOutcomes a).relationships.optimistic ∧
        (calculateConcreteOutcomes a).relationships.optimistic ≤ 100) ∧
      (0 ≤ (calculateConcreteOutcomes a).relationships.realistic ∧
        (calculateConcreteOutcomes a).relationships.realistic ≤ 100) ∧
      (0 ≤ (calculateConcreteOutcomes a).relationships.pessimistic ∧
        (calculateConcreteOutcomes a).relationships.pessimistic ≤ 100)) ∧
    ((0 ≤ (calculateConcreteOutcomes a).opportunities.optimistic ∧
        (calculateConcreteOutcomes a).opportunities.optimistic ≤ 100) ∧
      (0 ≤ (calculateConcreteOutcomes a).opportunities.realistic ∧
        (calculateConcreteOutcomes a).opportunities.realistic ≤ 100) ∧
      (0 ≤ (calculateConcreteOutcomes a).opportunities.pessimistic ∧
        (calculateConcreteOutcomes a).opportunities.pessimistic ≤ 100)) := by
  simp only [calculateConcreteOutcomes]
  refine ⟨⟨?_, ?_, ?_⟩, ⟨?_, ?_, ?_⟩, ⟨?_, ?_, ?_⟩, ⟨?_, ?_, ?_⟩⟩ <;>
    apply jsRound_min_range <;> first | positivity | norm_num

/-- The claim C8 at the neutral aggregate score 50. -/
theorem calculateConcreteOutcomes_range_witness :
    ((0 ≤ (calculateConcreteOutcomes 50).financial.optimistic ∧
        (calculateConcreteOutcomes 50).financial.optimistic ≤ 100) ∧
      (0 ≤ (calculateConcreteOutcomes 50).financial.realistic ∧
        (calculateConcreteOutcomes 50).financial.realistic ≤ 100) ∧
      (0 ≤ (calculateConcreteOutcomes 50).financial.pessimistic ∧
        (calculateConcreteOutcomes 50).financial.pessimistic ≤ 100)) ∧
    ((0 ≤ (calculateConcreteOutcomes 50).respect.optimistic ∧
        (calculateConcreteOutcomes 50).respect.optimistic ≤ 100) ∧
      (0 ≤ (calculateConcreteOutcomes 50).respect.realistic ∧
        (calculateConcreteOutcomes 50).respect.realistic ≤ 100) ∧
      (0 ≤ (calculateConcreteOutcomes 50).respect.pessimistic ∧
        (calculateConcreteOutcomes 50).respect.pessimistic ≤ 100)) ∧
    ((0 ≤ (calculateConcreteOutcomes 50).relationships.optimistic ∧
        (calculateConcreteOutcomes 50).relationships.optimistic ≤ 100) ∧
      (0 ≤ (calculateConcreteOutcomes 50).relationships.realistic ∧
        (calculateConcreteOutcomes 50).relationships.realistic ≤ 100) ∧
      (0 ≤ (calculateConcreteOutcomes 50).relationships.pessimistic ∧
        (calculateConcreteOutcomes 50).relationships.pessimistic ≤ 100)) ∧
    ((0 ≤ (calculateConcreteOutcomes 50).opportunities.optimistic ∧
        (calculateConcreteOutcomes 50).opportunities.optimistic ≤ 100) ∧
      (0 ≤ (calculateConcreteOutcomes 50).opportunities.realistic ∧
        (calculateConcreteOutcomes 50).opportunities.realistic ≤ 100) ∧
      (0 ≤ (calculateConcreteOutcomes 50).opportunities.pessimistic ∧
        (calculateConcreteOutcomes 50).opportunities.pessimistic ≤ 100)) :=
  calculateConcreteOutcomes_range 50 (by norm_num) (by norm_num)


/-- C9 (amended): for every age and every non-empty condition list that does not
contain `none`, `totalImpact` is the sum of the listed conditions' table impacts,
multiplied by (1 − (count − 1) × 0.1) when count > 1, and the estimate is
realistic = max(age + 1, 73 + totalImpact), optimistic = realistic + 7,
pessimistic = max(age + 1, realistic − 6). -/
theorem calculateLifeExpectancy_conditions (age : ℚ) (diseases : List String)
    (_hne : diseases ≠ []) (hnone : "none" ∉ diseases) :
    (impactOf "diabetes" = -6 ∧ impactOf "heart_disease" = -8 ∧ impactOf "cancer" = -10 ∧
      impactOf "hypertension" = -4 ∧ impactOf "obesity" = -5 ∧ impactOf "smoking" = -10 ∧
      impactOf "mental_health" = -7 ∧ impactOf "other" = -5 ∧ impactOf "none" = 0) ∧
    totalImpact diseases =
      (if diseases.length > 1 then
        (diseases.map impactOf).sum * (1 - ((diseases.length : ℚ) - 1) * (1 / 10))
      else (diseases.map impactOf).sum) ∧
    (calculateLifeExpectancy age diseases).realistic =
      max (age + 1) (73 + totalImpact diseases) ∧
    (calculateLifeExpectancy age diseases).optimistic =
      (calculateLifeExpectancy age diseases).realistic + 7 ∧
    (calculateLifeExpectancy age diseases).pessimistic =
      max (age + 1) ((calculateLifeExpectancy age diseases).realistic - 6) := by
  have hcontains : diseases.contains "none" = false := by simpa using hnone
  refine ⟨?_, ?_, ?_, ?_, ?_⟩
  · simp [impactOf, diseaseImpact, List.lookup]
  · simp only [totalImpact, hcontains, Bool.false_eq_true, if_false, sum_impacts_foldl]
  · simp only [calculateLifeExpectancy]
  · simp only [calculateLifeExpectancy, hcontains, Bool.false_eq_true, if_false]
  · simp only [calculateLifeExpectancy, hcontains, Bool.false_eq_true, if_false]

/-- The claim C9 at age 40 with conditions diabetes and heart_disease. -/
theorem calculateLifeExpectancy_conditions_witness :
    (impactOf "diabetes" = -6 ∧ impactOf "heart_disease" = -8 ∧ impactOf "cancer" = -10 ∧
      impactOf "hypertension" = -4 ∧ impactOf "obesity" = -5 ∧ impactOf "smoking" = -10 ∧
      impactOf "mental_health" = -7 ∧ impactOf "other" = -5 ∧ impactOf "none" = 0) ∧
    totalImpact ["diabetes", "heart_disease"] =
      (if ["diabetes", "heart_disease"].length > 1 then
        (["diabetes", "heart_disease"].map impactOf).sum *
          (1 - ((["diabetes", "heart_disease"].length : ℚ) - 1) * (1 / 10))
      else (["diabetes", "heart_disease"].map impactOf).sum) ∧
    (calculateLifeExpectancy 40 ["diabetes", "heart_disease"]).realistic =
      max (40 + 1) (73 + totalImpact ["diabetes", "heart_disease"]) ∧
    (calculateLifeExpectancy 40 ["diabetes", "heart_disease"]).optimistic =
      (calculateLifeExpectancy 40 ["diabetes", "heart_disease"]).realistic + 7 ∧
    (calculateLifeExpectancy 40 ["diabetes", "heart_disease"]).pessimistic =
      max (40 + 1) ((calculateLifeExpectancy 40 ["diabetes", "heart_disease"]).realistic - 6) :=
  calculateLifeExpectancy_conditions 40 ["diabetes", "heart_disease"] (by simp) (by simp)

/-- C9 as stated fails on the list `[none, diabetes]`, which is non-empty and not
exactly `[none]`: `includes('none')` holds, so the total impact is 0 rather than
(0 − 6) × 0.9 = −5.4, realistic is 73 rather than 67.6, optimistic is realistic + 10
and pessimistic is realistic − 3. -/
theorem calculateLifeExpectancy_none_with_other :
    ["none", "diabetes"] ≠ ([] : List String) ∧ ["none", "diabetes"] ≠ ["none"] ∧
      totalImpact ["none", "diabetes"] = 0 ∧
      (["none", "diabetes"].map impactOf).sum *
        (1 - (((["none", "diabetes"] : List String).length : ℚ) - 1) * (1 / 10)) = -27 / 5 ∧
      (calculateLifeExpectancy 30 ["none", "diabetes"]).realistic = 73 ∧
      max ((30 : ℚ) + 1) (73 + -27 / 5) = 338 / 5 ∧
      (calculateLifeExpectancy 30 ["none", "diabetes"]).optimistic = 83 ∧
      (calculateLifeExpectancy 30 ["none", "diabetes"]).optimistic ≠
        (calculateLifeExpectancy 30 ["none", "diabetes"]).realistic + 7 ∧
      (calculateLifeExpectancy 30 ["none", "diabetes"]).pessimistic = 70 ∧
      (calculateLifeExpectancy 30 ["none", "diabetes"]).pessimistic ≠
        max (30 + 1) ((calculateLifeExpectancy 30 ["none", "diabetes"]).realistic - 6) := by
  refine ⟨by simp, by simp, ?_, ?_, ?_, ?_, ?_, ?_, ?_, ?_⟩
  · simp [totalImpact]
  · simp [impactOf, diseaseImpact, List.lookup]; norm_num
  · simp [calculateLifeExpectancy, totalImpact]; norm_num
  · norm_num
  · simp [calculateLifeExpectancy, totalImpact]; norm_num
  · simp [calculateLifeExpectancy, totalImpact]
  · simp [calculateLifeExpectancy, totalImpact]; norm_num
  · simp [calculateLifeExpectancy, totalImpact]; norm_num

/-- C10: for every age, `calculateLifeExpectancy(age, [none])` returns
realistic = max(age + 1, 73), optimistic = realistic + 10 and
pessimistic = max(age + 1, realistic − 3); age 30 gives 73, 83 and 70. -/
theorem calculateLifeExpectancy_none (age : ℚ) :
    (calculateLifeExpectancy age ["none"]).realistic = max (age + 1) 73 ∧
      (calculateLifeExpectancy age ["none"]).optimistic =
        (calculateLifeExpectancy age ["none"]).realistic + 10 ∧
      (calculateLifeExpectancy age ["none"]).pessimistic =
        max (age + 1) ((calculateLifeExpectancy age ["none"]).realistic - 3) ∧
      (calculateLifeExpectancy 30 ["none"]).realistic = 73 ∧
      (calculateLifeExpectancy 30 ["none"]).optimistic = 83 ∧
      (calculateLifeExpectancy 30 ["none"]).pessimistic = 70 := by
  have hcontains : ["none"].contains "none" = true := by simp
  have htotal : totalImpact ["none"] = 0 := by simp [totalImpact]
  simp only [calculateLifeExpectancy, hcontains, if_true, htotal, add_zero]
  refine ⟨trivial, trivial, trivial, ?_, ?_, ?_⟩ <;> norm_num

/-- C11: `calculateLifeExpectancy(40, [diabetes, heart_disease])` has total impact
(−6 − 8) × 0.9 = −12.6 and returns realistic 60.4, optimistic 67.4 and
pessimistic 54.4, in exact rational arithmetic. -/
theorem calculateLifeExpectancy_diabetes_heart :
    totalImpact ["diabetes", "heart_disease"] = ((-6 : ℚ) - 8) * (9 / 10) ∧
      totalImpact ["diabetes", "heart_disease"] = -63 / 5 ∧
      (calculateLifeExpectancy 40 ["diabetes", "heart_disease"]).realistic = 302 / 5 ∧
      (calculateLifeExpectancy 40 ["diabetes", "heart_disease"]).optimistic = 337 / 5 ∧
      (calculateLifeExpectancy 40 ["diabetes", "heart_disease"]).pessimistic = 272 / 5 := by
  have htotal := totalImpact_diabetes_heart
  obtain ⟨hr, ho, hp⟩ := lifeExpectancy_diabetes_heart_values
  exact ⟨by rw [htotal]; norm_num, htotal, hr, ho, hp⟩

/-- C12: the choice impact is ((aggregate − 50) / 50) × 1095 days: 0 at aggregate 50,
+1095 at 100, −1095 at 0; the aggregate the countdown computes from any choice log
lies in `[0,100]`, so the impact lies in `[−1095, 1095]`. -/
theorem choiceImpactDays_bounds (choiceHistory : List ChoiceRecord) (now : Int) :
    (∀ aggregate : ℚ, choiceImpactDays aggregate = (aggregate - 50) / 50 * 1095) ∧
      choiceImpactDays 50 = 0 ∧ choiceImpactDays 100 = 1095 ∧ choiceImpactDays 0 = -1095 ∧
      0 ≤ countdownAvgAbstract (calculateScores choiceHistory now).abstract ∧
      countdownAvgAbstract (calculateScores choiceHistory now).abstract ≤ 100 ∧
      -1095 ≤ choiceImpactDays
        (countdownAvgAbstract (calculateScores choiceHistory now).abstract) ∧
      choiceImpactDays
        (countdownAvgAbstract (calculateScores choiceHistory now).abstract) ≤ 1095 := by
  rw [calculateScores_abstract, countdownAvgAbstract_eq_avgAbstract]
  obtain ⟨h0, h100⟩ := avgAbstract_range (getRecentChoices choiceHistory now 30)
  refine ⟨fun _ => rfl, ?_, ?_, ?_, h0, h100, ?_, ?_⟩
  · norm_num [choiceImpactDays]
  · norm_num [choiceImpactDays]
  · norm_num [choiceImpactDays]
  · unfold choiceImpactDays
    linarith
  · unfold choiceImpactDays
    linarith

/-- C13 (the code at the failing input): for a date of birth of 15 June 1985 and the
life expectancies 67.4 / 60.4 / 54.4 that `calculateLifeExpectancy(40, [diabetes,
heart_disease])` returns, the realistic death instant is 15 June 2045, exactly 60
calendar years after birth and the same instant as for a life expectancy of 60: the
0.4 year is dropped by `setFullYear`, and the whole display equals the one for the
life expectancies 67 / 60 / 54. -/
theorem adjustedDeathTime_drops_year_fraction :
    (calculateLifeExpectancy 40 ["diabetes", "heart_disease"]).realistic = 302 / 5 ∧
      adjustedDeathTime bornJune1985 (302 / 5) 0 =
        JsDate.getTime { fullYear := 2045, month := 5, date := 15, timeInDay := 0 } ∧
      adjustedDeathTime bornJune1985 (302 / 5) 0 = adjustedDeathTime bornJune1985 60 0 ∧
      adjustedDeathTime bornJune1985 60 0 < adjustedDeathTime bornJune1985 61 0 ∧
      updateCountdownDisplay (some bornJune1985)
          (some (calculateLifeExpectancy 40 ["diabetes", "heart_disease"])) []
          1762214400000 =
        updateCountdownDisplay (some bornJune1985)
          (some { optimistic := 67, realistic := 60, pessimistic := 54 }) []
          1762214400000 := by
  have hlife := lifeExpectancy_diabetes_heart_values
  have hyear : (0 : Int) ≤ bornJune1985.fullYear := by simp [bornJune1985]
  have ht1 : jsTruncate (302 / 5 : ℚ) = 60 := by
    simp only [jsTruncate]
    norm_num [Int.floor_eq_iff]
  have ht2 : jsTruncate (337 / 5 : ℚ) = 67 := by
    simp only [jsTruncate]
    norm_num [Int.floor_eq_iff]
  have ht3 : jsTruncate (272 / 5 : ℚ) = 54 := by
    simp only [jsTruncate]
    norm_num [Int.floor_eq_iff]
  have h60 : ∀ i : ℚ, adjustedDeathTime bornJune1985 (302 / 5) i =
      adjustedDeathTime bornJune1985 60 i := by
    intro i
    rw [adjustedDeathTime_truncate _ _ _ hyear (by norm_num), ht1]
    norm_num
  have h67 : ∀ i : ℚ, adjustedDeathTime bornJune1985 (337 / 5) i =
      adjustedDeathTime bornJune1985 67 i := by
    intro i
    rw [adjustedDeathTime_truncate _ _ _ hyear (by norm_num), ht2]
    norm_num
  have h54 : ∀ i : ℚ, adjustedDeathTime bornJune1985 (272 / 5) i =
      adjustedDeathTime bornJune1985 54 i := by
    intro i
    rw [adjustedDeathTime_truncate _ _ _ hyear (by norm_num), ht3]
    norm_num
  have hval : ∀ n : Int, adjustedDeathTime bornJune1985 (n : ℚ) 0 =
      JsDate.getTime { fullYear := 1985 + n, month := 5, date := 15, timeInDay := 0 } := by
    intro n
    simp only [adjustedDeathTime, setFullYear, bornJune1985, timeClip, JsDate.getTime]
    have h : ((1985 : Int) : ℚ) + (n : ℚ) = ((1985 + n : Int) : ℚ) := by push_cast; ring
    rw [h, jsTruncate_intCast]
    simp only [zero_mul, add_zero, jsTruncate_intCast]
  refine ⟨hlife.1, ?_, h60 0, ?_, ?_⟩
  · rw [h60 0]
    have := hval 60
    simpa using this
  · have a := hval 60
    have b := hval 61
    simp only [Int.cast_ofNat] at a b
    rw [a, b]
    decide
  · obtain ⟨hr, ho, hp⟩ := hlife
    have he : calculateLifeExpectancy 40 ["diabetes", "heart_disease"] =
        { optimistic := 337 / 5, realistic := 302 / 5, pessimistic := 272 / 5 } := by
      cases hc : calculateLifeExpectancy 40 ["diabetes", "heart_disease"]
      rw [hc] at hr ho hp
      simp only at hr ho hp
      rw [hr, ho, hp]
    rw [he]
    simp only [updateCountdownDisplay, scenarioUnits, LifeExpectancies.get, h60, h67, h54]

/-- C14: with the date of birth and the life expectancies set, a tick of
`updateCountdownDisplay` produces a display in which every unit of the total view, of
the global clock and of the three scenario views is a non-negative integer, and a view
shows 0, 0, 0, 0 whenever `now` is at or after that view's adjusted death instant;
without them nothing is displayed. -/
theorem updateCountdownDisplay_units_nonneg (birthDate : JsDate)
    (expectancies : LifeExpectancies) (choiceHistory : List ChoiceRecord) (now : Int) :
    (∀ e h, updateCountdownDisplay none e h now = none) ∧
    (∀ b h, updateCountdownDisplay b none h now = none) ∧
    ∃ d, updateCountdownDisplay (some birthDate) (some expectancies) choiceHistory now =
        some d ∧
      (∀ u ∈ [d.total, d.globalClock, d.optimistic, d.realistic, d.pessimistic],
        0 ≤ u.days ∧ 0 ≤ u.hours ∧ 0 ≤ u.minutes ∧ 0 ≤ u.seconds) ∧
      (adjustedDeathTime birthDate expectancies.realistic
          (choiceImpactDays
            (countdownAvgAbstract (calculateScores choiceHistory now).abstract)) ≤ now →
        d.total = zeroUnits ∧ d.globalClock = zeroUnits ∧ d.realistic = zeroUnits) ∧
      (adjustedDeathTime birthDate expectancies.optimistic
          (choiceImpactDays
            (countdownAvgAbstract (calculateScores choiceHistory now).abstract) * (3 / 2))
          ≤ now → d.optimistic = zeroUnits) ∧
      (adjustedDeathTime birthDate expectancies.pessimistic
          (choiceImpactDays
            (countdownAvgAbstract (calculateScores choiceHistory now).abstract) * (1 / 2))
          ≤ now → d.pessimistic = zeroUnits) := by
  refine ⟨fun e h => by simp [updateCountdownDisplay],
    fun b h => by cases b <;> simp [updateCountdownDisplay], ?_⟩
  refine ⟨_, rfl, ?_, ?_, ?_, ?_⟩
  · intro u hu
    simp only [List.mem_cons, List.mem_singleton, List.not_mem_nil, or_false] at hu
    rcases hu with rfl | rfl | rfl | rfl | rfl
    · split
      · simp [zeroUnits]
      · exact absoluteUnits_nonneg _ (by omega)
    · split
      · simp [zeroUnits]
      · rename_i h
        rw [breakdownUnits_eq _ (by omega)]
        refine ⟨?_, ?_, ?_, ?_⟩ <;> simp only <;> omega
    · exact scenarioUnits_nonneg _ _ _ _ _
    · exact scenarioUnits_nonneg _ _ _ _ _
    · exact scenarioUnits_nonneg _ _ _ _ _
  · intro h
    have h2 : adjustedDeathTime birthDate expectancies.realistic
        (choiceImpactDays
          (countdownAvgAbstract (calculateScores choiceHistory now).abstract)) - now ≤ 0 := by
      omega
    simp only [scenarioUnits, LifeExpectancies.get, adjustedChoiceImpact, h2, if_true,
      and_self]
  · intro h
    have h2 : adjustedDeathTime birthDate expectancies.optimistic
        (choiceImpactDays
          (countdownAvgAbstract (calculateScores choiceHistory now).abstract) * (3 / 2))
        - now ≤ 0 := by omega
    simp only [scenarioUnits, LifeExpectancies.get, adjustedChoiceImpact, h2, if_true]
  · intro h
    have h2 : adjustedDeathTime birthDate expectancies.pessimistic
        (choiceImpactDays
          (countdownAvgAbstract (calculateScores choiceHistory now).abstract) * (1 / 2))
        - now ≤ 0 := by omega
    simp only [scenarioUnits, LifeExpectancies.get, adjustedChoiceImpact, h2, if_true]

/-- C15 (amended): for a fixed birth date, fixed life expectancies and a fixed choice
log, for all instants t1 ≤ t2 at which the aggregate recomputed at t2 is not larger
than the one recomputed at t1 (in particular when the 30-day window holds the same
choices at both instants), what the tick at t2 displays is ≤ what the tick at t1
displays: each unit of the total view, and the remaining seconds of the global clock
and of each scenario view. -/
theorem countdown_nonincreasing (birthDate : JsDate) (expectancies : LifeExpectancies)
    (choiceHistory : List ChoiceRecord) (t1 t2 : Int) (ht : t1 ≤ t2)
    (hagg : countdownAvgAbstract (calculateScores choiceHistory t2).abstract ≤
      countdownAvgAbstract (calculateScores choiceHistory t1).abstract) :
    ∃ d1 d2,
      updateCountdownDisplay (some birthDate) (some expectancies) choiceHistory t1 = some d1 ∧
      updateCountdownDisplay (some birthDate) (some expectancies) choiceHistory t2 = some d2 ∧
      d2.total.days ≤ d1.total.days ∧ d2.total.hours ≤ d1.total.hours ∧
      d2.total.minutes ≤ d1.total.minutes ∧ d2.total.seconds ≤ d1.total.seconds ∧
      unitsSeconds d2.globalClock ≤ unitsSeconds d1.globalClock ∧
      unitsSeconds d2.optimistic ≤ unitsSeconds d1.optimistic ∧
      unitsSeconds d2.realistic ≤ unitsSeconds d1.realistic ∧
      unitsSeconds d2.pessimistic ≤ unitsSeconds d1.pessimistic := by
  have himpact := choiceImpactDays_mono hagg
  have hreal := adjustedDeathTime_mono birthDate expectancies.realistic himpact
  have hdiff :
      adjustedDeathTime birthDate expectancies.realistic
          (choiceImpactDays
            (countdownAvgAbstract (calculateScores choiceHistory t2).abstract)) - t2 ≤
        adjustedDeathTime birthDate expectancies.realistic
          (choiceImpactDays
            (countdownAvgAbstract (calculateScores choiceHistory t1).abstract)) - t1 := by
    omega
  obtain ⟨hd, hh, hm, hs⟩ := absoluteUnits_le hdiff
  exact ⟨_, _, rfl, rfl, hd, hh, hm, hs, unitsSeconds_scenario_le hdiff,
    scenarioUnits_seconds_le _ _ himpact ht _, scenarioUnits_seconds_le _ _ himpact ht _,
    scenarioUnits_seconds_le _ _ himpact ht _⟩

/-- The claim C15 at an empty choice log, one second apart. -/
theorem countdown_nonincreasing_witness :
    ∃ d1 d2,
      updateCountdownDisplay (some bornEpoch)
        (some { optimistic := 83, realistic := 73, pessimistic := 70 }) [] 0 = some d1 ∧
      updateCountdownDisplay (some bornEpoch)
        (some { optimistic := 83, realistic := 73, pessimistic := 70 }) [] 1000 = some d2 ∧
      d2.total.days ≤ d1.total.days ∧ d2.total.hours ≤ d1.total.hours ∧
      d2.total.minutes ≤ d1.total.minutes ∧ d2.total.seconds ≤ d1.total.seconds ∧
      unitsSeconds d2.globalClock ≤ unitsSeconds d1.globalClock ∧
      unitsSeconds d2.optimistic ≤ unitsSeconds d1.optimistic ∧
      unitsSeconds d2.realistic ≤ unitsSeconds d1.realistic ∧
      unitsSeconds d2.pessimistic ≤ unitsSeconds d1.pessimistic :=
  countdown_nonincreasing bornEpoch { optimistic := 83, realistic := 73, pessimistic := 70 }
    [] 0 1000 (by decide)
    (by simp [calculateScores_abstract, getRecentChoices])

/-- C15 as stated fails when a choice leaves the 30-day window between two ticks: with
a single `action` choice of weight 0 stamped at instant 0, a birth date of 1 January
1970 and life expectancies 83 / 73 / 70, the tick 1 ms before the choice is 30 days
old has aggregate 43.75 and shows 26496 days (30080 / 26496 / 25468 per scenario),
and the tick 1 ms later has aggregate 50 and shows 26633 days
(30286 / 26633 / 25537). -/
theorem countdown_increases_when_choice_leaves_window :
    (2591999999 : Int) ≤ 2592000000 ∧
      countdownAvgAbstract (calculateScores [actionChoice 0] 2591999999).abstract = 175 / 4 ∧
      countdownAvgAbstract (calculateScores [actionChoice 0] 2592000000).abstract = 50 ∧
      (updateCountdownDisplay (some bornEpoch)
          (some { optimistic := 83, realistic := 73, pessimistic := 70 })
          [actionChoice 0] 2591999999).map
          (fun d => [d.total.days, d.optimistic.days, d.realistic.days, d.pessimistic.days]) =
        some [26496, 30080, 26496, 25468] ∧
      (updateCountdownDisplay (some bornEpoch)
          (some { optimistic := 83, realistic := 73, pessimistic := 70 })
          [actionChoice 0] 2592000000).map
          (fun d => [d.total.days, d.optimistic.days, d.realistic.days, d.pessimistic.days]) =
        some [26633, 30286, 26633, 25537] := by
  have hagg1 : countdownAvgAbstract
      (calculateScores [actionChoice 0] 2591999999).abstract = 175 / 4 := by
    rw [calculateScores_abstract, countdownAvgAbstract_eq_avgAbstract]
    unfold avgAbstract
    rw [objectValues_abstractScores, sumScores_eq_sum]
    simp [getRecentChoices, isAfter, cutoffDate, msPerDay, actionChoice, categories,
      categoryScore, sumWeights, calculateTrend]
    norm_num
  have hagg2 : countdownAvgAbstract
      (calculateScores [actionChoice 0] 2592000000).abstract = 50 := by
    rw [calculateScores_abstract, countdownAvgAbstract_eq_avgAbstract]
    unfold avgAbstract
    rw [objectValues_abstractScores, sumScores_eq_sum]
    simp [getRecentChoices, isAfter, cutoffDate, msPerDay, actionChoice, categories,
      categoryScore]
    norm_num
  have eval (years impactMs : Int) (impactDays : ℚ) (value : Int)
      (h : impactDays * 24 * 60 * 60 * 1000 = (impactMs : ℚ))
      (hv : JsDate.getTime { bornEpoch with fullYear := bornEpoch.fullYear + years } +
        impactMs = value) :
      adjustedDeathTime bornEpoch (years : ℚ) impactDays = value := by
    rw [adjustedDeathTime_of_int bornEpoch years impactMs impactDays h, hv]
  have a1 : adjustedDeathTime bornEpoch 73 (choiceImpactDays (175 / 4)) = 2291857200000 := by
    simpa using eval 73 (-11826000000) _ 2291857200000
      (by norm_num [choiceImpactDays]) (by decide)
  have a2 : adjustedDeathTime bornEpoch 83 (choiceImpactDays (175 / 4) * (3 / 2)) =
      2601563400000 := by
    simpa using eval 83 (-17739000000) _ 2601563400000
      (by norm_num [choiceImpactDays]) (by decide)
  have a3 : adjustedDeathTime bornEpoch 70 (choiceImpactDays (175 / 4) * (1 / 2)) =
      2203075800000 := by
    simpa using eval 70 (-5913000000) _ 2203075800000
      (by norm_num [choiceImpactDays]) (by decide)
  have b1 : adjustedDeathTime bornEpoch 73 (choiceImpactDays 50) = 2303683200000 := by
    simpa using eval 73 0 _ 2303683200000 (by norm_num [choiceImpactDays]) (by decide)
  have b2 : adjustedDeathTime bornEpoch 83 (choiceImpactDays 50 * (3 / 2)) =
      2619302400000 := by
    simpa using eval 83 0 _ 2619302400000 (by norm_num [choiceImpactDays]) (by decide)
  have b3 : adjustedDeathTime bornEpoch 70 (choiceImpactDays 50 * (1 / 2)) =
      2208988800000 := by
    simpa using eval 70 0 _ 2208988800000 (by norm_num [choiceImpactDays]) (by decide)
  refine ⟨by decide, hagg1, hagg2, ?_, ?_⟩
  · simp only [updateCountdownDisplay, Option.map_some', hagg1, scenarioUnits,
      LifeExpectancies.get, adjustedChoiceImpact, a1, a2, a3]
    norm_num
    rw [absoluteUnits_eq, breakdownUnits_eq _ (by norm_num),
      breakdownUnits_eq _ (by norm_num), breakdownUnits_eq _ (by norm_num)]
    norm_num
  · simp only [updateCountdownDisplay, Option.map_some', hagg2, scenarioUnits,
      LifeExpectancies.get, adjustedChoiceImpact, b1, b2, b3]
    norm_num
    rw [absoluteUnits_eq, breakdownUnits_eq _ (by norm_num),
      breakdownUnits_eq _ (by norm_num), breakdownUnits_eq _ (by norm_num)]
    norm_num

/-- C16: for every positive remaining time `T` in whole milliseconds, the breakdown
(d, h, m, s) has h < 24, m < 60, s < 60 and d·86400 + h·3600 + m·60 + s = ⌊T/1000⌋, the
total view is (⌊T/86400000⌋, ⌊T/3600000⌋, ⌊T/60000⌋, ⌊T/1000⌋), and whenever `T` is the
realistic time difference of a tick, the tick shows these two views and the total
view's days equal the realistic breakdown's days. -/
theorem countdown_units_decomposition (T : Int) (hT : 0 < T) :
    (0 ≤ (breakdownUnits T).days ∧ 0 ≤ (breakdownUnits T).hours ∧
      (breakdownUnits T).hours < 24 ∧ 0 ≤ (breakdownUnits T).minutes ∧
      (breakdownUnits T).minutes < 60 ∧ 0 ≤ (breakdownUnits T).seconds ∧
      (breakdownUnits T).seconds < 60) ∧
    (breakdownUnits T).days * 86400 + (breakdownUnits T).hours * 3600 +
      (breakdownUnits T).minutes * 60 + (breakdownUnits T).seconds = T / 1000 ∧
    absoluteUnits T =
      { days := T / 86400000, hours := T / 3600000, minutes := T / 60000,
        seconds := T / 1000 } ∧
    (absoluteUnits T).days = (breakdownUnits T).days ∧
    ∀ (birthDate : JsDate) (expectancies : LifeExpectancies)
      (choiceHistory : List ChoiceRecord) (now : Int),
      adjustedDeathTime birthDate expectancies.realistic
          (choiceImpactDays
            (countdownAvgAbstract (calculateScores choiceHistory now).abstract)) - now = T →
      ∃ d, updateCountdownDisplay (some birthDate) (some expectancies) choiceHistory now =
          some d ∧
        d.total = absoluteUnits T ∧ d.globalClock = breakdownUnits T ∧
        d.realistic = breakdownUnits T ∧ d.total.days = d.realistic.days := by
  have hb := breakdownUnits_eq T hT.le
  have ha := absoluteUnits_eq T
  refine ⟨?_, ?_, ha, ?_, ?_⟩
  · rw [hb]
    refine ⟨?_, ?_, ?_, ?_, ?_, ?_, ?_⟩ <;> simp only <;> omega
  · rw [hb]
    simp only
    omega
  · rw [ha, hb]
  · intro birthDate expectancies choiceHistory now hdiff
    have hpos : ¬ T ≤ 0 := by omega
    refine ⟨_, rfl, ?_, ?_, ?_, ?_⟩
    · simp only [hdiff, hpos, if_false]
    · simp only [hdiff, hpos, if_false]
    · simp only [scenarioUnits, LifeExpectancies.get, adjustedChoiceImpact, hdiff, hpos,
        if_false]
    · simp only [scenarioUnits, LifeExpectancies.get, adjustedChoiceImpact, hdiff, hpos,
        if_false]
      rw [ha, hb]

/-- The claim C16 at T = 90061001 ms: 1 day, 1 hour, 1 minute, 1 second and 1 ms. -/
theorem countdown_units_decomposition_witness :
    (0 ≤ (breakdownUnits 90061001).days ∧ 0 ≤ (breakdownUnits 90061001).hours ∧
      (breakdownUnits 90061001).hours < 24 ∧ 0 ≤ (breakdownUnits 90061001).minutes ∧
      (breakdownUnits 90061001).minutes < 60 ∧ 0 ≤ (breakdownUnits 90061001).seconds ∧
      (breakdownUnits 90061001).seconds < 60) ∧
    (breakdownUnits 90061001).days * 86400 + (breakdownUnits 90061001).hours * 3600 +
      (breakdownUnits 90061001).minutes * 60 + (breakdownUnits 90061001).seconds =
      90061001 / 1000 ∧
    absoluteUnits 90061001 =
      { days := 90061001 / 86400000, hours := 90061001 / 3600000,
        minutes := 90061001 / 60000, seconds := 90061001 / 1000 } ∧
    (absoluteUnits 90061001).days = (breakdownUnits 90061001).days ∧
    ∀ (birthDate : JsDate) (expectancies : LifeExpectancies)
      (choiceHistory : List ChoiceRecord) (now : Int),
      adjustedDeathTime birthDate expectancies.realistic
          (choiceImpactDays
            (countdownAvgAbstract (calculateScores choiceHistory now).abstract)) - now =
        90061001 →
      ∃ d, updateCountdownDisplay (some birthDate) (some expectancies) choiceHistory now =
          some d ∧
        d.total = absoluteUnits 90061001 ∧ d.globalClock = breakdownUnits 90061001 ∧
        d.realistic = breakdownUnits 90061001 ∧ d.total.days = d.realistic.days :=
  countdown_units_decomposition 90061001 (by decide)

/-- C17 (the code at the failing input): with the store unavailable (`db = null`),
`saveChoice` appends the record with the id `Date.now()` to the in-memory history, but
a following `loadChoiceHistory` replaces the history by the empty list, so the record
and every record appended earlier are gone; this holds for every session without a
store, while `loadLifeParameters` leaves the in-memory state as it is. -/
theorem loadChoiceHistory_unavailable_clears :
    (saveChoice unavailableSession (actionChoice 0) 1762214400000 .success).choiceHistory =
        [{ actionChoice 100 with id := some 1762214000000 },
          { actionChoice 0 with id := some 1762214400000 }] ∧
      (loadChoiceHistory
          (saveChoice unavailableSession (actionChoice 0) 1762214400000 .success)
          .success).choiceHistory = [] ∧
      (∀ (s : AppState) (r : ChoiceRecord) (now : Int) (o1 o2 : StoreOutcome),
        s.db = none →
          (saveChoice s r now o1).choiceHistory =
              s.choiceHistory ++ [{ r with id := some now }] ∧
            (loadChoiceHistory (saveChoice s r now o1) o2).choiceHistory = []) ∧
      (∀ (s : AppState) (today : JsDate) (o : StoreOutcome),
        s.db = none → loadLifeParameters s today o = s) := by
  refine ⟨by simp [saveChoice, unavailableSession, pushChoice],
    by simp [saveChoice, unavailableSession, pushChoice, loadChoiceHistory], ?_, ?_⟩
  · intro s r now o1 o2 hdb
    simp [saveChoice, hdb, pushChoice, loadChoiceHistory]
  · intro s today o hdb
    simp [loadLifeParameters, hdb]

/-- C18: when the read of the stored parameter record succeeds, a record with a
positive scalar `lifeExpectancy = old` and no `lifeExpectancies` triple is loaded as
optimistic = old + 7, realistic = old, pessimistic = max(age + 1, old − 5), with the
age computed from the record's date of birth at load time; a record that carries the
triple is loaded with that triple unchanged. -/
theorem loadLifeParameters_upconverts (s : AppState) (db : Database) (today : JsDate)
    (record : StoredLifeParameters) (hdb : s.db = some db)
    (hrecord : db.lifeParameters = some record) :
    (∀ old : ℚ, record.lifeExpectancies = none → record.lifeExpectancy = some old →
      0 < old →
        (loadLifeParameters s today .success).lifeExpectancies =
          some
            { optimistic := old + 7
              realistic := old
              pessimistic :=
                max ((calculateAge today (dateOfDOB record.dob) : ℚ) + 1) (old - 5) }) ∧
      (∀ triple : LifeExpectancies, record.lifeExpectancies = some triple →
        (loadLifeParameters s today .success).lifeExpectancies = some triple) ∧
      (loadLifeParameters s today .success).userDOB = record.dob ∧
      (loadLifeParameters s today .success).userDiseases = record.diseases.getD [] := by
  refine ⟨?_, ?_, ?_, ?_⟩
  · intro old hnone hold hpos
    have hne : old ≠ 0 := ne_of_gt hpos
    simp [loadLifeParameters, hdb, hrecord, hnone, hold, hne]
  · intro triple htriple
    simp [loadLifeParameters, hdb, hrecord, htriple]
  · simp only [loadLifeParameters, hdb, hrecord]
    cases record.lifeExpectancies with
    | some e => rfl
    | none =>
      cases record.lifeExpectancy with
      | none => rfl
      | some old => by_cases h : old ≠ 0 <;> simp [h]
  · simp only [loadLifeParameters, hdb, hrecord]
    cases record.lifeExpectancies with
    | some e => rfl
    | none =>
      cases record.lifeExpectancy with
      | none => rfl
      | some old => by_cases h : old ≠ 0 <;> simp [h]

/-- The claim C18 at a legacy record with scalar life expectancy 73 and a date of birth
of 15 June 1985, loaded on 4 November 2025. -/
theorem loadLifeParameters_upconverts_witness :
    (loadLifeParameters legacySession november2025 .success).lifeExpectancies =
      some
        { optimistic := 73 + 7
          realistic := 73
          pessimistic :=
            max ((calculateAge november2025 (dateOfDOB (some bornJune1985)) : ℚ) + 1)
              (73 - 5) } :=
  (loadLifeParameters_upconverts legacySession
    { choices := [], keyGenerator := 1
      lifeParameters := some
        { dob := some bornJune1985, diseases := some ["none"], lifeExpectancies := none,
          lifeExpectancy := some 73 } }
    november2025
    { dob := some bornJune1985, diseases := some ["none"], lifeExpectancies := none,
      lifeExpectancy := some 73 }
    rfl rfl).1 73 rfl rfl (by norm_num)

/-- C19: validation blocks the commit before any state mutation.  When the date of
birth is missing, the condition list is empty, the date of birth is later than today,
or the age is below 1 or above 120, `setLifeParameters` and
`updateConfigurationParameters` leave the whole state unchanged, perform no save and
only raise one alert; otherwise both replace `userDOB`, `userDiseases` and
`lifeExpectancies` together and then save. -/
theorem parameter_commit_guarded (s : AppState) (dobValue : Option JsDate)
    (selectedDiseases : List String) (today : JsDate) (saveOutcome : StoreOutcome) :
    (ValidationFails dobValue selectedDiseases today →
      ((setLifeParameters s dobValue selectedDiseases today saveOutcome).1 = s ∧
        ∃ message, (setLifeParameters s dobValue selectedDiseases today saveOutcome).2 =
          [Effect.alert message]) ∧
      ((updateConfigurationParameters s dobValue selectedDiseases today saveOutcome).1 = s ∧
        ∃ message,
          (updateConfigurationParameters s dobValue selectedDiseases today saveOutcome).2 =
            [Effect.alert message])) ∧
    (¬ ValidationFails dobValue selectedDiseases today →
      ∃ dob, dobValue = some dob ∧
        (setLifeParameters s dobValue selectedDiseases today saveOutcome).1 =
          saveLifeParameters
            { s with
              userDOB := some dob
              userDiseases := selectedDiseases
              lifeExpectancies :=
                some (calculateLifeExpectancy (calculateAge today dob : ℚ) selectedDiseases) }
            saveOutcome ∧
        (updateConfigurationParameters s dobValue selectedDiseases today saveOutcome).1 =
          (setLifeParameters s dobValue selectedDiseases today saveOutcome).1 ∧
        (setLifeParameters s dobValue selectedDiseases today saveOutcome).1.userDOB =
          some dob ∧
        (setLifeParameters s dobValue selectedDiseases today saveOutcome).1.userDiseases =
          selectedDiseases ∧
        (setLifeParameters s dobValue selectedDiseases today saveOutcome).1.lifeExpectancies =
          some (calculateLifeExpectancy (calculateAge today dob : ℚ) selectedDiseases) ∧
        (setLifeParameters s dobValue selectedDiseases today saveOutcome).2 =
          [Effect.saveLifeParameters, Effect.showScreen "intro", Effect.startCountdown] ∧
        (updateConfigurationParameters s dobValue selectedDiseases today saveOutcome).2 =
          [Effect.saveLifeParameters, Effect.startCountdown,
            Effect.alert "Life parameters updated successfully!"]) := by
  cases dobValue with
  | none =>
    refine ⟨fun _ => ?_, fun h => absurd trivial h⟩
    simp [setLifeParameters, updateConfigurationParameters]
  | some dob =>
    simp only [ValidationFails]
    by_cases hlen : selectedDiseases.length = 0
    · have hnil : selectedDiseases = [] := List.length_eq_zero.mp hlen
      refine ⟨fun _ => ?_, fun h => absurd (Or.inl hnil) h⟩
      simp [setLifeParameters, updateConfigurationParameters, hlen]
    · have hnil : selectedDiseases ≠ [] := fun h => hlen (by rw [h]; rfl)
      by_cases hfuture : dob.getTime > today.getTime
      · refine ⟨fun _ => ?_, fun h => absurd (Or.inr (Or.inl hfuture)) h⟩
        simp [setLifeParameters, updateConfigurationParameters, hlen, hfuture]
      · by_cases hage : calculateAge today dob < 1 ∨ calculateAge today dob > 120
        · refine ⟨fun _ => ?_, fun h => absurd (Or.inr (Or.inr hage)) h⟩
          simp [setLifeParameters, updateConfigurationParameters, hlen, hfuture, hage]
        · constructor
          · intro h
            rcases h with h | h | h
            · exact absurd h hnil
            · exact absurd h hfuture
            · exact absurd h hage
          · intro _
            refine ⟨dob, rfl, ?_⟩
            have hfields := saveLifeParameters_fields
              { s with
                userDOB := some dob
                userDiseases := selectedDiseases
                lifeExpectancies :=
                  some (calculateLifeExpectancy (calculateAge today dob : ℚ)
                    selectedDiseases) }
              saveOutcome
            simp only [setLifeParameters, updateConfigurationParameters, hlen, hfuture, hage,
              if_false, true_and, and_true]
            exact ⟨hfields.1, hfields.2.1, hfields.2.2.1⟩

/-- C20 (the code at the failing input): a choice whose question is `a"b` is exported
as the field `"a""b"`, but `parseCSVLine` drops every double quote it reads, so the
parsed field is `ab`, the unescaping of `importFromCSV` has nothing left to restore and
the imported question is `ab`, not `a"b`; category, choice, value and weight come back
unchanged.  No field returned by `parseCSVLine` ever contains a double quote. -/
theorem csv_round_trip_drops_quotes :
    quotedChoice.question = "a\"b" ∧
      joinWith ',' (csvRow epochDateString epochTimeString hundredString quotedChoice) =
        "Thu Jan 01 1970,00:00:00,action,\"a\"\"b\",\"c\",v,100".toList ∧
      parseCSVLine
          (joinWith ',' (csvRow epochDateString epochTimeString hundredString quotedChoice)) =
        ["Thu Jan 01 1970".toList, "00:00:00".toList, "action".toList, "ab".toList,
          "c".toList, "v".toList, "100".toList] ∧
      importFromCSV parseEpoch parseHundred
          (convertToCSV epochDateString epochTimeString hundredString [quotedChoice]) =
        [{ id := none, timestamp := some 0, question := "ab", choice := "c",
            category := "action", value := "v", weight := 100 }] ∧
      (∀ line : List Char, ∀ field ∈ parseCSVLine line,
        '"' ∉ field ∧ unquoteField field = field) := by
  refine ⟨rfl, by decide, by decide, ?_, ?_⟩
  · simp only [importFromCSV, convertToCSV, csvHeaders, List.map_cons, List.map_nil]
    have hlines : splitLines
        (joinWith '\n'
          [joinWith ',' ["Date".toList, "Time".toList, "Category".toList, "Question".toList,
              "Choice".toList, "Value".toList, "Weight".toList],
            joinWith ','
              (csvRow epochDateString epochTimeString hundredString quotedChoice)]) =
        ["Date,Time,Category,Question,Choice,Value,Weight".toList,
          "Thu Jan 01 1970,00:00:00,action,\"a\"\"b\",\"c\",v,100".toList] := by decide
    rw [hlines]
    have hline : importLine parseEpoch parseHundred
        "Thu Jan 01 1970,00:00:00,action,\"a\"\"b\",\"c\",v,100".toList =
        some
          { id := none, timestamp := some 0, question := "ab", choice := "c",
            category := "action", value := "v", weight := 100 } := by
      have hvalues : parseCSVLine
          "Thu Jan 01 1970,00:00:00,action,\"a\"\"b\",\"c\",v,100".toList =
          ["Thu Jan 01 1970".toList, "00:00:00".toList, "action".toList, "ab".toList,
            "c".toList, "v".toList, "100".toList] := by decide
      simp only [importLine, hvalues, parseEpoch, parseHundred]
      decide
    have hblank : ("Thu Jan 01 1970,00:00:00,action,\"a\"\"b\",\"c\",v,100".toList).all
        isTrimmedChar = false := by decide
    simp only [List.tail_cons, importLines, hblank, hline]
    simp
  · intro line field hfield
    have hq := parseCSVLine_no_quote line field hfield
    refine ⟨hq, ?_⟩
    unfold unquoteField
    rw [stripOuterQuotes_no_quote field hq, undoubleQuotes_no_quote field hq]

/-- C25 (the code at the failing input): with one choice of weight 0 in each of the 8
categories the aggregate is 0 and `choiceImpactDays` is −1095 days, three years and
not the two years the comment gives as the largest reduction; the largest extension
is +1095 days as the comment says. -/
theorem choiceImpactDays_below_two_years :
    countdownAvgAbstract (calculateScores allWorstChoices 0).abstract = 0 ∧
      choiceImpactDays (countdownAvgAbstract (calculateScores allWorstChoices 0).abstract) =
        -1095 ∧
      choiceImpactDays (countdownAvgAbstract (calculateScores allWorstChoices 0).abstract) <
        -730 ∧
      choiceImpactDays 100 = 1095 := by
  have hagg : countdownAvgAbstract (calculateScores allWorstChoices 0).abstract = 0 := by
    rw [calculateScores_abstract, countdownAvgAbstract_eq_avgAbstract]
    unfold avgAbstract
    rw [objectValues_abstractScores, sumScores_eq_sum]
    simp [allWorstChoices, getRecentChoices, isAfter, cutoffDate, msPerDay, categories,
      categoryScore, sumWeights, calculateTrend]
  rw [hagg]
  refine ⟨rfl, ?_, ?_, ?_⟩ <;> norm_num [choiceImpactDays]

/-- C26: for every aggregate score in `[0,100]` none of the twelve domain ceilings of
`calculateConcreteOutcomes` is active: each `min(ceiling, expr)` equals `expr`, which
is strictly below the ceiling, and the projected value is `round(expr)`, strictly below
the ceiling too. -/
theorem calculateConcreteOutcomes_ceilings_inactive (a : ℚ) (_h0 : 0 ≤ a) (h100 : a ≤ 100) :
    (CeilingInactive 80 (a * (3 / 10) + 40) (calculateConcreteOutcomes a).financial.optimistic ∧
      CeilingInactive 60 ((a * (3 / 10) + 20) * (7 / 10))
        (calculateConcreteOutcomes a).financial.realistic ∧
      CeilingInactive 40 (a * (3 / 10) * (7 / 10))
        (calculateConcreteOutcomes a).financial.pessimistic) ∧
    (CeilingInactive 70 (a * (3 / 10) + 30) (calculateConcreteOutcomes a).respect.optimistic ∧
      CeilingInactive 50 ((a * (3 / 10) + 15) * (7 / 10))
        (calculateConcreteOutcomes a).respect.realistic ∧
      CeilingInactive 30 (a * (3 / 10) * (7 / 10) * (2 / 5))
        (calculateConcreteOutcomes a).respect.pessimistic) ∧
    (CeilingInactive 75 (a * (3 / 10) + 35)
        (calculateConcreteOutcomes a).relationships.optimistic ∧
      CeilingInactive 55 ((a * (3 / 10) + 20) * (7 / 10))
        (calculateConcreteOutcomes a).relationships.realistic ∧
      CeilingInactive 35 (a * (3 / 10) * (7 / 10) * (2 / 5))
        (calculateConcreteOutcomes a).relationships.pessimistic) ∧
    (CeilingInactive 65 (a * (3 / 10) + 25)
        (calculateConcreteOutcomes a).opportunities.optimistic ∧
      CeilingInactive 45 ((a * (3 / 10) + 10) * (7 / 10))
        (calculateConcreteOutcomes a).opportunities.realistic ∧
      CeilingInactive 25 (a * (3 / 10) * (7 / 10) * (2 / 5))
        (calculateConcreteOutcomes a).opportunities.pessimistic) := by
  simp only [calculateConcreteOutcomes]
  refine ⟨⟨?_, ?_, ?_⟩, ⟨?_, ?_, ?_⟩, ⟨?_, ?_, ?_⟩, ⟨?_, ?_, ?_⟩⟩ <;>
    apply ceilingInactive_of_margin <;> linarith

/-- The claim C26 at the neutral aggregate score 50. -/
theorem calculateConcreteOutcomes_ceilings_inactive_witness :
    (CeilingInactive 80 (50 * (3 / 10) + 40)
        (calculateConcreteOutcomes 50).financial.optimistic ∧
      CeilingInactive 60 ((50 * (3 / 10) + 20) * (7 / 10))
        (calculateConcreteOutcomes 50).financial.realistic ∧
      CeilingInactive 40 (50 * (3 / 10) * (7 / 10))
        (calculateConcreteOutcomes 50).financial.pessimistic) ∧
    (CeilingInactive 70 (50 * (3 / 10) + 30) (calculateConcreteOutcomes 50).respect.optimistic ∧
      CeilingInactive 50 ((50 * (3 / 10) + 15) * (7 / 10))
        (calculateConcreteOutcomes 50).respect.realistic ∧
      CeilingInactive 30 (50 * (3 / 10) * (7 / 10) * (2 / 5))
        (calculateConcreteOutcomes 50).respect.pessimistic) ∧
    (CeilingInactive 75 (50 * (3 / 10) + 35)
        (calculateConcreteOutcomes 50).relationships.optimistic ∧
      CeilingInactive 55 ((50 * (3 / 10) + 20) * (7 / 10))
        (calculateConcreteOutcomes 50).relationships.realistic ∧
      CeilingInactive 35 (50 * (3 / 10) * (7 / 10) * (2 / 5))
        (calculateConcreteOutcomes 50).relationships.pessimistic) ∧
    (CeilingInactive 65 (50 * (3 / 10) + 25)
        (calculateConcreteOutcomes 50).opportunities.optimistic ∧
      CeilingInactive 45 ((50 * (3 / 10) + 10) * (7 / 10))
        (calculateConcreteOutcomes 50).opportunities.realistic ∧
      CeilingInactive 25 (50 * (3 / 10) * (7 / 10) * (2 / 5))
        (calculateConcreteOutcomes 50).opportunities.pessimistic) :=
  calculateConcreteOutcomes_ceilings_inactive 50 (by norm_num) (by norm_num)

/-- C27: selecting an additional condition can raise the estimate.  At age 30, with
S = {cancer, smoking, heart_disease, mental_health} the realistic estimate is
73 − 35 × 0.7 = 48.5, and with hypertension added it is 73 − 39 × 0.6 = 49.6. -/
theorem calculateLifeExpectancy_more_conditions_higher :
    ∃ (age : ℚ) (S : List String) (c : String),
      S.Nodup ∧ "none" ∉ S ∧ c ∉ S ∧ c ∈ diseaseImpact.map Prod.fst ∧
      (calculateLifeExpectancy age S).realistic = 97 / 2 ∧
      (calculateLifeExpectancy age (S ++ [c])).realistic = 248 / 5 ∧
      (calculateLifeExpectancy age (S ++ [c])).realistic >
        (calculateLifeExpectancy age S).realistic := by
  refine ⟨30, ["cancer", "smoking", "heart_disease", "mental_health"], "hypertension",
    by decide, by decide, by decide, by decide, ?_⟩
  have h1 : totalImpact ["cancer", "smoking", "heart_disease", "mental_health"] = -49 / 2 := by
    simp [totalImpact, impactOf, diseaseImpact, List.lookup]
    norm_num
  have h2 : totalImpact (["cancer", "smoking", "heart_disease", "mental_health"] ++
      ["hypertension"]) = -117 / 5 := by
    simp [totalImpact, impactOf, diseaseImpact, List.lookup]
    norm_num
  have r1 : (calculateLifeExpectancy 30
      ["cancer", "smoking", "heart_disease", "mental_health"]).realistic = 97 / 2 := by
    simp only [calculateLifeExpectancy, h1]
    norm_num
  have r2 : (calculateLifeExpectancy 30
      (["cancer", "smoking", "heart_disease", "mental_health"] ++
        ["hypertension"])).realistic = 248 / 5 := by
    simp only [calculateLifeExpectancy, h2]
    norm_num
  refine ⟨r1, r2, ?_⟩
  rw [r1, r2]
  norm_num

/-- C29: `calculateAge` returns the number of completed years.  For a birth date on or
before today in calendar order, the result `a` is ≥ 0, the `a`-th anniversary of the
birth date is on or before today and the `(a+1)`-th anniversary is after today. -/
theorem calculateAge_completed_years (today birthDate : JsDate)
    (h : onOrBefore birthDate today) :
    0 ≤ calculateAge today birthDate ∧
      onOrBefore (anniversary birthDate (calculateAge today birthDate)) today ∧
      ¬ onOrBefore (anniversary birthDate (calculateAge today birthDate + 1)) today := by
  unfold onOrBefore at h
  simp only [calculateAge, onOrBefore, anniversary]
  split <;> refine ⟨?_, ?_, ?_⟩ <;> omega

/-- The claim C29 for a birth date of 15 June 1985 on 4 November 2025: age 40. -/
theorem calculateAge_completed_years_witness :
    0 ≤ calculateAge november2025 bornJune1985 ∧
      onOrBefore (anniversary bornJune1985 (calculateAge november2025 bornJune1985))
        november2025 ∧
      ¬ onOrBefore (anniversary bornJune1985 (calculateAge november2025 bornJune1985 + 1))
        november2025 :=
  calculateAge_completed_years november2025 bornJune1985 (by
    unfold onOrBefore
    decide)

/-- C22 (amended): for every choice log and every log that holds the same records up
to their ids in a permuted order in which, for each of the 8 categories, the in-window
choices of the category keep their order or number at most 3, `calculateScores` returns
the same category scores and the same concrete projection.  In particular an import of
the exported `choiceHistory` into an empty store followed by a load, which keeps the
order of the records and gives them new ids, reproduces the records up to their ids
and identical scores. -/
theorem calculateScores_perm (choiceHistory permuted : List ChoiceRecord) (now : Int)
    (hperm : (permuted.map stripId).Perm (choiceHistory.map stripId))
    (horder : ∀ category ∈ categories,
      ((getRecentChoices permuted now 30).filter
          (fun choice => choice.category == category)).map stripId =
        ((getRecentChoices choiceHistory now 30).filter
          (fun choice => choice.category == category)).map stripId ∨
      ((getRecentChoices choiceHistory now 30).filter
        (fun choice => choice.category == category)).length ≤ 3) :
    calculateScores permuted now = calculateScores choiceHistory now ∧
      (calculateScores permuted now).abstract = (calculateScores choiceHistory now).abstract ∧
      (calculateScores permuted now).concrete = (calculateScores choiceHistory now).concrete ∧
      (∀ (s : AppState) (db : Database), s.db = some db → db.choices = [] →
        (loadChoiceHistory (importChoices s choiceHistory .success)
            .success).choiceHistory.map stripId = choiceHistory.map stripId ∧
          calculateScores
              (loadChoiceHistory (importChoices s choiceHistory .success)
                .success).choiceHistory now =
            calculateScores choiceHistory now) := by
  have heq : calculateScores permuted now = calculateScores choiceHistory now := by
    rw [← calculateScores_map_stripId permuted, ← calculateScores_map_stripId choiceHistory]
    apply calculateScores_perm_same_ids _ _ _ hperm
    intro category hcat
    rw [recent_category_map_stripId, recent_category_map_stripId, List.length_map]
    exact horder category hcat
  refine ⟨heq, by rw [heq], by rw [heq], ?_⟩
  intro s db hdb hempty
  have hloaded := loadChoiceHistory_importChoices s db choiceHistory hdb
  rw [hempty, List.nil_append] at hloaded
  have hstrip := assignFreshIds_stripId db.keyGenerator choiceHistory
  refine ⟨by rw [hloaded, hstrip], ?_⟩
  rw [hloaded, ← calculateScores_map_stripId, hstrip, calculateScores_map_stripId]

/-- The claim C22 at `orderedLog`, four `action` choices followed by one `agency`
choice, and `reorderedLog`, the same records with other ids and the `agency` choice
moved to the front: the two logs differ, and they have the same scores. -/
theorem calculateScores_perm_witness :
    reorderedLog ≠ orderedLog ∧
      ((getRecentChoices orderedLog 0 30).filter
        (fun choice => choice.category == "action")).length = 4 ∧
      calculateScores reorderedLog 0 = calculateScores orderedLog 0 ∧
      (calculateScores reorderedLog 0).abstract = (calculateScores orderedLog 0).abstract ∧
      (calculateScores reorderedLog 0).concrete = (calculateScores orderedLog 0).concrete ∧
      (∀ (s : AppState) (db : Database), s.db = some db → db.choices = [] →
        (loadChoiceHistory (importChoices s orderedLog .success)
            .success).choiceHistory.map stripId = orderedLog.map stripId ∧
          calculateScores
              (loadChoiceHistory (importChoices s orderedLog .success)
                .success).choiceHistory 0 =
            calculateScores orderedLog 0) :=
  ⟨by simp [reorderedLog, orderedLog, fourActionChoices, actionChoice, agencyChoice],
    by simp [getRecentChoices, isAfter, cutoffDate, msPerDay, orderedLog, fourActionChoices,
      actionChoice, agencyChoice],
    calculateScores_perm orderedLog reorderedLog 0
      (by
        simp only [reorderedLog, orderedLog, fourActionChoices, actionChoice, agencyChoice,
          stripId, List.map_cons, List.map_nil, List.cons_append, List.nil_append]
        exact (List.perm_append_singleton _ _).symm)
      (by
        intro category hcat
        left
        simp only [categories, List.mem_cons, List.mem_singleton, List.not_mem_nil,
          or_false] at hcat
        rcases hcat with rfl | rfl | rfl | rfl | rfl | rfl | rfl | rfl <;>
          simp [getRecentChoices, isAfter, cutoffDate, msPerDay, reorderedLog, orderedLog,
            fourActionChoices, actionChoice, agencyChoice, stripId])⟩

/-- C22 as stated fails when a category has more than 3 in-window choices: the four
`action` choices with weights 0, 100, 100, 100 score 75 + 20 = 95, and the same four
in reverse order, 100, 100, 100, 0, score 75 − 20/3 = 205/3. -/
theorem calculateScores_depends_on_order :
    ([actionChoice 100, actionChoice 100, actionChoice 100, actionChoice 0]).Perm
        fourActionChoices ∧
      (calculateScores fourActionChoices 0).abstract.lookup "action" = some 95 ∧
      (calculateScores [actionChoice 100, actionChoice 100, actionChoice 100, actionChoice 0]
        0).abstract.lookup "action" = some (205 / 3) ∧
      calculateScores [actionChoice 100, actionChoice 100, actionChoice 100, actionChoice 0] 0 ≠
        calculateScores fourActionChoices 0 := by
  have hperm : ([actionChoice 100, actionChoice 100, actionChoice 100, actionChoice 0]).Perm
      fourActionChoices := by
    unfold fourActionChoices
    have hcomm : ([actionChoice 100, actionChoice 100, actionChoice 100] ++
        [actionChoice 0]).Perm
        ([actionChoice 0] ++ [actionChoice 100, actionChoice 100, actionChoice 100]) :=
      List.perm_append_comm
    exact hcomm
  have h1 : (calculateScores fourActionChoices 0).abstract.lookup "action" = some 95 := by
    rw [calculateScores_abstract, abstractScores_lookup _ _ (by simp [categories])]
    simp [fourActionChoices, actionChoice, getRecentChoices, isAfter, cutoffDate, msPerDay,
      categoryScore, sumWeights, calculateTrend, sliceFrom, sliceTo]
    norm_num
  have h2 : (calculateScores
      [actionChoice 100, actionChoice 100, actionChoice 100, actionChoice 0]
      0).abstract.lookup "action" = some (205 / 3) := by
    rw [calculateScores_abstract, abstractScores_lookup _ _ (by simp [categories])]
    simp [actionChoice, getRecentChoices, isAfter, cutoffDate, msPerDay,
      categoryScore, sumWeights, calculateTrend, sliceFrom, sliceTo]
    norm_num
  refine ⟨hperm, h1, h2, ?_⟩
  intro heq
  rw [heq, h1] at h2
  norm_num at h2

/-- C21: with the store available and every add succeeding, `importChoices` appends to
the store exactly one record per imported element, in order, each equal to the element
with its `id` replaced by the next key of the store's generator (a key no stored
record has, when the generator is above every stored key); the records already in the
store, the parameter slot and the in-memory fields stay as they were. -/
theorem importChoices_appends (s : AppState) (db : Database) (choices : List ChoiceRecord)
    (hdb : s.db = some db) :
    ∃ db1, (importChoices s choices .success).db = some db1 ∧
      db1.choices = db.choices ++ assignFreshIds db.keyGenerator choices ∧
      (assignFreshIds db.keyGenerator choices).length = choices.length ∧
      (assignFreshIds db.keyGenerator choices).map stripId = choices.map stripId ∧
      (assignFreshIds db.keyGenerator choices).map (fun choice => choice.id) =
        (List.range choices.length).map (fun (i : Nat) => some (db.keyGenerator + (i : Int))) ∧
      ((∀ stored ∈ db.choices, ∀ key, stored.id = some key → key < db.keyGenerator) →
        ∀ stored ∈ db.choices, ∀ added ∈ assignFreshIds db.keyGenerator choices,
          stored.id ≠ added.id) ∧
      db1.lifeParameters = db.lifeParameters ∧
      (importChoices s choices .success).choiceHistory = s.choiceHistory := by
  have hlen : (assignFreshIds db.keyGenerator choices).length = choices.length := by
    have := congrArg List.length (assignFreshIds_stripId db.keyGenerator choices)
    simpa using this
  refine ⟨choices.foldl (fun store choice => addChoice store (stripId choice)) db,
    by simp only [importChoices, hdb], ?_, hlen, assignFreshIds_stripId _ _,
    assignFreshIds_ids _ _, ?_, ?_, by simp only [importChoices, hdb]⟩
  · rw [foldl_addChoice_stripId]
  · intro hgen stored hstored added hadded heq
    obtain ⟨key, hkey, hle⟩ := assignFreshIds_id_ge _ _ added hadded
    have := hgen stored hstored key (by rw [heq, hkey])
    omega
  · rw [foldl_addChoice_stripId]

/-- The claim C21 at an empty store whose generator stands at 1, importing one record
that carries the id 1. -/
theorem importChoices_appends_witness :
    ∃ db1, (importChoices storeSession [quotedChoice] .success).db = some db1 ∧
      db1.choices = [] ++ assignFreshIds 1 [quotedChoice] ∧
      (assignFreshIds 1 [quotedChoice]).length = [quotedChoice].length ∧
      (assignFreshIds 1 [quotedChoice]).map stripId = [quotedChoice].map stripId ∧
      (assignFreshIds 1 [quotedChoice]).map (fun choice => choice.id) =
        (List.range [quotedChoice].length).map (fun (i : Nat) => some (1 + (i : Int))) ∧
      ((∀ stored ∈ ([] : List ChoiceRecord), ∀ key, stored.id = some key → key < 1) →
        ∀ stored ∈ ([] : List ChoiceRecord), ∀ added ∈ assignFreshIds 1 [quotedChoice],
          stored.id ≠ added.id) ∧
      db1.lifeParameters = none ∧
      (importChoices storeSession [quotedChoice] .success).choiceHistory =
        storeSession.choiceHistory :=
  importChoices_appends storeSession
    { choices := [], keyGenerator := 1, lifeParameters := none } [quotedChoice] rfl

/-- C23 (the code at the failing input): when the add request fails, both
`request.onerror` and `transaction.onerror` push the record with the id `Date.now()`,
so the history holds two records with the same id; and with the store unavailable two
`saveChoice` calls within the same millisecond give both records the same id. -/
theorem saveChoice_duplicate_ids :
    (saveChoice storeSession (actionChoice 0) 1762214400000 .requestError).choiceHistory.map
        (fun choice => choice.id) = [some 1762214400000, some 1762214400000] ∧
      ¬ ((saveChoice storeSession (actionChoice 0) 1762214400000
        .requestError).choiceHistory.map (fun choice => choice.id)).Nodup ∧
      (saveChoice (saveChoice unavailableSession (actionChoice 0) 1762214400000 .success)
        (agencyChoice 100) 1762214400000 .success).choiceHistory.map
        (fun choice => choice.id) =
          [some 1762214000000, some 1762214400000, some 1762214400000] ∧
      ¬ ((saveChoice (saveChoice unavailableSession (actionChoice 0) 1762214400000 .success)
        (agencyChoice 100) 1762214400000 .success).choiceHistory.map
        (fun choice => choice.id)).Nodup := by
  have h1 : (saveChoice storeSession (actionChoice 0) 1762214400000
      .requestError).choiceHistory.map (fun choice => choice.id) =
      [some 1762214400000, some 1762214400000] := by
    simp [saveChoice, storeSession, pushChoice]
  have h2 : (saveChoice (saveChoice unavailableSession (actionChoice 0) 1762214400000 .success)
      (agencyChoice 100) 1762214400000 .success).choiceHistory.map
      (fun choice => choice.id) =
        [some 1762214000000, some 1762214400000, some 1762214400000] := by
    simp [saveChoice, unavailableSession, pushChoice]
  refine ⟨h1, ?_, h2, ?_⟩
  · rw [h1]
    decide
  · rw [h2]
    decide

/-- C30 (the code at the failing input): when the add request fails, the handlers
`request.onerror` and `transaction.onerror` both run and `saveChoice` appends the
record twice; for the three other outcomes (store unavailable, success, thrown
exception) it appends exactly one record, carrying the given fields plus an id, after
the earlier records. -/
theorem saveChoice_request_error_appends_twice :
    (saveChoice storeSession (actionChoice 0) 1762214400000 .requestError).choiceHistory =
        storeSession.choiceHistory ++
          [{ actionChoice 0 with id := some 1762214400000 },
            { actionChoice 0 with id := some 1762214400000 }] ∧
      (saveChoice storeSession (actionChoice 0) 1762214400000
        .requestError).choiceHistory.length = storeSession.choiceHistory.length + 2 ∧
      (∀ (s : AppState) (db : Database) (r : ChoiceRecord) (now : Int),
        s.db = some db →
          (saveChoice s r now .requestError).choiceHistory =
            s.choiceHistory ++ [{ r with id := some now }, { r with id := some now }]) ∧
      (∀ (s : AppState) (r : ChoiceRecord) (now : Int) (outcome : StoreOutcome),
        s.db = none ∨ outcome ≠ .requestError →
          ∃ id, (saveChoice s r now outcome).choiceHistory =
            s.choiceHistory ++ [{ r with id := some id }]) := by
  refine ⟨by simp [saveChoice, storeSession, pushChoice],
    by simp [saveChoice, storeSession, pushChoice], ?_, ?_⟩
  · intro s db r now hdb
    simp [saveChoice, hdb, pushChoice]
  · intro s r now outcome h
    cases hdb : s.db with
    | none => exact ⟨now, by simp [saveChoice, hdb, pushChoice]⟩
    | some db =>
      rcases h with h | h
      · rw [hdb] at h
        exact absurd h (by simp)
      · cases outcome with
        | success => exact ⟨addKey db r, by simp [saveChoice, hdb, pushChoice]⟩
        | requestError => exact absurd rfl h
        | thrown => exact ⟨now, by simp [saveChoice, hdb, pushChoice]⟩

/-- C24 (amended): if the database `initDatabase` ends up with lacks the `choices` or
the `lifeParameters` collection, the store is left flagged unavailable (`db = null`),
and `db` is only ever set to a database that has both; reopening a database that is
already at the current version, or upgrading one that has both collections, creates
and alters nothing.  Secondary indexes are not looked at: after a successful open the
store is available exactly when both collections exist. -/
theorem initDatabase_missing_store (stored : DatabaseSchema) (outcome : OpenOutcome)
    (throwsAt : Option Nat) :
    ((containsStore (initDatabase stored outcome throwsAt).2 "choices" = false ∨
        containsStore (initDatabase stored outcome throwsAt).2 "lifeParameters" = false) →
      (initDatabase stored outcome throwsAt).1 = none) ∧
    (∀ opened, (initDatabase stored outcome throwsAt).1 = some opened →
      opened = (initDatabase stored outcome throwsAt).2 ∧
        containsStore opened "choices" = true ∧
        containsStore opened "lifeParameters" = true) ∧
    (outcome = .success → stored.version ≤ 2 →
      containsStore (initDatabase stored outcome throwsAt).2 "choices" = true →
      containsStore (initDatabase stored outcome throwsAt).2 "lifeParameters" = true →
      (initDatabase stored outcome throwsAt).1 =
        some (initDatabase stored outcome throwsAt).2) ∧
    (2 ≤ stored.version → (initDatabase stored outcome throwsAt).2 = stored) ∧
    (containsStore stored "choices" = true → containsStore stored "lifeParameters" = true →
      onUpgradeNeeded stored throwsAt = stored) := by
  refine ⟨?_, ?_, ?_, ?_, ?_⟩
  · intro hmissing
    cases outcome with
    | thrown => rfl
    | error => rfl
    | success =>
      simp only [initDatabase] at hmissing ⊢
      split
      · rfl
      · rename_i hv
        simp only [hv, if_false] at hmissing
        simp only [onOpenSuccess]
        rcases hmissing with h | h <;> simp [h]
  · intro opened hopened
    cases outcome with
    | thrown => simp [initDatabase] at hopened
    | error => simp [initDatabase] at hopened
    | success =>
      simp only [initDatabase] at hopened ⊢
      split at hopened
      · simp at hopened
      · rename_i hv
        simp only [hv, if_false]
        simp only [onOpenSuccess] at hopened
        split at hopened
        · simp at hopened
        · rename_i hcontains
          simp only [Option.some.injEq] at hopened
          subst hopened
          simp only [Bool.or_eq_true, Bool.not_eq_true', not_or, Bool.not_eq_false] at hcontains
          exact ⟨rfl, hcontains.1, hcontains.2⟩
  · intro hsuccess hversion
    subst hsuccess
    have hv : ¬ stored.version > 2 := by omega
    simp only [initDatabase, hv, if_false]
    intro hchoices hparams
    simp [onOpenSuccess, hchoices, hparams]
  · intro hversion
    cases outcome with
    | thrown => rfl
    | error => rfl
    | success =>
      simp only [initDatabase]
      split
      · rfl
      · have hv : ¬ stored.version < 2 := by omega
        simp only [openedDatabase, hv, if_false]
  · intro hchoices hparams
    simp only [onUpgradeNeeded, createChoicesStore, hchoices, if_true, createParameterStore,
      hparams]

/-- C24 as stated fails on a database at the current version whose `choices`
collection has neither the `timestamp` nor the `category` index: both collections
exist, so `initDatabase` leaves the store available (`db` is the opened database). -/
theorem initDatabase_ignores_missing_indexes :
    (schemaWithoutIndexes.objectStores.filter
        (fun store => store.name == "choices")).map (fun store => store.indexNames) = [[]] ∧
      initDatabase schemaWithoutIndexes .success none =
        (some schemaWithoutIndexes, schemaWithoutIndexes) ∧
      (initDatabase schemaWithoutIndexes .success none).1 ≠ none ∧
      (initDatabase schemaWithoutParameters .success none).1 = none := by
  decide

/-- C28 (the code at the failing input): a user born on 15 June 1945 who sets the
parameters on 4 November 2025 with no condition has age 80 and life expectancies
91 / 81 / 81, an ordered triple.  After one `action` choice of weight 0 the aggregate is
43.75, the impact is negative, and since the pessimistic scenario takes half of it and
the realistic scenario all of it, the pessimistic countdown shows 154 days and the
realistic one 86 days: the pessimistic remaining time is the larger one, in
`updateCountdownDisplay` and in `updateQuickCountdownDisplay`. -/
theorem scenario_order_broken_by_negative_impact :
    JsDate.getTime november2025 = 1762214400000 ∧
      calculateAge november2025 bornJune1945 = 80 ∧
      calculateLifeExpectancy 80 ["none"] =
        { optimistic := 91, realistic := 81, pessimistic := 81 } ∧
      countdownAvgAbstract (calculateScores [recentWorstChoice] 1762214400000).abstract =
        175 / 4 ∧
      (updateCountdownDisplay (some bornJune1945) (some (calculateLifeExpectancy 80 ["none"]))
          [recentWorstChoice] 1762214400000).map
          (fun d => [d.pessimistic.days, d.realistic.days, d.optimistic.days,
            unitsSeconds d.pessimistic, unitsSeconds d.realistic, unitsSeconds d.optimistic]) =
        some [154, 86, 3670, 13354200, 7441200, 317147400] ∧
      (updateQuickCountdownDisplay (some bornJune1945)
          (some (calculateLifeExpectancy 80 ["none"])) [recentWorstChoice] 1762214400000).map
          (fun d => [d.pessimistic.days, d.realistic.days, d.optimistic.days,
            unitsSeconds d.pessimistic, unitsSeconds d.realistic, unitsSeconds d.optimistic]) =
        some [154, 86, 3670, 13354200, 7441200, 317147400] := by
  have hlife := lifeExpectancy_eighty_none
  have hagg := aggregate_recentWorstChoice
  have a1 : adjustedDeathTime bornJune1945 81 (choiceImpactDays (175 / 4)) =
      1769655600000 := by
    simpa using adjustedDeathTime_eval bornJune1945 81 (-11826000000) _ 1769655600000
      (by norm_num [choiceImpactDays]) (by decide)
  have a2 : adjustedDeathTime bornJune1945 91 (choiceImpactDays (175 / 4) * (3 / 2)) =
      2079361800000 := by
    simpa using adjustedDeathTime_eval bornJune1945 91 (-17739000000) _ 2079361800000
      (by norm_num [choiceImpactDays]) (by decide)
  have a3 : adjustedDeathTime bornJune1945 81 (choiceImpactDays (175 / 4) * (1 / 2)) =
      1775568600000 := by
    simpa using adjustedDeathTime_eval bornJune1945 81 (-5913000000) _ 1775568600000
      (by norm_num [choiceImpactDays]) (by decide)
  refine ⟨by decide, by decide, hlife, hagg, ?_, ?_⟩
  · rw [hlife]
    simp only [updateCountdownDisplay, Option.map_some', hagg, scenarioUnits,
      LifeExpectancies.get, adjustedChoiceImpact, a1, a2, a3]
    norm_num
    rw [breakdownUnits_eq _ (by norm_num), breakdownUnits_eq _ (by norm_num),
      breakdownUnits_eq _ (by norm_num)]
    norm_num [unitsSeconds]
  · rw [hlife]
    simp only [updateQuickCountdownDisplay, Option.map_some', hagg, scenarioUnits,
      LifeExpectancies.get, adjustedChoiceImpact, a1, a2, a3]
    norm_num
    rw [breakdownUnits_eq _ (by norm_num), breakdownUnits_eq _ (by norm_num),
      breakdownUnits_eq _ (by norm_num)]
    norm_num [unitsSeconds]

end LTree
